import Mathlib

/-! # Replayer synchronisation engine

A shallow embedding of `src/tetrane/bochs_replayer/replayer/replayer.cpp`
(the sync-event matcher, the interrupt reconciler and the hardware access
replayer) together with the properties proved about it.

Conventions of the embedding:

* machine integers are natural numbers; a narrowing conversion of the source
  is written as an explicit `% 2 ^ w`;
* the two stream cursors (`sync_file_`, `hardware_file_`) are the lists of the
  entries not yet consumed, the head being `current()`;
* every call into the execution engine whose body is not part of the replayer
  (forced interrupt, memory transfer, clock update) and every diagnostic of
  the replayer is appended to an effect log, in program order; the forced
  interrupt, whose engine routine calls back the interrupt hook of the
  replayer on entry, also runs that hook;
* `longjmp` is an explicit control-flow outcome (`Flow`).
-/

namespace reven

/-! ## Data model -/

/-- The register snapshot `reven::vmghost::sync_event::context`: the fields
read and written by the replayer (general-purpose registers, RSP, control
registers, FPU words and the hardware clock). -/
structure context where
  rax : Nat
  rbx : Nat
  rcx : Nat
  rdx : Nat
  rsi : Nat
  rdi : Nat
  rbp : Nat
  rsp : Nat
  r8 : Nat
  r9 : Nat
  r10 : Nat
  r11 : Nat
  r12 : Nat
  r13 : Nat
  r14 : Nat
  r15 : Nat
  cr0 : Nat
  cr2 : Nat
  cr3 : Nat
  cr4 : Nat
  fpu_sw : Nat
  fpu_cw : Nat
  fpu_tags : Nat
  tsc : Nat
  deriving DecidableEq, Repr

/-- A default-constructed context: every field is zero. -/
def context.zero : context :=
  ⟨0, 0, 0, 0, 0, 0, 0, 0, 0, 0, 0, 0, 0, 0, 0, 0, 0, 0, 0, 0, 0, 0, 0, 0⟩

/-- The recorded checkpoint `reven::vmghost::sync_event`, with the fields the
replayer uses. -/
structure sync_event where
  is_valid : Bool
  position : Nat
  start_rip : Nat
  start_context : context
  is_first_event_context_unknown : Bool
  is_last_event : Bool
  is_instruction_emulation : Bool
  has_interrupt : Bool
  interrupt_vector : Nat
  interrupt_rip : Nat
  fault_error_code : Nat
  rflags : Nat
  new_context : context
  deriving DecidableEq, Repr

/-- The value of `reven::vmghost::sync_event()`: an event that is not valid. -/
def sync_event.none : sync_event :=
  ⟨false, 0, 0, context.zero, false, false, false, false, 0, 0, 0, 0, context.zero⟩

/-! ## Context equivalence -/

/-- The heuristic `looks_like_eflags(std::uint32_t value)`. The parameter is a
32-bit integer, so a 64-bit register value is narrowed on entry. -/
def looks_like_eflags (v : Nat) : Bool :=
  let value := v % 2 ^ 32
  ((value >>> 1) &&& 1 == 1) &&
  ((value >>> 3) &&& 1 == 0) &&
  ((value >>> 5) &&& 1 == 0) &&
  ((value >>> 15) &&& 1 == 0) &&
  (value >>> 22 == 0)

/-- The macro `TEST_IGNORE_EFL(sync, value)`: the conjunct it contributes to
`valid`. -/
def TEST_IGNORE_EFL (sync value : Nat) : Bool :=
  (sync == value) || (looks_like_eflags sync && looks_like_eflags value)

/-- Rule B, `match_with_no_eflags(a, b)`. -/
def match_with_no_eflags (a b : context) : Bool :=
  let valid := true
  let valid := valid && TEST_IGNORE_EFL a.rax b.rax
  let valid := valid && TEST_IGNORE_EFL a.rbx b.rbx
  let valid := valid && TEST_IGNORE_EFL a.rcx b.rcx
  let valid := valid && TEST_IGNORE_EFL a.rdx b.rdx
  let valid := valid && TEST_IGNORE_EFL a.rsi b.rsi
  let valid := valid && TEST_IGNORE_EFL a.rdi b.rdi
  let valid := valid && TEST_IGNORE_EFL a.rbp b.rbp
  let valid := valid && TEST_IGNORE_EFL a.r8 b.r8
  let valid := valid && TEST_IGNORE_EFL a.r9 b.r9
  let valid := valid && TEST_IGNORE_EFL a.r10 b.r10
  let valid := valid && TEST_IGNORE_EFL a.r11 b.r11
  let valid := valid && TEST_IGNORE_EFL a.r12 b.r12
  let valid := valid && TEST_IGNORE_EFL a.r13 b.r13
  let valid := valid && TEST_IGNORE_EFL a.r14 b.r14
  let valid := valid && TEST_IGNORE_EFL a.r15 b.r15
  let valid := valid && (a.rsp == b.rsp)
  let valid := valid && (a.cr0 == b.cr0)
  let valid := valid && (a.cr2 == b.cr2)
  let valid := valid && (a.cr3 == b.cr3)
  let valid := valid && (a.cr4 == b.cr4)
  valid

/-- Modelled from the spec: `context::are_values_equivalent` belongs to the
sync-point library, which is not part of the sources. Rule A of the spec: all
tracked fields are equal, the tracked fields being the general-purpose
registers, RSP, the control registers 0/2/3/4 and the FPU status, control and
tag words (the hardware clock is not a tracked field). -/
def context.are_values_equivalent (a b : context) : Bool :=
  (a.rax == b.rax) && (a.rbx == b.rbx) && (a.rcx == b.rcx) && (a.rdx == b.rdx) &&
  (a.rsi == b.rsi) && (a.rdi == b.rdi) && (a.rbp == b.rbp) && (a.rsp == b.rsp) &&
  (a.r8 == b.r8) && (a.r9 == b.r9) && (a.r10 == b.r10) && (a.r11 == b.r11) &&
  (a.r12 == b.r12) && (a.r13 == b.r13) && (a.r14 == b.r14) && (a.r15 == b.r15) &&
  (a.cr0 == b.cr0) && (a.cr2 == b.cr2) && (a.cr3 == b.cr3) && (a.cr4 == b.cr4) &&
  (a.fpu_sw == b.fpu_sw) && (a.fpu_cw == b.fpu_cw) && (a.fpu_tags == b.fpu_tags)

/-- The relation "all tracked fields are equal" of the data model: the
general-purpose registers, RSP, the control registers 0/2/3/4 and the FPU
status, control and tag words. -/
def context.tracked_fields_equal (a b : context) : Prop :=
  a.rax = b.rax ∧ a.rbx = b.rbx ∧ a.rcx = b.rcx ∧ a.rdx = b.rdx ∧
  a.rsi = b.rsi ∧ a.rdi = b.rdi ∧ a.rbp = b.rbp ∧ a.rsp = b.rsp ∧
  a.r8 = b.r8 ∧ a.r9 = b.r9 ∧ a.r10 = b.r10 ∧ a.r11 = b.r11 ∧
  a.r12 = b.r12 ∧ a.r13 = b.r13 ∧ a.r14 = b.r14 ∧ a.r15 = b.r15 ∧
  a.cr0 = b.cr0 ∧ a.cr2 = b.cr2 ∧ a.cr3 = b.cr3 ∧ a.cr4 = b.cr4 ∧
  a.fpu_sw = b.fpu_sw ∧ a.fpu_cw = b.fpu_cw ∧ a.fpu_tags = b.fpu_tags

instance (a b : context) : Decidable (a.tracked_fields_equal b) := by
  unfold context.tracked_fields_equal
  infer_instance

/-- The tolerance of Rule B on one general-purpose register: the two values
are equal, or both pass `looks_like_eflags`. -/
def tolerated (x y : Nat) : Prop :=
  x = y ∨ (looks_like_eflags x = true ∧ looks_like_eflags y = true)

instance (x y : Nat) : Decidable (tolerated x y) := by
  unfold tolerated
  infer_instance

/-- A context in which every general-purpose register holds `g`, RSP holds
`sp`, the four control registers hold `cr` and the three FPU words hold
`fpu`; used to write concrete inputs. -/
def context.fill (g sp cr fpu : Nat) : context :=
  ⟨g, g, g, g, g, g, g, sp, g, g, g, g, g, g, g, g, cr, cr, cr, cr, fpu, fpu, fpu, 0⟩

/-! ## Streams -/

/-- The recorded device transaction `reven::vmghost::hardware_access`, with the
fields and class predicates the replayer uses; `data` is the payload, one
number per byte. -/
structure hardware_access where
  valid : Bool
  tsc : Nat
  physical_address : Nat
  data : List Nat
  is_write : Bool
  is_port : Bool
  is_mmio : Bool
  deriving DecidableEq, Repr

/-- The value returned by `hardware_file::current()` once the stream is
exhausted: an access that is not valid. -/
def hardware_access.none : hardware_access :=
  ⟨false, 0, 0, [], false, false, false⟩

/-- The call `sync_file_.current_event()` on the cursor: the head of the
remaining events, or an invalid event when none remains. -/
def current_event : List sync_event → sync_event
  | [] => sync_event.none
  | e :: _ => e

/-- The call `hardware_file_.current()` on the cursor. -/
def current : List hardware_access → hardware_access
  | [] => hardware_access.none
  | a :: _ => a

/-! ## Execution engine -/

/-- The instruction handlers `BxExecutePtr_tR` named by the replayer, and any
other handler (`other n`). -/
inductive BxExecutePtr_tR where
  | INSB32_YbDX | INSB16_YbDX | INSW32_YwDX | INSW16_YwDX | INSD32_YdDX | INSD16_YdDX
  | OUTSB32_DXXb | OUTSB16_DXXb | OUTSW32_DXXw | OUTSW16_DXXw | OUTSD32_DXXd | OUTSD16_DXXd
  | REP_INSB_YbDX | REP_INSW_YwDX | REP_INSD_YdDX
  | REP_OUTSB_DXXb | REP_OUTSW_DXXw | REP_OUTSD_DXXd
  | INSB64_YbDX | INSW64_YwDX | INSD64_YdDX
  | OUTSB64_DXXb | OUTSW64_DXXw | OUTSD64_DXXd
  | IN_ALIb | IN_AXIb | IN_EAXIb | OUT_IbAL | OUT_IbAX | OUT_IbEAX
  | IN_ALDX | IN_AXDX | IN_EAXDX | OUT_DXAL | OUT_DXAX | OUT_DXEAX
  | RDTSC | RDMSR | WRMSR
  | MONITOR | MWAIT
  | HLT
  | NOP
  | other (n : Nat)
  deriving DecidableEq, Repr

/-- The opcode returned by `getIaOpcode()`: `BX_IA_INT3` or any other one. -/
inductive IaOpcode where
  | BX_IA_INT3
  | other (n : Nat)
  deriving DecidableEq, Repr

/-- The decoded instruction `bxInstruction_c`: its handler and its opcode. -/
structure bxInstruction_c where
  execute1 : BxExecutePtr_tR
  ia_opcode : IaOpcode
  deriving DecidableEq, Repr

/-- The origin argument of `BX_CPU_C::interrupt`. -/
inductive InterruptType where
  | BX_EXTERNAL_INTERRUPT
  | BX_NMI
  | BX_HARDWARE_EXCEPTION
  | BX_SOFTWARE_INTERRUPT
  | BX_PRIVILEGED_SOFTWARE_INTERRUPT
  | BX_SOFTWARE_EXCEPTION
  deriving DecidableEq, Repr

/-- The access kind passed to the memory instrumentation callbacks. -/
inductive AccessKind where
  | BX_READ
  | BX_WRITE
  | BX_EXECUTE
  | BX_RW
  deriving DecidableEq, Repr

/-- The tag word register `the_i387.twd`: a raw value, or the result of the
engine routine `unpack_FPU_TW` on a packed tag byte (the routine itself is
engine code and is kept symbolic). -/
inductive TagWord where
  | raw (twd : Nat)
  | unpack_FPU_TW (tags : Nat)
  deriving DecidableEq, Repr

/-- The part of `BX_CPU_C` the replayer reads and writes. `gen_reg[k].rrx` is
the field named after register `k` (0 rax, 1 rcx, 2 rdx, 3 rbx, 4 rsp, 5 rbp,
6 rsi, 7 rdi, 8..15 r8..r15, `BX_64BIT_REG_RIP` rip). The three `get_*`
fields are the values returned by the engine accessors
`the_i387.get_status_word()`, `the_i387.get_control_word()` and
`pack_FPU_TW(the_i387.get_tag_word())` at the time of the callback. -/
structure BX_CPU_C where
  rax : Nat
  rcx : Nat
  rdx : Nat
  rbx : Nat
  rsp : Nat
  rbp : Nat
  rsi : Nat
  rdi : Nat
  r8 : Nat
  r9 : Nat
  r10 : Nat
  r11 : Nat
  r12 : Nat
  r13 : Nat
  r14 : Nat
  r15 : Nat
  rip : Nat
  prev_rip : Nat
  cr0_val32 : Nat
  cr2 : Nat
  cr3 : Nat
  cr4_val32 : Nat
  get_status_word : Nat
  get_control_word : Nat
  get_packed_tag_word : Nat
  i387_cwd : Nat
  i387_twd : TagWord
  i387_swd : Nat
  i387_tos : Nat
  tsc : Nat
  CF : Nat
  PF : Nat
  AF : Nat
  ZF : Nat
  SF : Nat
  TF : Nat
  IF : Nat
  DF : Nat
  OF : Nat
  IOPL : Nat
  async_event : Nat
  deriving DecidableEq, Repr

/-! ## Effect log -/

/-- The suffix of a match diagnostic: `LOG_MATCH_SYNC_EVENT` has none, each
`LOG_MATCH_SYNC_EVENT_EXTRA` has its own message. -/
inductive MatchNote where
  | plain
  | without_eflags
  | during_exception
  | during_exception_without_eflags
  | during_interrupt
  | during_interrupt_without_eflags
  deriving DecidableEq, Repr

/-- The messages of `LOG_END_REPLAY` and `LOG_DESYNC` in the replayer and in
the instrumentation callbacks. -/
inductive Message where
  | no_more_valid_sync_points
  | found_a_stopping_int3
  | reach_the_last_sync_point
  | stopping_int3_without_sync_point
  | cannot_execute_without_sync_point
  | exception_not_generated
  | unmatched_exception
  | unmatched_interrupt
  | read_access_bigger_than_maximum
  | more_than_two_accesses_in_a_rmw_operation
  | physical_access_without_matching_linear_access
  deriving DecidableEq, Repr

/-- The flags corrected by `interrupt` after a matched interrupt. -/
inductive FlagName where
  | CF | PF | AF | ZF | SF | TF | IF | DF | OF | IOPL
  deriving DecidableEq, Repr

/-- What the replayer does to the outside, in program order: diagnostics and
calls into the execution engine. -/
inductive Effect where
  | match_sync_event (position : Nat) (note : MatchNote)
  | warn_saving_interrupt (position : Nat)
  | warn_simulating_interrupt (position : Nat)
  | warn_forcing_flag (name : FlagName)
  | warn_forcing_pagefault (address position : Nat)
  | info_forcing_emulation (position : Nat)
  | message (msg : Message)
  | set_TSC (tsc : Nat)
  | access_write_linear (offset : Nat) (data : List Nat)
  | access_read_linear (offset len : Nat)
  | mem_write_physical_dma (addr : Nat) (data : List Nat)
  | mem_read_physical_dma (addr len : Nat)
  | interrupt (vector : Nat) (type : InterruptType) (push_error error_code : Nat)
  | page_fault (fault address user : Nat) (rw : AccessKind)
  | end_of_scenario (desync : Bool)
  deriving DecidableEq, Repr

/-- How a callback hands control back: it returns, or it leaves through
`longjmp(BX_CPU(cpu)->jmp_buf_env, val)`. -/
inductive Flow where
  | returned
  | longjmp (val : Nat)
  deriving DecidableEq, Repr

/-! ## Replayer state -/

/-- The members of `Replayer` used by the synchronisation engine, the engine
state `BX_CPU(cpu)`, the instruction `*i` handed to the instruction callbacks,
the global `bx_pc_system.kill_bochs_request` and the effect log. -/
structure Replayer where
  sync_file_ : List sync_event
  hardware_file_ : List hardware_access
  current_rip_ : Nat
  current_instruction_ : BxExecutePtr_tR
  current_event_ : sync_event
  current_ctx_ : context
  saved_interrupt_event_ : sync_event
  desync_ : Bool
  last_sync_point_ : Nat
  cpu : BX_CPU_C
  i : bxInstruction_c
  kill_bochs_request : Bool
  log : List Effect
  deriving DecidableEq, Repr

/-- The result of a callback: how it left, and the state it left. -/
abbrev Result := Flow × Replayer

/-- Sequencing: the continuation runs only if the first part returned. -/
def Result.andThen (r : Result) (k : Replayer → Result) : Result :=
  match r.1 with
  | Flow.returned => k r.2
  | Flow.longjmp _ => r

/-- Appends one effect to the log. -/
def Replayer.emit (m : Replayer) (e : Effect) : Replayer :=
  { m with log := m.log ++ [e] }

/-! ## Scenario terminator and logging macros -/

/-- The method `Replayer::end_of_scenario(cpu, desync)`: stores the flag, asks
the engine to stop and leaves through `longjmp(jmp_buf_env, 1)`. -/
def end_of_scenario (m : Replayer) (desync : Bool) : Result :=
  let m := { m with desync_ := desync }
  let m := { m with cpu := { m.cpu with async_event := 1 } }
  let m := { m with kill_bochs_request := true }
  (Flow.longjmp 1, m.emit (Effect.end_of_scenario desync))

/-- The macro `LOG_DESYNC(cpu, message)`. -/
def LOG_DESYNC (m : Replayer) (msg : Message) : Result :=
  end_of_scenario (m.emit (Effect.message msg)) true

/-- The macro `LOG_END_REPLAY(cpu, message)`. -/
def LOG_END_REPLAY (m : Replayer) (msg : Message) : Result :=
  end_of_scenario (m.emit (Effect.message msg)) false

/-! ## Hardware access replayer -/

/-- The constant `read_data_size` of `apply_hardware_access`: 100 KiB. -/
def read_data_size : Nat := 100 * 1024

/-- The body of the loop of `apply_hardware_access` between the size check and
`hardware_file_.next()`: the transfer done for one access. Port transfers go
through `ES:RDI` (write) or `DS:RSI` (read); other accesses that are not MMIO
go to physical memory; MMIO accesses do nothing. -/
def replay_access (m : Replayer) (access : hardware_access) : Replayer :=
  if access.is_port then
    if access.is_write then
      m.emit (Effect.access_write_linear m.cpu.rdi access.data)
    else
      m.emit (Effect.access_read_linear m.cpu.rsi access.data.length)
  else if !access.is_mmio then
    if access.is_write then
      m.emit (Effect.mem_write_physical_dma access.physical_address access.data)
    else
      m.emit (Effect.mem_read_physical_dma access.physical_address access.data.length)
  else
    m

/-- The `while` loop of `apply_hardware_access`; the list is the cursor
`hardware_file_`, which every iteration advances by `next()`. -/
def apply_hardware_loop (tsc : Nat) : List hardware_access → Replayer → Result
  | [], m => (Flow.returned, m)
  | access :: rest, m =>
    if access.valid && decide (access.tsc ≤ tsc) then
      if !access.is_write && decide (access.data.length > read_data_size) then
        LOG_DESYNC m Message.read_access_bigger_than_maximum
      else
        apply_hardware_loop tsc rest { replay_access m access with hardware_file_ := rest }
    else
      (Flow.returned, m)

/-- The method `Replayer::apply_hardware_access(cpu, tsc)`. -/
def apply_hardware_access (m : Replayer) (tsc : Nat) : Result :=
  let m := { m with cpu := { m.cpu with tsc := tsc } }.emit (Effect.set_TSC tsc)
  apply_hardware_loop tsc m.hardware_file_ m

/-- An access that the loop of `apply_hardware_access` processes at clock
`tsc`: it is valid and its clock value is at most `tsc`. -/
def hardware_access.due (a : hardware_access) (tsc : Nat) : Bool :=
  a.valid && decide (a.tsc ≤ tsc)

/-- A read access whose payload exceeds `read_data_size`. -/
def hardware_access.oversized_read (a : hardware_access) : Bool :=
  !a.is_write && decide (a.data.length > read_data_size)

/-- The effects of `replay_access` on the engine with registers `cpu`. -/
def access_effects (cpu : BX_CPU_C) (a : hardware_access) : List Effect :=
  if a.is_port then
    if a.is_write then [Effect.access_write_linear cpu.rdi a.data]
    else [Effect.access_read_linear cpu.rsi a.data.length]
  else if !a.is_mmio then
    if a.is_write then [Effect.mem_write_physical_dma a.physical_address a.data]
    else [Effect.mem_read_physical_dma a.physical_address a.data.length]
  else []

/-- The entries a replay up to `tsc` consumes: the longest prefix of due
entries, cut before the first oversized read. -/
def consumed_entries (tsc : Nat) : List hardware_access → List hardware_access
  | [] => []
  | a :: rest =>
    if a.due tsc && !a.oversized_read then a :: consumed_entries tsc rest else []

/-- Whether a replay up to `tsc` meets an oversized read among the due
entries. -/
def meets_oversized_read (tsc : Nat) : List hardware_access → Bool
  | [] => false
  | a :: rest =>
    if a.due tsc then
      if a.oversized_read then true else meets_oversized_read tsc rest
    else false

/-- The state left by a replay up to `tsc` that meets no oversized read: the
clock is set, the consumed prefix is dropped from the cursor and its transfers
are logged after the clock update. -/
def replayed (m : Replayer) (tsc : Nat) : Replayer :=
  { m with
    cpu := { m.cpu with tsc := tsc },
    hardware_file_ := m.hardware_file_.drop (consumed_entries tsc m.hardware_file_).length,
    log := m.log ++ Effect.set_TSC tsc ::
      (consumed_entries tsc m.hardware_file_).flatMap (access_effects m.cpu) }

/-- Lines 873-899 of `apply_sync_event`: the outcome of an emulated
instruction is forced into the engine registers from the post-state `c` of
the event at `position`. -/
def force_emulation (m : Replayer) (position : Nat) (c : context) : Replayer :=
  { m.emit (Effect.info_forcing_emulation position) with
    cpu := { m.cpu with
      rax := c.rax, rbx := c.rbx, rcx := c.rcx, rdx := c.rdx,
      rsi := c.rsi, rdi := c.rdi, rbp := c.rbp, rsp := c.rsp,
      r8 := c.r8, r9 := c.r9, r10 := c.r10, r11 := c.r11,
      r12 := c.r12, r13 := c.r13, r14 := c.r14, r15 := c.r15,
      cr0_val32 := c.cr0 % 2 ^ 32, cr2 := c.cr2, cr3 := c.cr3,
      cr4_val32 := c.cr4 % 2 ^ 32,
      i387_cwd := c.fpu_cw % 2 ^ 16,
      i387_twd := TagWord.unpack_FPU_TW c.fpu_tags,
      i387_swd := c.fpu_sw % 2 ^ 16,
      i387_tos := ((c.fpu_sw % 2 ^ 16) >>> 11) % 2 ^ 8 } }

/-- The method `Replayer::apply_sync_event(cpu, sync_event)`. -/
def apply_sync_event (m : Replayer) (ev : sync_event) : Result :=
  (apply_hardware_access m ev.new_context.tsc).andThen fun m =>
    if ev.is_instruction_emulation then
      (Flow.returned, force_emulation m ev.position ev.new_context)
    else
      (Flow.returned, m)

/-! ## Event matcher -/

/-- The list `emulated_instructions`: instructions that need a sync point. -/
def emulated_instructions : List BxExecutePtr_tR :=
  [ .INSB32_YbDX, .INSB16_YbDX, .INSW32_YwDX, .INSW16_YwDX, .INSD32_YdDX, .INSD16_YdDX,
    .OUTSB32_DXXb, .OUTSB16_DXXb, .OUTSW32_DXXw, .OUTSW16_DXXw, .OUTSD32_DXXd, .OUTSD16_DXXd,
    .REP_INSB_YbDX, .REP_INSW_YwDX, .REP_INSD_YdDX,
    .REP_OUTSB_DXXb, .REP_OUTSW_DXXw, .REP_OUTSD_DXXd,
    .INSB64_YbDX, .INSW64_YwDX, .INSD64_YdDX,
    .OUTSB64_DXXb, .OUTSW64_DXXw, .OUTSD64_DXXd,
    .IN_ALIb, .IN_AXIb, .IN_EAXIb, .OUT_IbAL, .OUT_IbAX, .OUT_IbEAX,
    .IN_ALDX, .IN_AXDX, .IN_EAXDX, .OUT_DXAL, .OUT_DXAX, .OUT_DXEAX,
    .RDTSC, .RDMSR, .WRMSR,
    .MONITOR, .MWAIT,
    .HLT ]

/-- The list `executed_instructions`: instructions that are never replaced by
`NOP`. -/
def executed_instructions : List BxExecutePtr_tR :=
  [ .WRMSR ]

/-- The function `exception_do_have_error_code(std::uint8_t vector)`; the
parameter is an 8-bit integer, so the vector is narrowed on entry. -/
def exception_do_have_error_code (v : Nat) : Bool :=
  let vector := v % 2 ^ 8
  if vector == 8 || vector == 10 || vector == 11 || vector == 12 || vector == 13
      || vector == 14 || vector == 17 then
    true
  else
    false

/-- The method `Replayer::is_final_int3(cpu, i)`. -/
def is_final_int3 (m : Replayer) : Bool :=
  (m.i.ia_opcode == IaOpcode.BX_IA_INT3) && (m.cpu.rdx == 0xdeadbabe) && (m.cpu.rax == 0xeff1cad1)

/-- The block of assignments `current_ctx_.rax = BX_CPU(cpu)->gen_reg[0].rrx;
...` shared by `before_instruction`, `exception` and `interrupt`: the live
context before the instruction is executed. -/
def capture_context (m : Replayer) : Replayer :=
  { m with current_ctx_ := { m.current_ctx_ with
      rax := m.cpu.rax, rbx := m.cpu.rbx, rcx := m.cpu.rcx, rdx := m.cpu.rdx,
      rsi := m.cpu.rsi, rdi := m.cpu.rdi, rbp := m.cpu.rbp, rsp := m.cpu.rsp,
      r8 := m.cpu.r8, r9 := m.cpu.r9, r10 := m.cpu.r10, r11 := m.cpu.r11,
      r12 := m.cpu.r12, r13 := m.cpu.r13, r14 := m.cpu.r14, r15 := m.cpu.r15,
      cr0 := m.cpu.cr0_val32, cr2 := m.cpu.cr2, cr3 := m.cpu.cr3, cr4 := m.cpu.cr4_val32,
      fpu_sw := m.cpu.get_status_word, fpu_cw := m.cpu.get_control_word,
      fpu_tags := m.cpu.get_packed_tag_word } }

/-- The four statements repeated at every successful match:
`current_event_ = sync_event; last_sync_point_ = current_event_.position;
sync_file_.next();` and the match diagnostic. -/
def match_sync_event (m : Replayer) (ev : sync_event) (note : MatchNote) : Replayer :=
  let m := { m with current_event_ := ev }
  let m := { m with last_sync_point_ := m.current_event_.position }
  let m := { m with sync_file_ := m.sync_file_.tail }
  m.emit (Effect.match_sync_event m.current_event_.position note)

/-- Lines 586-608 of `before_instruction`: the match attempt at an instruction
boundary against the pending event `ev`. -/
def match_at_boundary (m : Replayer) (ev : sync_event) : Result :=
  if ev.is_first_event_context_unknown then
    apply_sync_event (match_sync_event m ev MatchNote.plain) ev
  else if m.current_rip_ == ev.start_rip then
    if ev.start_context.are_values_equivalent m.current_ctx_ then
      (Flow.returned, match_sync_event m ev MatchNote.plain)
    else if !ev.has_interrupt && match_with_no_eflags m.current_ctx_ ev.start_context then
      (Flow.returned, match_sync_event m ev MatchNote.without_eflags)
    else
      (Flow.returned, m)
  else
    (Flow.returned, m)

/-! ## Interrupt and exception reconciler -/

/-- The match attempt shared by `exception` and `interrupt` (lines 729-743 and
791-805): against the pending event `ev`, at the rip the engine is leaving. -/
def match_at_event (m : Replayer) (ev : sync_event) (exact tolerant : MatchNote) : Replayer :=
  if m.cpu.prev_rip == ev.interrupt_rip then
    if ev.start_context.are_values_equivalent m.current_ctx_ then
      match_sync_event m ev exact
    else if match_with_no_eflags m.current_ctx_ ev.start_context then
      match_sync_event m ev tolerant
    else m
  else m

/-- Lines 699-748 of `exception` and 759-789 of `interrupt`: with no current
event, the live context is captured, an exhausted stream ends the session and
the pending event is tried. -/
def match_pending_event (m : Replayer) (exact tolerant : MatchNote) : Result :=
  (if !(current_event m.sync_file_).is_valid then
      LOG_END_REPLAY (capture_context m) Message.no_more_valid_sync_points
    else (Flow.returned, capture_context m)).andThen fun m =>
  (Flow.returned, match_at_event m (current_event m.sync_file_) exact tolerant)

/-- The method `Replayer::exception(cpu, vector, error_code)`. -/
def exception (m : Replayer) (vector error_code : Nat) : Result :=
  (if !m.current_event_.is_valid then
      match_pending_event m MatchNote.during_exception
        MatchNote.during_exception_without_eflags
    else (Flow.returned, m)).andThen fun m =>
  if !m.current_event_.is_valid || !m.current_event_.has_interrupt
      || m.current_event_.interrupt_vector != vector
      || (exception_do_have_error_code vector
          && m.current_event_.fault_error_code != error_code) then
    LOG_DESYNC m Message.unmatched_exception
  else
    (Flow.returned, m)

/-- The macro `UPDATE_FLAG_VALUE(name, value)` of `interrupt`, also used here
for the IOPL block that follows it: when the engine flag read by `getB`
differs from the recorded `value`, a warning is logged and the flag is set. -/
def UPDATE_FLAG_VALUE (m : Replayer) (name : FlagName) (getB : BX_CPU_C → Nat)
    (set : BX_CPU_C → Nat → BX_CPU_C) (value : Nat) : Replayer :=
  if getB m.cpu != value then
    { m.emit (Effect.warn_forcing_flag name) with cpu := set m.cpu value }
  else
    m

/-- Lines 828-842 of `interrupt`: the status flags and the IOPL field are
forced to the values recorded in the flags `f` of the event. -/
def force_flags (m : Replayer) (f : Nat) : Replayer :=
  let m := UPDATE_FLAG_VALUE m .CF (·.CF) (fun c v => { c with CF := v }) ((f >>> 0) &&& 1)
  let m := UPDATE_FLAG_VALUE m .PF (·.PF) (fun c v => { c with PF := v }) ((f >>> 2) &&& 1)
  let m := UPDATE_FLAG_VALUE m .AF (·.AF) (fun c v => { c with AF := v }) ((f >>> 4) &&& 1)
  let m := UPDATE_FLAG_VALUE m .ZF (·.ZF) (fun c v => { c with ZF := v }) ((f >>> 6) &&& 1)
  let m := UPDATE_FLAG_VALUE m .SF (·.SF) (fun c v => { c with SF := v }) ((f >>> 7) &&& 1)
  let m := UPDATE_FLAG_VALUE m .TF (·.TF) (fun c v => { c with TF := v }) ((f >>> 8) &&& 1)
  let m := UPDATE_FLAG_VALUE m .IF (·.IF) (fun c v => { c with IF := v }) ((f >>> 9) &&& 1)
  let m := UPDATE_FLAG_VALUE m .DF (·.DF) (fun c v => { c with DF := v }) ((f >>> 10) &&& 1)
  let m := UPDATE_FLAG_VALUE m .OF (·.OF) (fun c v => { c with OF := v }) ((f >>> 11) &&& 1)
  let expected_IOPL := (f >>> 12) &&& 3
  UPDATE_FLAG_VALUE m .IOPL (·.IOPL) (fun c v => { c with IOPL := v }) expected_IOPL

/-- Lines 807-814 of `interrupt`: an event matched during the interrupt must
carry this very vector. -/
def check_matched_vector (m : Replayer) (vector : Nat) : Result :=
  if !m.current_event_.is_valid then
    (Flow.returned, m)
  else if !m.current_event_.has_interrupt || m.current_event_.interrupt_vector != vector then
    LOG_DESYNC m Message.unmatched_interrupt
  else
    (Flow.returned, m)

/-- The method `Replayer::interrupt(cpu, vector)`. -/
def interrupt (m : Replayer) (vector : Nat) : Result :=
  (if !m.current_event_.is_valid then
      (match_pending_event m MatchNote.during_interrupt
        MatchNote.during_interrupt_without_eflags).andThen fun m =>
      check_matched_vector m vector
    else (Flow.returned, m)).andThen fun m =>
  if !m.current_event_.is_valid || !m.current_event_.has_interrupt
      || m.current_event_.interrupt_vector != vector
      || m.current_event_.interrupt_rip != m.cpu.prev_rip then
    (Flow.returned, m)
  else
    (apply_hardware_access (force_flags m m.current_event_.rflags)
        m.current_event_.new_context.tsc).andThen fun m =>
    (Flow.returned, { m with current_event_ := sync_event.none })

/-! ## Forced delivery -/

/-- The instrumentation hook `bx_instr_interrupt(cpu, vector)` (instrument.cc
lines 89-97) on the replayer state: `replayer.interrupt(cpu, vector)`. The
tick counter and the tracer, which the hook serves before the replayer, are
outside this state (the tick counter is unbounded unless `--max-icount` is
given). -/
def bx_instr_interrupt (m : Replayer) (vector : Nat) : Result :=
  interrupt m vector

/-- The engine call `BX_CPU(cpu)->interrupt(vector, type, push_error,
error_code)` as the replayer meets it. The routine is engine code: the call
is logged, and on entry the routine runs the hook `bx_instr_interrupt`, which
re-enters `Replayer::interrupt` with the registers of the instruction being
aborted (line 680 of replayer.cpp relies on it: "current_event_ is unset when
we match an interrupt"). A hook that ends the scenario leaves through its own
`longjmp` and the statements after the call are not reached; the delivery
itself acts on engine state only. -/
def BX_CPU_interrupt (m : Replayer) (vector : Nat) (type : InterruptType)
    (push_error error_code : Nat) : Result :=
  bx_instr_interrupt (m.emit (Effect.interrupt vector type push_error error_code)) vector

/-- The forced delivery of the interrupt of event `ev`, as written twice in
`before_instruction` (lines 546-549 and lines 642-645): hardware replay up to
`ev.start_context.tsc`, the warning, and the engine call
`BX_CPU(cpu)->interrupt(vector, BX_EXTERNAL_INTERRUPT, 0, error_code)`, which
returns once its hook has returned. -/
def simulate_interrupt (m : Replayer) (ev : sync_event) : Result :=
  (apply_hardware_access m ev.start_context.tsc).andThen fun m =>
    BX_CPU_interrupt (m.emit (Effect.warn_simulating_interrupt ev.position))
      ev.interrupt_vector InterruptType.BX_EXTERNAL_INTERRUPT 0 ev.fault_error_code

/-- The statement `current_event_ = reven::vmghost::sync_event();` that closes
`interrupt` (line 849). -/
def clear_current_event (m : Replayer) : Replayer :=
  { m with current_event_ := sync_event.none }

/-- The state in which the hook of the engine call of `simulate_interrupt` is
entered when the hardware replay meets no oversized read: the stream is
replayed up to `ev.start_context.tsc`, the warning and the call are logged. -/
def delivery_call (m : Replayer) (ev : sync_event) : Replayer :=
  ((replayed m ev.start_context.tsc).emit
    (Effect.warn_simulating_interrupt ev.position)).emit
    (Effect.interrupt ev.interrupt_vector InterruptType.BX_EXTERNAL_INTERRUPT 0
      ev.fault_error_code)

/-- Lines 623-631 of `before_instruction`: the handler of an instruction whose
outcome the matched event forces is replaced by `NOP`, unless the instruction
is in `executed_instructions`. -/
def nop_emulated_instruction (m : Replayer) : Replayer :=
  if !m.current_event_.is_first_event_context_unknown
      && m.current_event_.is_instruction_emulation then
    if !executed_instructions.contains m.i.execute1
        && emulated_instructions.contains m.i.execute1 then
      { m with i := { m.i with execute1 := BxExecutePtr_tR.NOP } }
    else m
  else m

/-- Lines 633-649 of `before_instruction`: the interrupt carried by the matched
event is postponed or delivered at once. -/
def reconcile_interrupt (m : Replayer) : Result :=
  if m.current_event_.has_interrupt then
    if decide (m.current_event_.interrupt_vector ≥ 16) then
      if m.current_rip_ != m.current_event_.interrupt_rip then
        (Flow.returned,
          { m.emit (Effect.warn_saving_interrupt m.current_event_.position) with
            saved_interrupt_event_ := m.current_event_ })
      else
        (simulate_interrupt m m.current_event_).andThen fun m =>
          (Flow.longjmp 0, m)
    else (Flow.returned, m)
  else (Flow.returned, m)

/-- Lines 610-652 of `before_instruction`: what is done with the matched
event. -/
def handle_current_event (m : Replayer) : Result :=
  if m.current_event_.is_valid then
    (if is_final_int3 m then LOG_END_REPLAY m Message.found_a_stopping_int3
      else (Flow.returned, m)).andThen fun m =>
    (if m.current_event_.is_last_event then LOG_END_REPLAY m Message.reach_the_last_sync_point
      else (Flow.returned, m)).andThen fun m =>
    (if !m.current_event_.is_first_event_context_unknown then
        apply_hardware_access m m.current_event_.start_context.tsc
      else (Flow.returned, m)).andThen fun m =>
    reconcile_interrupt (nop_emulated_instruction m)
  else
    (Flow.returned, m)

/-- Lines 654-672 of `before_instruction`: the sentinel check and the handling
of instructions that need a sync point. -/
def check_unmatched (m : Replayer) : Result :=
  (if !m.current_event_.is_valid then
      if is_final_int3 m then LOG_DESYNC m Message.stopping_int3_without_sync_point
      else (Flow.returned, m)
    else (Flow.returned, m)).andThen fun m =>
  if emulated_instructions.contains m.i.execute1 then
    (if !m.current_event_.is_valid then
        LOG_DESYNC m Message.cannot_execute_without_sync_point
      else (Flow.returned, m)).andThen fun m =>
    if !executed_instructions.contains m.i.execute1 then
      (Flow.returned, { m with i := { m.i with execute1 := BxExecutePtr_tR.NOP } })
    else
      (Flow.returned, m)
  else
    (Flow.returned, m)

/-- Whether a postponed interrupt is due at the current rip: the condition of
the first test of `before_instruction`, on the state at entry. -/
def postponed_due (m : Replayer) : Bool :=
  m.saved_interrupt_event_.is_valid && m.cpu.rip == m.saved_interrupt_event_.interrupt_rip

/-- The first three statements of `before_instruction`: the current event is
reset, the handler and the rip of the instruction are saved. -/
def enter_instruction (m : Replayer) : Replayer :=
  { m with
    current_event_ := sync_event.none,
    current_instruction_ := m.i.execute1,
    current_rip_ := m.cpu.rip }

/-- The method `Replayer::before_instruction(cpu, i)`; the instruction `*i` is
the field `i` of the state and the live registers are the field `cpu`. -/
def before_instruction (m : Replayer) : Result :=
  if (enter_instruction m).saved_interrupt_event_.is_valid
      && (enter_instruction m).current_rip_
        == (enter_instruction m).saved_interrupt_event_.interrupt_rip then
    (simulate_interrupt (enter_instruction m)
        (enter_instruction m).saved_interrupt_event_).andThen fun m =>
      (Flow.longjmp 0, { m with saved_interrupt_event_ := sync_event.none })
  else
    (if !(current_event (enter_instruction m).sync_file_).is_valid then
        LOG_END_REPLAY (enter_instruction m) Message.no_more_valid_sync_points
      else (Flow.returned, enter_instruction m)).andThen fun m =>
    (match_at_boundary (capture_context m) (current_event m.sync_file_)).andThen fun m =>
    (handle_current_event m).andThen fun m =>
    check_unmatched m

/-- Line 677 of `after_instruction`: the handler saved by `before_instruction`
is put back into the instruction. -/
def restore_instruction (m : Replayer) : Replayer :=
  { m with i := { m.i with execute1 := m.current_instruction_ } }

/-- Lines 679-692 of `after_instruction`: the current event, if any, is
checked, applied and cleared. -/
def retire_current_event (m : Replayer) : Result :=
  if m.current_event_.is_valid then
    (if m.current_event_.has_interrupt && m.current_rip_ == m.current_event_.interrupt_rip then
        LOG_DESYNC m Message.exception_not_generated
      else (Flow.returned, m)).andThen fun m =>
    (if !m.current_event_.is_first_event_context_unknown then
        apply_sync_event m m.current_event_
      else (Flow.returned, m)).andThen fun m =>
    (Flow.returned, { m with current_event_ := sync_event.none })
  else
    (Flow.returned, m)

/-- The method `Replayer::after_instruction(cpu, i)`. -/
def after_instruction (m : Replayer) : Result :=
  retire_current_event (restore_instruction m)

/-! ## Tolerated differences -/

/-- The live context differs from the recorded one at most in
general-purpose registers whose two values both pass `looks_like_eflags`:
RSP, the control registers and the FPU words are equal, and every
general-purpose register is equal or tolerated. -/
def differs_only_in_eflags_like (live recorded : context) : Prop :=
  (tolerated live.rax recorded.rax ∧ tolerated live.rbx recorded.rbx ∧
    tolerated live.rcx recorded.rcx ∧ tolerated live.rdx recorded.rdx ∧
    tolerated live.rsi recorded.rsi ∧ tolerated live.rdi recorded.rdi ∧
    tolerated live.rbp recorded.rbp ∧ tolerated live.r8 recorded.r8 ∧
    tolerated live.r9 recorded.r9 ∧ tolerated live.r10 recorded.r10 ∧
    tolerated live.r11 recorded.r11 ∧ tolerated live.r12 recorded.r12 ∧
    tolerated live.r13 recorded.r13 ∧ tolerated live.r14 recorded.r14 ∧
    tolerated live.r15 recorded.r15) ∧
  (live.rsp = recorded.rsp ∧ live.cr0 = recorded.cr0 ∧ live.cr2 = recorded.cr2 ∧
    live.cr3 = recorded.cr3 ∧ live.cr4 = recorded.cr4) ∧
  (live.fpu_sw = recorded.fpu_sw ∧ live.fpu_cw = recorded.fpu_cw ∧
    live.fpu_tags = recorded.fpu_tags)

instance (a b : context) : Decidable (differs_only_in_eflags_like a b) := by
  unfold differs_only_in_eflags_like
  infer_instance

/-! ## Sessions -/

/-- One callback of the instrumentation layer into the replayer, with the
engine registers (and, for the instruction callbacks, the instruction) the
engine presents at that moment. -/
inductive Callback where
  | before_instruction (cpu : BX_CPU_C) (i : bxInstruction_c)
  | after_instruction (cpu : BX_CPU_C) (i : bxInstruction_c)
  | exception (cpu : BX_CPU_C) (vector error_code : Nat)
  | interrupt (cpu : BX_CPU_C) (vector : Nat)
  deriving DecidableEq, Repr

/-- Runs one callback on the replayer state. -/
def Callback.call (m : Replayer) : Callback → Result
  | Callback.before_instruction cpu i => reven.before_instruction { m with cpu := cpu, i := i }
  | Callback.after_instruction cpu i => reven.after_instruction { m with cpu := cpu, i := i }
  | Callback.exception cpu vector error_code =>
    reven.exception { m with cpu := cpu } vector error_code
  | Callback.interrupt cpu vector => reven.interrupt { m with cpu := cpu } vector

/-- A session: the callbacks are run in order until one of them ends the
scenario (`longjmp(jmp_buf_env, 1)`); the final state is returned. -/
def run (m : Replayer) : List Callback → Replayer
  | [] => m
  | c :: cs =>
    if (c.call m).1 = Flow.longjmp 1 then (c.call m).2 else run (c.call m).2 cs

/-- The positions announced by the match diagnostics of a log, in order. -/
def matched_positions : List Effect → List Nat
  | [] => []
  | Effect.match_sync_event position _ :: l => position :: matched_positions l
  | _ :: l => matched_positions l

/-- The interrupts forced into the engine by a log, in order: vector, origin and
error code of every `BX_CPU(cpu)->interrupt(...)` call. -/
@[simp]
def forced_interrupts : List Effect → List (Nat × InterruptType × Nat)
  | [] => []
  | Effect.interrupt vector type _ error_code :: l =>
    (vector, type, error_code) :: forced_interrupts l
  | _ :: l => forced_interrupts l

/-- The matched event carries an interrupt that the replayer delivers itself:
`has_interrupt` with a vector of at least 16. -/
def carries_external_interrupt (ev : sync_event) : Prop :=
  ev.has_interrupt = true ∧ ev.interrupt_vector ≥ 16

instance (ev : sync_event) : Decidable (carries_external_interrupt ev) := by
  unfold carries_external_interrupt
  infer_instance

/-- The interrupt side of the state: the postponed slot and the interrupts
forced so far. -/
def slot_view (m : Replayer) : sync_event × List (Nat × InterruptType × Nat) :=
  (m.saved_interrupt_event_, forced_interrupts m.log)

/-- The instruction side of the state: the decoded instruction and the handler
saved for it by `before_instruction`. -/
def handler_view (m : Replayer) : bxInstruction_c × BxExecutePtr_tR :=
  (m.i, m.current_instruction_)

/-- The sync side of the state: the cursor, the last matched position and the
positions matched so far. -/
def sync_view (m : Replayer) : List sync_event × Nat × List Nat :=
  (m.sync_file_, m.last_sync_point_, matched_positions m.log)

/-- A sync stream whose events carry consecutive positions: each event's
position is one more than that of the event before it. -/
def consecutive_positions : List sync_event → Prop
  | [] => True
  | [_] => True
  | a :: b :: l => b.position = a.position + 1 ∧ consecutive_positions (b :: l)

instance decidable_consecutive_positions :
    (l : List sync_event) → Decidable (consecutive_positions l)
  | [] => isTrue trivial
  | [_] => isTrue trivial
  | a :: b :: l =>
    match Nat.decEq b.position (a.position + 1), decidable_consecutive_positions (b :: l) with
    | isTrue h1, isTrue h2 => isTrue ⟨h1, h2⟩
    | isFalse h1, _ => isFalse fun h => h1 h.1
    | _, isFalse h2 => isFalse fun h => h2 h.2

/-- One callback either leaves the sync side unchanged (no match) or consumes
exactly the pending event `e`, whose position becomes the last matched one and
is the only one announced. -/
def sync_step (v w : List sync_event × Nat × List Nat) : Prop :=
  w = v ∨ ∃ e rest, v.1 = e :: rest ∧ w = (rest, e.position, v.2.2 ++ [e.position])

/-- The sync side `w` reached from a stream `l`, a last matched position
`last` and announced positions `mp` after `n` matches: the first `n` events
are consumed, their positions `p, p + 1, ..., p + n - 1` (with `p` the
position of the first pending event) are announced in this order, and the
last matched position is the last of them. -/
def consumed_in_order (l : List sync_event) (last : Nat) (mp : List Nat)
    (w : List sync_event × Nat × List Nat) : Prop :=
  ∃ n, n ≤ l.length ∧ w.1 = l.drop n ∧
    w.2.2 = mp ++ List.range' (current_event l).position n ∧
    (n = 0 → w.2.1 = last) ∧ (0 < n → w.2.1 + 1 = (current_event l).position + n)

/-! ## Concrete inputs -/

/-- Engine registers at `rip` whose live context is `context.fill g sp cr fpu`
(`prev_rip` is `rip` as well, as at the start of an instruction). -/
def BX_CPU_C.fill (rip g sp cr fpu : Nat) : BX_CPU_C :=
  { rax := g, rcx := g, rdx := g, rbx := g, rsp := sp, rbp := g, rsi := g, rdi := g,
    r8 := g, r9 := g, r10 := g, r11 := g, r12 := g, r13 := g, r14 := g, r15 := g,
    rip := rip, prev_rip := rip, cr0_val32 := cr, cr2 := cr, cr3 := cr, cr4_val32 := cr,
    get_status_word := fpu, get_control_word := fpu, get_packed_tag_word := fpu,
    i387_cwd := fpu, i387_twd := TagWord.raw fpu, i387_swd := fpu, i387_tos := 0,
    tsc := 0, CF := 0, PF := 0, AF := 0, ZF := 0, SF := 0, TF := 0, IF := 0, DF := 0,
    OF := 0, IOPL := 0, async_event := 0 }

/-- The replayer after `load`: both cursors on their first entry, no current
and no postponed event, an empty log. -/
def Replayer.loaded (sync : List sync_event) (hw : List hardware_access) (cpu : BX_CPU_C)
    (i : bxInstruction_c) : Replayer :=
  { sync_file_ := sync, hardware_file_ := hw, current_rip_ := 0,
    current_instruction_ := BxExecutePtr_tR.other 0, current_event_ := sync_event.none,
    current_ctx_ := context.zero, saved_interrupt_event_ := sync_event.none,
    desync_ := false, last_sync_point_ := 0, cpu := cpu, i := i,
    kill_bochs_request := false, log := [] }

/-- A plain valid event at `position`, recorded at `rip` with start context
`ctx`: no interrupt, no emulation, clock values `tsc` and `tsc + 1`. -/
def sync_event.plain (position rip tsc : Nat) (ctx : context) : sync_event :=
  { is_valid := true, position := position, start_rip := rip,
    start_context := { ctx with tsc := tsc },
    is_first_event_context_unknown := false, is_last_event := false,
    is_instruction_emulation := false, has_interrupt := false, interrupt_vector := 0,
    interrupt_rip := 0, fault_error_code := 0, rflags := 0x202,
    new_context := { ctx with tsc := tsc + 1 } }

/-- An ordinary instruction (a handler that is not in any list, not INT3). -/
def bxInstruction_c.ordinary : bxInstruction_c :=
  { execute1 := BxExecutePtr_tR.other 1, ia_opcode := IaOpcode.other 1 }

/-- A small recorded session: the anchor event at position 10, then events 11
and 12 recorded at rips `0x1000` and `0x2000`. -/
def demo_stream : List sync_event :=
  [ { sync_event.plain 10 0 100 context.zero with is_first_event_context_unknown := true },
    sync_event.plain 11 0x1000 200 (context.fill 7 0x7ffe0000 0x80050033 0x37f),
    sync_event.plain 12 0x2000 300 (context.fill 0x246 0x7ffe0000 0x80050033 0x37f) ]

/-- Callbacks of a live execution against `demo_stream`: the anchor matches at
the first boundary, event 11 matches exactly at rip `0x1000`, a boundary at
`0x1800` matches nothing, event 12 matches at `0x2000` under Rule B. -/
def demo_callbacks : List Callback :=
  [ Callback.before_instruction (BX_CPU_C.fill 0x500 1 0x7ffe0000 0x80050033 0x37f)
      bxInstruction_c.ordinary,
    Callback.after_instruction (BX_CPU_C.fill 0x500 1 0x7ffe0000 0x80050033 0x37f)
      bxInstruction_c.ordinary,
    Callback.before_instruction (BX_CPU_C.fill 0x1000 7 0x7ffe0000 0x80050033 0x37f)
      bxInstruction_c.ordinary,
    Callback.after_instruction (BX_CPU_C.fill 0x1000 7 0x7ffe0000 0x80050033 0x37f)
      bxInstruction_c.ordinary,
    Callback.before_instruction (BX_CPU_C.fill 0x1800 7 0x7ffe0000 0x80050033 0x37f)
      bxInstruction_c.ordinary,
    Callback.after_instruction (BX_CPU_C.fill 0x1800 7 0x7ffe0000 0x80050033 0x37f)
      bxInstruction_c.ordinary,
    Callback.before_instruction (BX_CPU_C.fill 0x2000 0x202 0x7ffe0000 0x80050033 0x37f)
      bxInstruction_c.ordinary ]

/-- The state in which `demo_callbacks` start. -/
def demo_session : Replayer :=
  Replayer.loaded demo_stream [] (BX_CPU_C.fill 0x500 1 0x7ffe0000 0x80050033 0x37f)
    bxInstruction_c.ordinary

/-- A valid event at `position` recorded at `rip` that carries an interrupt:
pre-state clock `tsc`, post-state clock `new_tsc`, the interrupt `vector`, the
rip `interrupt_rip` at which it was taken and its `error_code`. -/
def sync_event.interrupting (position rip tsc new_tsc : Nat) (ctx : context)
    (vector interrupt_rip error_code : Nat) : sync_event :=
  { sync_event.plain position rip tsc ctx with
    has_interrupt := true, interrupt_vector := vector, interrupt_rip := interrupt_rip,
    fault_error_code := error_code, new_context := { ctx with tsc := new_tsc } }

/-- A recorded context with `g` in every general-purpose register. -/
def recorded_context (g : Nat) : context :=
  context.fill g 0x7ffe0000 0x80050033 0x37f

/-- Live registers at `rip` with `g` in every general-purpose register and the
other tracked fields as in `recorded_context`. -/
def live_cpu (rip g : Nat) : BX_CPU_C :=
  BX_CPU_C.fill rip g 0x7ffe0000 0x80050033 0x37f

/-- Live registers at the terminal sentinel: `RDX = 0xdeadbabe` and
`RAX = 0xeff1cad1`. -/
def sentinel_cpu : BX_CPU_C :=
  { live_cpu 0x401000 0 with rdx := 0xdeadbabe, rax := 0xeff1cad1 }

/-- An `INT3` instruction. -/
def bxInstruction_c.int3 : bxInstruction_c :=
  { execute1 := BxExecutePtr_tR.other 3, ia_opcode := IaOpcode.BX_IA_INT3 }

/-- An event recorded at rip `0x1000` with `0x246` in every general-purpose
register; it carries no interrupt. -/
def flags_event : sync_event :=
  sync_event.plain 11 0x1000 200 (recorded_context 0x246)

/-- A boundary at rip `0x1000` where every general-purpose register holds
`0x202`, with `flags_event` pending. -/
def flags_boundary : Replayer :=
  Replayer.loaded [flags_event] [] (live_cpu 0x1000 0x202) bxInstruction_c.ordinary

/-- The same boundary while a postponed interrupt recorded at rip `0x1000` is
waiting in the slot. -/
def flags_boundary_postponed : Replayer :=
  { flags_boundary with
    saved_interrupt_event_ :=
      sync_event.interrupting 9 0x800 100 150 (recorded_context 1) 0x30 0x1000 0 }

/-- The terminal sentinel reached on an exhausted stream. -/
def sentinel_exhausted : Replayer :=
  Replayer.loaded [] [] sentinel_cpu bxInstruction_c.int3

/-- The terminal sentinel reached while the pending event, recorded at another
rip, does not match. -/
def sentinel_unmatched : Replayer :=
  Replayer.loaded [sync_event.plain 5 0x9999 10 (recorded_context 0)] [] sentinel_cpu
    bxInstruction_c.int3

/-- An interrupt event recorded at rip `0x1000` (vector `0x30`, error code
`0x11`, clocks 5 and 9) whose start state is observed live at rip `0x2000`. -/
def late_interrupt_event : sync_event :=
  sync_event.interrupting 20 0x2000 5 9 (recorded_context 7) 0x30 0x1000 0x11

/-- A device write recorded at clock 7. -/
def dma_write_at_7 : hardware_access :=
  { valid := true, tsc := 7, physical_address := 0x5000, data := [1, 2],
    is_write := true, is_port := false, is_mmio := false }

/-- The boundary at rip `0x2000` where `late_interrupt_event` is matched. -/
def late_interrupt_boundary : Replayer :=
  Replayer.loaded [late_interrupt_event] [dma_write_at_7] (live_cpu 0x2000 7)
    bxInstruction_c.ordinary

/-- A later boundary at `rip`, in the state left by the match of
`late_interrupt_event` and the retirement of its instruction. -/
def later_boundary (rip : Nat) : Replayer :=
  { (after_instruction (before_instruction late_interrupt_boundary).2).2 with
    cpu :=
      { live_cpu rip 3 with
        tsc := (after_instruction (before_instruction late_interrupt_boundary).2).2.cpu.tsc } }

/-- An interrupt event recorded and observed at rip `0x1000` (vector `0x30`,
error code `0x11`, clocks 5 and 9). -/
def prompt_interrupt_event : sync_event :=
  sync_event.interrupting 30 0x1000 5 9 (recorded_context 7) 0x30 0x1000 0x11

/-- The boundary at rip `0x1000` where `prompt_interrupt_event` is matched. -/
def prompt_interrupt_boundary : Replayer :=
  Replayer.loaded [prompt_interrupt_event] [dma_write_at_7] (live_cpu 0x1000 7)
    bxInstruction_c.ordinary

/-- The state in which `before_instruction` reaches line 633 once it has
matched the pending event `ev` exactly (lines 594-599) away from the sentinel
and the last event: `ev` is current, the hardware accesses are replayed up to
its start clock (line 619) and the handler of an emulated instruction is
replaced (lines 623-631). -/
def matched_boundary (m : Replayer) (ev : sync_event) : Replayer :=
  nop_emulated_instruction
    (replayed (match_sync_event (capture_context (enter_instruction m)) ev MatchNote.plain)
      ev.start_context.tsc)

/-- A plain event recorded at rip `0x3000`, the one that follows
`late_interrupt_event` in the stream. -/
def following_event : sync_event :=
  sync_event.plain 21 0x3000 20 (recorded_context 3)

/-- The boundary at rip `0x2000` where `late_interrupt_event` is matched, with
`following_event` after it in the stream. -/
def late_interrupt_session : Replayer :=
  Replayer.loaded [late_interrupt_event, following_event] [dma_write_at_7] (live_cpu 0x2000 7)
    bxInstruction_c.ordinary

/-- A later boundary at `rip` of that session, in the state left by the match
of `late_interrupt_event` and the retirement of its instruction:
`late_interrupt_event` is in the postponed slot and `following_event` is
pending. -/
def resumed_boundary (rip : Nat) : Replayer :=
  { (after_instruction (before_instruction late_interrupt_session).2).2 with
    cpu :=
      { live_cpu rip 3 with
        tsc := (after_instruction (before_instruction late_interrupt_session).2).2.cpu.tsc } }

/-! ## The exception callback in two steps -/

/-- The vectors that `exception_do_have_error_code` lists. -/
def error_code_vectors : List Nat := [8, 10, 11, 12, 13, 14, 17]

/-- Lines 699-748 of `exception`: the match attempt, made only when there is
no current event. -/
def exception_attempt (m : Replayer) : Result :=
  if !m.current_event_.is_valid then
    match_pending_event m MatchNote.during_exception MatchNote.during_exception_without_eflags
  else (Flow.returned, m)

/-- The event `cur` accounts for an exception `vector` raised with
`error_code`: it is valid, carries an interrupt with this vector and, when the
vector is one of `error_code_vectors`, this error code. -/
def accounts_for_exception (cur : sync_event) (vector error_code : Nat) : Prop :=
  cur.is_valid = true ∧ cur.has_interrupt = true ∧ cur.interrupt_vector = vector ∧
    (vector ∈ error_code_vectors → cur.fault_error_code = error_code)

instance (cur : sync_event) (vector error_code : Nat) :
    Decidable (accounts_for_exception cur vector error_code) := by
  unfold accounts_for_exception
  infer_instance

/-- A page fault (vector 14, error code 2) recorded and raised at rip
`0x1000`. -/
def page_fault_event : sync_event :=
  sync_event.interrupting 40 0x1000 5 9 (recorded_context 7) 14 0x1000 2

/-- The engine at rip `0x1000` with `page_fault_event` pending and no current
event. -/
def page_fault_boundary : Replayer :=
  Replayer.loaded [page_fault_event] [] (live_cpu 0x1000 7) bxInstruction_c.ordinary

/-! ## The interrupt callback in two steps -/

/-- Lines 759-815 of `interrupt`: the match attempt, made only when there is no
current event, and the check that an event matched there carries the vector. -/
def interrupt_attempt (m : Replayer) (vector : Nat) : Result :=
  if !m.current_event_.is_valid then
    (match_pending_event m MatchNote.during_interrupt
      MatchNote.during_interrupt_without_eflags).andThen fun m =>
    check_matched_vector m vector
  else (Flow.returned, m)

/-- The test of line 817 of `interrupt`, passed: the current event of `m` is
valid and carries an interrupt with this `vector`, taken at the rip the
engine is leaving. -/
def matches_interrupt (m : Replayer) (vector : Nat) : Prop :=
  m.current_event_.is_valid = true ∧ m.current_event_.has_interrupt = true ∧
    m.current_event_.interrupt_vector = vector ∧
    m.current_event_.interrupt_rip = m.cpu.prev_rip

instance (m : Replayer) (vector : Nat) : Decidable (matches_interrupt m vector) := by
  unfold matches_interrupt
  infer_instance


/-- An interrupt event recorded and observed at rip `0x1000` (vector `0x30`,
clocks 5 and 9) whose recorded flags `0x3ad5` have CF, PF, AF, ZF, SF, IF and
OF set, TF and DF clear, and IOPL 3. -/
def flagged_interrupt_event : sync_event :=
  { prompt_interrupt_event with rflags := 0x3ad5 }

/-- The engine at rip `0x1000`, all flags clear, with `flagged_interrupt_event`
pending, no current event and a device write recorded at clock 7. -/
def flagged_interrupt_boundary : Replayer :=
  Replayer.loaded [flagged_interrupt_event] [dma_write_at_7] (live_cpu 0x1000 7)
    bxInstruction_c.ordinary

/-! ## Repeated hardware replay -/

/-- A sequence of `apply_hardware_access` calls, one per clock value of the
list, each on the state the previous one left. -/
def apply_hardware_accesses (m : Replayer) : List Nat → Replayer
  | [] => m
  | t :: ts => apply_hardware_accesses (apply_hardware_access m t).2 ts

/-- A device write recorded at clock 12. -/
def hardware_write_at_12 : hardware_access :=
  { valid := true, tsc := 12, physical_address := 0x5100, data := [3],
    is_write := true, is_port := false, is_mmio := false }

/-- A state whose hardware cursor holds a write at clock 7, then an entry that
is not valid, then a write at clock 12. -/
def replay_start : Replayer :=
  Replayer.loaded [] [dma_write_at_7, hardware_access.none, hardware_write_at_12]
    (live_cpu 0x1000 7) bxInstruction_c.ordinary

/-- A device write of 200000 bytes recorded at clock 7. -/
def large_write_at_7 : hardware_access :=
  { valid := true, tsc := 7, physical_address := 0x5000, data := List.replicate 200000 0,
    is_write := true, is_port := false, is_mmio := false }

/-- A device read of exactly 102400 bytes recorded at clock 8. -/
def full_read_at_8 : hardware_access :=
  { valid := true, tsc := 8, physical_address := 0x6000, data := List.replicate 102400 0,
    is_write := false, is_port := false, is_mmio := false }

/-- A device read of 102401 bytes recorded at clock 8. -/
def oversized_read_at_8 : hardware_access :=
  { valid := true, tsc := 8, physical_address := 0x7000, data := List.replicate 102401 0,
    is_write := false, is_port := false, is_mmio := false }

/-- A state whose hardware cursor holds `large_write_at_7`, `full_read_at_8`
and `oversized_read_at_8`. -/
def oversized_replay_start : Replayer :=
  Replayer.loaded [] [large_write_at_7, full_read_at_8, oversized_read_at_8]
    (live_cpu 0x1000 7) bxInstruction_c.ordinary

/-! ## RMW tracker -/

/-- The object `current_rmw_operation` of the instrumentation callbacks: two
(linear, physical) address pairs; a linear address 0 marks a free slot. -/
structure current_rmw_operation where
  lin1_ : Nat
  lin2_ : Nat
  phys1_ : Nat
  phys2_ : Nat
  deriving DecidableEq, Repr

/-- The method `clear()`. -/
def current_rmw_operation.clear (_r : current_rmw_operation) : current_rmw_operation :=
  { lin1_ := 0, lin2_ := 0, phys1_ := 0, phys2_ := 0 }

/-- The method `register_new_access(lin, phys)`: the result and the tracker
it leaves. -/
def current_rmw_operation.register_new_access (r : current_rmw_operation) (lin phys : Nat) :
    Bool × current_rmw_operation :=
  if r.lin1_ == 0 then
    (true, { r with lin1_ := lin, phys1_ := phys })
  else if r.lin2_ == 0 then
    (true, { r with lin2_ := lin, phys2_ := phys })
  else
    (false, r)

/-- The method `get_linear_address(phys)`; 0 stands for no match. -/
def current_rmw_operation.get_linear_address (r : current_rmw_operation) (phys : Nat) : Nat :=
  if phys == r.phys1_ then r.lin1_
  else if phys == r.phys2_ then r.lin2_
  else 0

/-- Lines 146-157 of `bx_instr_lin_access`, the registration of an access with
`rw == BX_RW` (after `replayer.linear_access` has returned): a 16-byte access
is registered as two 8-byte halves, and a failed registration is a desync. The
additions are on 64-bit addresses. -/
def bx_instr_lin_access_rmw (m : Replayer) (r : current_rmw_operation) (lin phy len : Nat) :
    Result × current_rmw_operation :=
  if len == 16 then
    if !(r.register_new_access lin phy).1 then
      (LOG_DESYNC m Message.more_than_two_accesses_in_a_rmw_operation,
        (r.register_new_access lin phy).2)
    else if !((r.register_new_access lin phy).2.register_new_access
        ((lin + 8) % 2 ^ 64) ((phy + 8) % 2 ^ 64)).1 then
      (LOG_DESYNC m Message.more_than_two_accesses_in_a_rmw_operation,
        ((r.register_new_access lin phy).2.register_new_access
          ((lin + 8) % 2 ^ 64) ((phy + 8) % 2 ^ 64)).2)
    else
      ((Flow.returned, m),
        ((r.register_new_access lin phy).2.register_new_access
          ((lin + 8) % 2 ^ 64) ((phy + 8) % 2 ^ 64)).2)
  else if !(r.register_new_access lin phy).1 then
    (LOG_DESYNC m Message.more_than_two_accesses_in_a_rmw_operation,
      (r.register_new_access lin phy).2)
  else
    ((Flow.returned, m), (r.register_new_access lin phy).2)

/-- Lines 174-179 of `bx_instr_phy_access` for an access with `rw == BX_RW`:
the linear address is looked up, 0 is a desync; the second component is the
linear address handed to the tracers. -/
def bx_instr_phy_access_rmw (m : Replayer) (r : current_rmw_operation) (phy : Nat) :
    Result × Nat :=
  if r.get_linear_address phy == 0 then
    (LOG_DESYNC m Message.physical_access_without_matching_linear_access,
      r.get_linear_address phy)
  else
    ((Flow.returned, m), r.get_linear_address phy)

/-- A sequence of `register_new_access(lin, phys)` calls, one per pair of the
list: the results of the calls and the tracker left by the last one. -/
def register_calls (r : current_rmw_operation) :
    List (Nat × Nat) → List Bool × current_rmw_operation
  | [] => ([], r)
  | c :: rest =>
    ((r.register_new_access c.1 c.2).1 :: (register_calls (r.register_new_access c.1 c.2).2 rest).1,
      (register_calls (r.register_new_access c.1 c.2).2 rest).2)

/-- The tracker as constructed: every member is initialised with 0. -/
def current_rmw_operation.initial : current_rmw_operation :=
  { lin1_ := 0, lin2_ := 0, phys1_ := 0, phys2_ := 0 }

/-! ## Tick counter -/

/-- The class `ICount`: `icount_` is the next instruction tick, `max_icount_`
the optional number of instructions to replay. -/
structure ICount where
  icount_ : Nat
  max_icount_ : Option Nat
  deriving DecidableEq, Repr

/-- The default constructor `ICount()`. -/
def ICount.unbounded : ICount :=
  { icount_ := 0, max_icount_ := none }

/-- The constructor `ICount(max_icount)`. -/
def ICount.bounded (max_icount : Nat) : ICount :=
  { icount_ := 0, max_icount_ := some max_icount }

/-- The method `icount()`; `none` stands for the `std::logic_error` thrown
when `icount_` is 0. -/
def ICount.icount (c : ICount) : Option Nat :=
  if c.icount_ == 0 then none else some (c.icount_ - 1)

/-- The method `check_max_icount()`: when the replay is started
(`icount_ != 0`), a maximum is set and `icount()` exceeds it, the session is
ended with `end_of_scenario(0, false)`. -/
def ICount.check_max_icount (c : ICount) (m : Replayer) : Result :=
  match c.icount, c.max_icount_ with
  | some n, some max_icount =>
    if n > max_icount then end_of_scenario m false else (Flow.returned, m)
  | _, _ => (Flow.returned, m)

/-- The method `before_instruction()`: the check, then `++icount_` on a 64-bit
counter; the increment is not reached when the check ends the session. -/
def ICount.before_instruction (c : ICount) (m : Replayer) : Result × ICount :=
  if (c.check_max_icount m).1 = Flow.returned then
    (c.check_max_icount m, { c with icount_ := (c.icount_ + 1) % 2 ^ 64 })
  else
    (c.check_max_icount m, c)

/-- The method `break_and_start_new_instruction()`. -/
def ICount.break_and_start_new_instruction (c : ICount) (m : Replayer) : Result × ICount :=
  if (c.check_max_icount m).1 = Flow.returned then
    (c.check_max_icount m, { c with icount_ := (c.icount_ + 1) % 2 ^ 64 })
  else
    (c.check_max_icount m, c)

/-- The two calls that start an instruction tick. -/
inductive Tick where
  | before_instruction
  | break_and_start_new_instruction
  deriving DecidableEq, Repr

/-- One tick call on the counter `c` in the replayer state `m`. -/
def ICount.tick (c : ICount) (m : Replayer) : Tick → Result × ICount
  | Tick.before_instruction => c.before_instruction m
  | Tick.break_and_start_new_instruction => c.break_and_start_new_instruction m

/-- A sequence of tick calls, run until one of them ends the session: the
outcome of the last call made and the counter it leaves. -/
def run_ticks (c : ICount) (m : Replayer) : List Tick → Result × ICount
  | [] => ((Flow.returned, m), c)
  | k :: ks =>
    if (c.tick m k).1.1 = Flow.returned then run_ticks (c.tick m k).2 (c.tick m k).1.2 ks
    else c.tick m k

/-- The number of ticks started by a sequence of tick calls: the calls that
return, up to the first one that ends the session. -/
def ticks_started (c : ICount) (m : Replayer) : List Tick → Nat
  | [] => 0
  | k :: ks =>
    if (c.tick m k).1.1 = Flow.returned then
      1 + ticks_started (c.tick m k).2 (c.tick m k).1.2 ks
    else 0

/-! ## Trace writer -/

/-- The registers of `enum x86Register` that `save_cpu_context` names; the
others, listed in `registers.inc`, are `other n`. -/
inductive x86Register where
  | r_rip
  | r_rsp
  | r_eflags
  | other (n : Nat)
  deriving DecidableEq, Repr

/-- The operators `MachineDescription::RegisterOperator` used by
`x64_machine_description`. -/
inductive RegisterOperator where
  | Add
  | Or
  | And
  deriving DecidableEq, Repr

/-- A `MachineDescription::RegisterOperation`: register, operator and operand
(the operand as a number, stored little-endian by `value_to_buffer`). -/
structure RegisterOperation where
  reg : x86Register
  operator : RegisterOperator
  operand : Nat
  deriving DecidableEq, Repr

/-- The constant `eflags_bits`. -/
def eflags_bits : List Nat := [0, 2, 4, 6, 7, 8, 9, 10, 11]

/-- The first enumerator of `enum RegisterOperationId`. -/
def RegisterOperationRipPlus1 : Nat := 0

/-- The operations that the loops of `x64_machine_description` insert into
`desc.register_operations`, in order of insertion: fifteen `rip + (i + 1)`,
nine flag sets, nine flag clears, `rsp + i` and `rsp + (-i)` for
`i = 2, 4, 8, 16`. -/
def register_operation_list : List RegisterOperation :=
  (List.range 15).map (fun i => ⟨x86Register.r_rip, RegisterOperator.Add, i + 1⟩) ++
  eflags_bits.map (fun bit => ⟨x86Register.r_eflags, RegisterOperator.Or, 1 <<< bit⟩) ++
  eflags_bits.map
    (fun bit => ⟨x86Register.r_eflags, RegisterOperator.And, 0xffffffff ^^^ (1 <<< bit)⟩) ++
  [2, 4, 8, 16].map (fun i => ⟨x86Register.r_rsp, RegisterOperator.Add, i⟩) ++
  [2, 4, 8, 16].map (fun i => ⟨x86Register.r_rsp, RegisterOperator.Add, 2 ^ 64 - i⟩)

/-- The vector `register_action_ids` after `x64_machine_description`: the ids
given to the operations, counted on from `next_id = register_enum_count`. -/
def register_action_ids (register_enum_count : Nat) : List Nat :=
  (List.range register_operation_list.length).map fun k => register_enum_count + k

/-- The map `desc.register_operations`: the operation stored under `id`. -/
def register_operations (register_enum_count : Nat) (id : Nat) : Option RegisterOperation :=
  if id < register_enum_count then none
  else register_operation_list[id - register_enum_count]?

/-- What `save_cpu_context` hands to the events section writer:
`write_register_action(id)` and `write_register(reg_id(reg), bytes, size)`,
the bytes being those of `value`. -/
inductive TraceRecord where
  | register_action (id : Nat)
  | register (reg : x86Register) (size : Nat) (value : Nat)
  deriving DecidableEq, Repr

/-- The template `write_reg(EventsSectionWriter&, reg, size, value,
comparison_value)`: nothing is written for an unchanged value; the second
component is the comparison value afterwards. -/
def write_reg (reg : x86Register) (size value comparison_value : Nat) :
    List TraceRecord × Nat :=
  if value == comparison_value then ([], comparison_value)
  else ([TraceRecord.register reg size value], value)

/-- Lines 105-111 of `save_cpu_context`: the program counter. The difference
is taken on 64-bit integers, `ids` is the vector `register_action_ids`, and
`none` stands for the `std::out_of_range` of `at`. The second component is
`comparison_ctx.regs[REG_RIP]` afterwards. -/
def save_cpu_context_rip (ids : List Nat) (rip comparison_rip : Nat) :
    Option (List TraceRecord) × Nat :=
  (if decide ((rip + 2 ^ 64 - comparison_rip) % 2 ^ 64 ≤ 15) && rip != comparison_rip then
      (ids[(RegisterOperationRipPlus1 + (2 ^ 64 - 1)
          + (rip + 2 ^ 64 - comparison_rip) % 2 ^ 64) % 2 ^ 64]?).map
        fun id => [TraceRecord.register_action id]
    else
      some (write_reg x86Register.r_rip 8 rip comparison_rip).1,
    rip)

/-! ## Linear memory accesses -/

/-- The method `Replayer::linear_access(cpu, address, rw)`; `rw` is the access
kind the engine passes. The engine routine `BX_CPU_C::page_fault` is kept as a
logged call. -/
def linear_access (m : Replayer) (address : Nat) (rw : AccessKind) : Replayer :=
  if m.current_event_.is_valid && m.current_event_.has_interrupt
      && m.current_rip_ == m.current_event_.interrupt_rip
      && m.current_event_.interrupt_vector == 0xE then
    if address != m.current_event_.new_context.cr2
        || (m.current_event_.fault_error_code &&& 0x2 != 0)
          != (rw == AccessKind.BX_WRITE || rw == AccessKind.BX_RW) then
      m
    else
      (m.emit (Effect.warn_forcing_pagefault address m.current_event_.position)).emit
        (Effect.page_fault m.current_event_.fault_error_code address 0 rw)
  else
    m

/-- The condition under which a linear access at `address` of kind `rw` is
the recorded page fault: the current event is valid and carries an interrupt
of vector 14 taken at the rip of the current instruction, the address is the
recorded post-state CR2, and the access is a write (`BX_WRITE` or `BX_RW`)
exactly when bit 1 of the recorded error code is set. -/
def forces_page_fault (m : Replayer) (address : Nat) (rw : AccessKind) : Prop :=
  m.current_event_.is_valid = true ∧ m.current_event_.has_interrupt = true ∧
    m.current_event_.interrupt_vector = 14 ∧
    m.current_event_.interrupt_rip = m.current_rip_ ∧
    address = m.current_event_.new_context.cr2 ∧
    ((rw = AccessKind.BX_WRITE ∨ rw = AccessKind.BX_RW) ↔
      m.current_event_.fault_error_code.testBit 1 = true)

instance (m : Replayer) (address : Nat) (rw : AccessKind) :
    Decidable (forces_page_fault m address rw) := by
  unfold forces_page_fault
  infer_instance

/-! ## Concrete inputs for emulated instructions -/

/-- An `RDTSC` instruction. -/
def rdtsc_instruction : bxInstruction_c :=
  { execute1 := BxExecutePtr_tR.RDTSC, ia_opcode := IaOpcode.other 4 }

/-- A `REP INSB` instruction. -/
def rep_insb_instruction : bxInstruction_c :=
  { execute1 := BxExecutePtr_tR.REP_INSB_YbDX, ia_opcode := IaOpcode.other 2 }

/-- An emulated event recorded at rip `0x1000` (clocks 200 and 201) with 7 in
every general-purpose register; it carries no interrupt. -/
def rdtsc_event : sync_event :=
  { sync_event.plain 50 0x1000 200 (recorded_context 7) with is_instruction_emulation := true }

/-- The boundary of an `RDTSC` at rip `0x1000` with `rdtsc_event` pending. -/
def rdtsc_boundary : Replayer :=
  Replayer.loaded [rdtsc_event] [] (live_cpu 0x1000 7) rdtsc_instruction

/-- The boundary of an `RDTSC` at rip `0x1000` on an exhausted sync stream. -/
def rdtsc_exhausted : Replayer :=
  Replayer.loaded [] [] (live_cpu 0x1000 7) rdtsc_instruction

/-- An emulated event recorded at rip `0x1000` that also carries the interrupt
`0x30`, taken at this very rip (an interrupted `REP INSB`). -/
def interrupted_emulation_event : sync_event :=
  { prompt_interrupt_event with is_instruction_emulation := true }

/-- The boundary of a `REP INSB` at rip `0x1000` with
`interrupted_emulation_event` pending. -/
def interrupted_emulation_boundary : Replayer :=
  Replayer.loaded [interrupted_emulation_event] [] (live_cpu 0x1000 7) rep_insb_instruction

/-- An emulated event whose recorded FPU status word `0x4000` has the
condition code C3 (bit 14) set and a TOP field of 0. -/
def condition_code_event : sync_event :=
  { rdtsc_event with new_context := { rdtsc_event.new_context with fpu_sw := 0x4000 } }

/-- A state whose current event is `page_fault_event`, inside the instruction
at rip `0x1000`. -/
def page_fault_pending : Replayer :=
  { page_fault_boundary with current_event_ := page_fault_event, current_rip_ := 0x1000 }

/-! ## Stack pointer and status flags in the trace -/

/-- Enumerators of `enum RegisterOperationId` (machine_description.h), counted
from `RegisterOperationRipPlus1 = 0`. -/
def RegisterOperationFlagSetCf : Nat := 15

def RegisterOperationFlagUnsetCf : Nat := 24

def RegisterOperationRspPlus2 : Nat := 33

def RegisterOperationRspPlus4 : Nat := 34

def RegisterOperationRspPlus8 : Nat := 35

def RegisterOperationRspPlus16 : Nat := 36

def RegisterOperationRspMinus2 : Nat := 37

def RegisterOperationRspMinus4 : Nat := 38

def RegisterOperationRspMinus8 : Nat := 39

def RegisterOperationRspMinus16 : Nat := 40

/-- The conversion of a 64-bit unsigned difference to `long int`. -/
def long_int (x : Nat) : Int :=
  if x % 2 ^ 64 < 2 ^ 63 then (x % 2 ^ 64 : Nat) else ((x % 2 ^ 64 : Nat) : Int) - 2 ^ 64

/-- The `switch (rsp_diff)` of `save_cpu_context`: the operation of a case
that writes a register action, `none` for `default` (and for `case 0`, which
`save_cpu_context_rsp` tests first). -/
def rsp_action (rsp_diff : Int) : Option Nat :=
  if rsp_diff = 2 then some RegisterOperationRspPlus2
  else if rsp_diff = 4 then some RegisterOperationRspPlus4
  else if rsp_diff = 8 then some RegisterOperationRspPlus8
  else if rsp_diff = 16 then some RegisterOperationRspPlus16
  else if rsp_diff = -2 then some RegisterOperationRspMinus2
  else if rsp_diff = -4 then some RegisterOperationRspMinus4
  else if rsp_diff = -8 then some RegisterOperationRspMinus8
  else if rsp_diff = -16 then some RegisterOperationRspMinus16
  else none

/-- Lines 113-126 of `save_cpu_context`: the stack pointer. `none` stands for
the `std::out_of_range` of `at`; the second component is
`comparison_ctx.regs[REG_RSP]` afterwards. -/
def save_cpu_context_rsp (ids : List Nat) (rsp comparison_rsp : Nat) :
    Option (List TraceRecord) × Nat :=
  (if long_int (rsp + 2 ^ 64 - comparison_rsp) = 0 then some []
    else
      match rsp_action (long_int (rsp + 2 ^ 64 - comparison_rsp)) with
      | some k => (ids[k]?).map fun id => [TraceRecord.register_action id]
      | none => some (write_reg x86Register.r_rsp 8 rsp comparison_rsp).1,
    rsp)

/-- The static `no_action_eflags_bits` as `save_initial_cpu_context` leaves it:
`0xffffffff` with every bit of `eflags_bits` flipped. -/
def no_action_eflags_bits : Nat :=
  eflags_bits.foldl (fun acc bit => acc ^^^ (1 <<< bit)) 0xffffffff

/-- The first loop of the EFLAGS block: `counter` after it. -/
def eflags_counter (eflags comparison_eflags : Nat) : Nat :=
  (eflags_bits.filter fun bit =>
    (eflags &&& (1 <<< bit)) != (comparison_eflags &&& (1 <<< bit))).length

/-- The second loop of the EFLAGS block from index `i` on: the arguments
`action_base + i` of `register_action_ids.at`, in order. -/
def eflags_actions (eflags comparison_eflags : Nat) : Nat → List Nat → List Nat
  | _, [] => []
  | i, bit :: rest =>
    if (eflags &&& (1 <<< bit)) != (comparison_eflags &&& (1 <<< bit)) then
      ((if eflags &&& (1 <<< bit) != 0 then RegisterOperationFlagSetCf
          else RegisterOperationFlagUnsetCf) + i)
        :: eflags_actions eflags comparison_eflags (i + 1) rest
    else
      eflags_actions eflags comparison_eflags (i + 1) rest

/-- One `writer.write_register_action(register_action_ids.at(k))` per index of
the list; `none` stands for the `std::out_of_range` of `at`. -/
def write_register_actions (ids : List Nat) : List Nat → Option (List TraceRecord)
  | [] => some []
  | k :: rest =>
    match ids[k]?, write_register_actions ids rest with
    | some id, some records => some (TraceRecord.register_action id :: records)
    | _, _ => none

/-- Lines 128-155 of `save_cpu_context`: the status flags. The second component
is `comparison_ctx.eflags` afterwards. -/
def save_cpu_context_eflags (ids : List Nat) (eflags comparison_eflags : Nat) :
    Option (List TraceRecord) × Nat :=
  if eflags != comparison_eflags then
    (if (eflags &&& no_action_eflags_bits) != (comparison_eflags &&& no_action_eflags_bits) then
        some (write_reg x86Register.r_eflags 4 eflags comparison_eflags).1
      else if eflags_counter eflags comparison_eflags < 5 then
        write_register_actions ids (eflags_actions eflags comparison_eflags 0 eflags_bits)
      else
        some (write_reg x86Register.r_eflags 4 eflags comparison_eflags).1,
      eflags)
  else
    (some [], comparison_eflags)

/-- The three fields of `CpuContext` that `save_cpu_context` writes by
difference: `regs[REG_RIP]`, `regs[REG_RSP]` (64-bit) and `eflags` (32-bit). -/
structure TracedRegisters where
  rip : Nat
  rsp : Nat
  eflags : Nat
  deriving DecidableEq, Repr

/-- The three difference blocks of `save_cpu_context`, lines 105-155, in order:
the records written and the three fields of `comparison_ctx` afterwards. -/
def save_cpu_context (ids : List Nat) (ctx comparison_ctx : TracedRegisters) :
    Option (List TraceRecord) × TracedRegisters :=
  (match (save_cpu_context_rip ids ctx.rip comparison_ctx.rip).1,
      (save_cpu_context_rsp ids ctx.rsp comparison_ctx.rsp).1,
      (save_cpu_context_eflags ids ctx.eflags comparison_ctx.eflags).1 with
    | some a, some b, some c => some (a ++ b ++ c)
    | _, _, _ => none,
    { rip := (save_cpu_context_rip ids ctx.rip comparison_ctx.rip).2,
      rsp := (save_cpu_context_rsp ids ctx.rsp comparison_ctx.rsp).2,
      eflags := (save_cpu_context_eflags ids ctx.eflags comparison_ctx.eflags).2 })

/-- What a register operation of the machine description does to the traced
registers: `Add` on RIP and RSP is modulo 2^64, `Or` and `And` are bitwise on
EFLAGS. The trace format library that reads the records is not part of the
sources; this is the meaning of a micro-op as the specification states it. -/
def apply_operation (op : RegisterOperation) (r : TracedRegisters) : TracedRegisters :=
  match op.reg, op.operator with
  | x86Register.r_rip, RegisterOperator.Add => { r with rip := (r.rip + op.operand) % 2 ^ 64 }
  | x86Register.r_rsp, RegisterOperator.Add => { r with rsp := (r.rsp + op.operand) % 2 ^ 64 }
  | x86Register.r_eflags, RegisterOperator.Or => { r with eflags := r.eflags ||| op.operand }
  | x86Register.r_eflags, RegisterOperator.And => { r with eflags := r.eflags &&& op.operand }
  | _, _ => r

/-- What one record does to the traced registers, as the specification states
it: a register action applies the operation that `register_operations` stores
under its id, a register write overwrites the register with the `size` bytes
written. -/
def apply_record (register_enum_count : Nat) (r : TracedRegisters) :
    TraceRecord → TracedRegisters
  | TraceRecord.register_action id =>
    match register_operations register_enum_count id with
    | some op => apply_operation op r
    | none => r
  | TraceRecord.register x86Register.r_rip size value =>
    { r with rip := value % 2 ^ (8 * size) }
  | TraceRecord.register x86Register.r_rsp size value =>
    { r with rsp := value % 2 ^ (8 * size) }
  | TraceRecord.register x86Register.r_eflags size value =>
    { r with eflags := value % 2 ^ (8 * size) }
  | TraceRecord.register (x86Register.other _) _ _ => r

/-- The tracked bit positions, in the order of `eflags_bits`, at which the two
values differ. -/
def flipped_tracked_bits (eflags comparison_eflags : Nat) : List Nat :=
  eflags_bits.filter fun bit => eflags.testBit bit != comparison_eflags.testBit bit

/-- One register action per flipped tracked bit, in the order of `eflags_bits`:
for the bit at index `i`, the id at index `RegisterOperationFlagSetCf + i` if
the bit is set in the new value and `RegisterOperationFlagUnsetCf + i` if it
is clear. -/
def flag_micro_ops (register_enum_count eflags comparison_eflags : Nat) : List TraceRecord :=
  (eflags_bits.enum.filter fun p => eflags.testBit p.2 != comparison_eflags.testBit p.2).map
    fun p => TraceRecord.register_action
      (register_enum_count +
        ((if eflags.testBit p.2 then RegisterOperationFlagSetCf
          else RegisterOperationFlagUnsetCf) + p.1))

/-! ## Process entry point -/

/-- How the load of a stream file ends inside `Replayer::load`: `load` returns
true, returns false, or a `std::runtime_error` is thrown. -/
inductive StreamLoad where
  | loaded
  | not_loaded
  | runtime_error
  deriving DecidableEq, Repr

/-- What `Replayer::load` meets: whether `core_.parse` throws, the number of
cores of the snapshot, and how the sync and the hardware file load. -/
structure LoadRun where
  core_parse_throws : Bool
  cpu_count : Nat
  sync_file : StreamLoad
  hardware_file : StreamLoad
  deriving DecidableEq, Repr

/-- The function `Replayer::load` (replayer.cpp lines 142-180). -/
def load (r : LoadRun) : Bool :=
  if r.core_parse_throws then false
  else if r.cpu_count != 1 then false
  else if r.sync_file != StreamLoad.loaded then false
  else if r.hardware_file != StreamLoad.loaded then false
  else true

/-- What one run of `bxmain` meets, in program order: the command line
(`store` throwing, `--help`, `--version`, `notify` throwing, `--fail-on-desync`
given), the load of the snapshot and the streams, the value of `bx_init_main`,
`replayer.get_memory_size()` (`none` when it throws), whether an exception
leaves `SIM->begin_simulation`, and after the simulation
`replayer.get_desync()` and `SIM->get_exit_code()`. -/
structure MainRun where
  store_throws : Bool
  help : Bool
  version : Bool
  notify_throws : Bool
  fail_on_desync : Bool
  load_run : LoadRun
  bx_init_main : Int
  memory_size : Option Nat
  begin_simulation_throws : Bool
  desync : Bool
  exit_code : Int
  deriving DecidableEq, Repr

/-- The return value of `bxmain` (main_replayer.cc lines 225-375). -/
def bxmain (r : MainRun) : Int :=
  if r.store_throws then 1
  else if r.help then 0
  else if r.version then 0
  else if r.notify_throws then 1
  else if !load r.load_run then 1
  else if r.bx_init_main < 0 then 0
  else
    match r.memory_size with
    | none => 1
    | some size =>
      if size / (1024 * 1024) > 2048 then 1
      else if r.begin_simulation_throws then 1
      else if r.fail_on_desync && r.desync then 2
      else r.exit_code

/-- The command line is taken: neither `store` nor `notify` throws and neither
`--help` nor `--version` is given. -/
def options_accepted (r : MainRun) : Bool :=
  !r.store_throws && !r.help && !r.version && !r.notify_throws

/-- The run gets past the set-up and the simulation returns to `bxmain`. -/
def simulation_returns (r : MainRun) : Bool :=
  options_accepted r && load r.load_run && decide (0 ≤ r.bx_init_main) &&
    (match r.memory_size with
      | none => false
      | some size => decide (size / (1024 * 1024) ≤ 2048)) &&
    !r.begin_simulation_throws

/-- A run that replays a snapshot of 512 MiB to the end. -/
def complete_run : MainRun :=
  { store_throws := false, help := false, version := false, notify_throws := false,
    fail_on_desync := false,
    load_run := { core_parse_throws := false, cpu_count := 1,
                  sync_file := StreamLoad.loaded, hardware_file := StreamLoad.loaded },
    bx_init_main := 0, memory_size := some (512 * 1024 * 1024),
    begin_simulation_throws := false, desync := false, exit_code := 0 }

/-! ## Exception descriptions of the tracer -/

/-- The nineteen function-local `static const std::string` objects of
`exception_event_description` (machine_description.cpp lines 69-87). -/
structure exception_strings where
  string_divide : String
  string_debug : String
  string_nmi : String
  string_breakpoint : String
  string_overflow : String
  string_bound : String
  string_invalid_opcode : String
  string_device : String
  string_double : String
  string_coprocessor : String
  string_invalid_tss : String
  string_segment : String
  string_stack : String
  string_general : String
  string_page : String
  string_floating : String
  string_alignment : String
  string_machine : String
  string_unknown : String
  deriving DecidableEq, Repr

/-- The initialisers of the statics, evaluated with the arguments of the call
that runs them; `toString` is `std::to_string` (decimal, with a sign for a
negative `int32_t`). -/
def exception_strings.init (vector : Int) (error_code : Nat) : exception_strings :=
  { string_divide := "divide error"
    string_debug := "debug"
    string_nmi := "nmi interrupt"
    string_breakpoint := "breakpoint"
    string_overflow := "overflow"
    string_bound := "bound range exceeded"
    string_invalid_opcode := "invalid opcode"
    string_device := "device not available"
    string_double := "double fault with error code " ++ toString error_code
    string_coprocessor := "coprocessor segment overrun"
    string_invalid_tss := "invalid tss with error code " ++ toString error_code
    string_segment := "segment not present with error code " ++ toString error_code
    string_stack := "stack segment fault with error code " ++ toString error_code
    string_general := "general protection with error code " ++ toString error_code
    string_page := "page fault with error code " ++ toString error_code
    string_floating := "floating-point error"
    string_alignment := "alignment check with error code " ++ toString error_code
    string_machine := "machine check"
    string_unknown := "unknown exception " ++ toString vector }

/-- The `switch (vector)` of `exception_event_description` with the final
`return string_unknown`. -/
def exception_strings.select (s : exception_strings) (vector : Int) : String :=
  if vector = 0x0 then s.string_divide
  else if vector = 0x1 then s.string_debug
  else if vector = 0x2 then s.string_nmi
  else if vector = 0x3 then s.string_breakpoint
  else if vector = 0x4 then s.string_overflow
  else if vector = 0x5 then s.string_bound
  else if vector = 0x6 then s.string_invalid_opcode
  else if vector = 0x7 then s.string_device
  else if vector = 0x8 then s.string_double
  else if vector = 0x9 then s.string_coprocessor
  else if vector = 0xA then s.string_invalid_tss
  else if vector = 0xB then s.string_segment
  else if vector = 0xC then s.string_stack
  else if vector = 0xD then s.string_general
  else if vector = 0xE then s.string_page
  else if vector = 0x10 then s.string_floating
  else if vector = 0x11 then s.string_alignment
  else if vector = 0x12 then s.string_machine
  else s.string_unknown

/-- The function `exception_event_description(vector, error_code)`. The first
argument is the storage of the function-local statics: `none` until the
declarations have been passed once, which is when their initialisers run; a
later call finds them initialised and skips the initialisers. The result is
the string returned and the storage afterwards. -/
def exception_event_description (statics : Option exception_strings) (vector : Int)
    (error_code : Nat) : String × Option exception_strings :=
  match statics with
  | none =>
    ((exception_strings.init vector error_code).select vector,
      some (exception_strings.init vector error_code))
  | some s => (s.select vector, some s)

/-- The descriptions returned by a sequence of calls, each call given as
`(vector, error_code)`, starting from the given storage of the statics. -/
def exception_event_descriptions :
    Option exception_strings → List (Int × Nat) → List String
  | _, [] => []
  | statics, call :: rest =>
    (exception_event_description statics call.1 call.2).1 ::
      exception_event_descriptions (exception_event_description statics call.1 call.2).2 rest

/-! ## The x87 registers in the trace context -/

/-- The engine type `floatx80` of `the_i387.st_space[i]`: a 64-bit `fraction`
and a 16-bit `exp`. -/
structure floatx80 where
  fraction : Nat
  exp : Nat
  deriving DecidableEq, Repr

/-- The `size` bytes in memory of an unsigned integer, lowest byte first (the
host is little-endian). -/
def object_bytes (size x : Nat) : List Nat :=
  (List.range size).map fun k => x / 2 ^ (8 * k) % 256

/-- The call `std::memcpy(dest + offset, src, n)` on byte lists: `src` is the
memory from the source pointer on. -/
def memcpy (dest : List Nat) (offset : Nat) (src : List Nat) (n : Nat) : List Nat :=
  dest.take offset ++ src.take n ++ dest.drop (offset + n)

/-- The body of the loop of `create_cpu_context` at lines 269-272 for one
register: `value` is `ctx.i387.fpregs[i].value` before, the result is the same
array after. Both copies take `&st_space[i].fraction` as source, the first
`sizeof(fraction) = 8` bytes to offset 0 and the second `sizeof(exp) = 2` bytes
to offset `sizeof(fraction)`. -/
def create_cpu_context_fpreg (value : List Nat) (st : floatx80) : List Nat :=
  memcpy (memcpy value 0 (object_bytes 8 st.fraction) 8) 8 (object_bytes 8 st.fraction) 2

/-- The loop of `create_cpu_context` at lines 269-272 over the eight
registers. -/
def create_cpu_context_fpregs (fpregs : List (List Nat)) (st_space : List floatx80) :
    List (List Nat) :=
  List.zipWith create_cpu_context_fpreg (fpregs.take 8) (st_space.take 8)

/-- The 10 bytes that are the 8 bytes of the fraction followed by the 2 bytes
of the exponent, which is also what `apply_sync_event` reads a register from
(replayer.cpp lines 290-291). -/
def fraction_then_exp (st : floatx80) : List Nat :=
  object_bytes 8 st.fraction ++ object_bytes 2 st.exp

/-- The x87 register holding 1.0. -/
def st_one : floatx80 := { fraction := 0x8000000000000000, exp := 0x3fff }

/-! # Properties -/

/-! ## Field lemmas

What each building block does to each field of the state. -/

@[simp]
theorem emit_sync_file_ (m : Replayer) (e : Effect) :
    (m.emit e).sync_file_ = m.sync_file_ :=
  rfl

@[simp]
theorem emit_hardware_file_ (m : Replayer) (e : Effect) :
    (m.emit e).hardware_file_ = m.hardware_file_ :=
  rfl

@[simp]
theorem emit_current_rip_ (m : Replayer) (e : Effect) :
    (m.emit e).current_rip_ = m.current_rip_ :=
  rfl

@[simp]
theorem emit_current_instruction_ (m : Replayer) (e : Effect) :
    (m.emit e).current_instruction_ = m.current_instruction_ :=
  rfl

@[simp]
theorem emit_current_event_ (m : Replayer) (e : Effect) :
    (m.emit e).current_event_ = m.current_event_ :=
  rfl

@[simp]
theorem emit_current_ctx_ (m : Replayer) (e : Effect) :
    (m.emit e).current_ctx_ = m.current_ctx_ :=
  rfl

@[simp]
theorem emit_saved_interrupt_event_ (m : Replayer) (e : Effect) :
    (m.emit e).saved_interrupt_event_ = m.saved_interrupt_event_ :=
  rfl

@[simp]
theorem emit_desync_ (m : Replayer) (e : Effect) :
    (m.emit e).desync_ = m.desync_ :=
  rfl

@[simp]
theorem emit_last_sync_point_ (m : Replayer) (e : Effect) :
    (m.emit e).last_sync_point_ = m.last_sync_point_ :=
  rfl

@[simp]
theorem emit_cpu (m : Replayer) (e : Effect) :
    (m.emit e).cpu = m.cpu :=
  rfl

@[simp]
theorem emit_i (m : Replayer) (e : Effect) :
    (m.emit e).i = m.i :=
  rfl

@[simp]
theorem emit_kill_bochs_request (m : Replayer) (e : Effect) :
    (m.emit e).kill_bochs_request = m.kill_bochs_request :=
  rfl

@[simp]
theorem emit_log (m : Replayer) (e : Effect) :
    (m.emit e).log = m.log ++ [e] :=
  rfl

@[simp]
theorem replayed_sync_file_ (m : Replayer) (t : Nat) :
    (replayed m t).sync_file_ = m.sync_file_ :=
  rfl

@[simp]
theorem replayed_hardware_file_ (m : Replayer) (t : Nat) :
    (replayed m t).hardware_file_ = m.hardware_file_.drop (consumed_entries t m.hardware_file_).length :=
  rfl

@[simp]
theorem replayed_current_rip_ (m : Replayer) (t : Nat) :
    (replayed m t).current_rip_ = m.current_rip_ :=
  rfl

@[simp]
theorem replayed_current_instruction_ (m : Replayer) (t : Nat) :
    (replayed m t).current_instruction_ = m.current_instruction_ :=
  rfl

@[simp]
theorem replayed_current_event_ (m : Replayer) (t : Nat) :
    (replayed m t).current_event_ = m.current_event_ :=
  rfl

@[simp]
theorem replayed_current_ctx_ (m : Replayer) (t : Nat) :
    (replayed m t).current_ctx_ = m.current_ctx_ :=
  rfl

@[simp]
theorem replayed_saved_interrupt_event_ (m : Replayer) (t : Nat) :
    (replayed m t).saved_interrupt_event_ = m.saved_interrupt_event_ :=
  rfl

@[simp]
theorem replayed_desync_ (m : Replayer) (t : Nat) :
    (replayed m t).desync_ = m.desync_ :=
  rfl

@[simp]
theorem replayed_last_sync_point_ (m : Replayer) (t : Nat) :
    (replayed m t).last_sync_point_ = m.last_sync_point_ :=
  rfl

@[simp]
theorem replayed_cpu (m : Replayer) (t : Nat) :
    (replayed m t).cpu = { m.cpu with tsc := t } :=
  rfl

@[simp]
theorem replayed_i (m : Replayer) (t : Nat) :
    (replayed m t).i = m.i :=
  rfl

@[simp]
theorem replayed_kill_bochs_request (m : Replayer) (t : Nat) :
    (replayed m t).kill_bochs_request = m.kill_bochs_request :=
  rfl

@[simp]
theorem replayed_log (m : Replayer) (t : Nat) :
    (replayed m t).log = m.log ++ Effect.set_TSC t :: (consumed_entries t m.hardware_file_).flatMap (access_effects m.cpu) :=
  rfl

@[simp]
theorem end_of_scenario_sync_file_ (m : Replayer) (d : Bool) :
    ((end_of_scenario m d).2).sync_file_ = m.sync_file_ :=
  rfl

@[simp]
theorem end_of_scenario_hardware_file_ (m : Replayer) (d : Bool) :
    ((end_of_scenario m d).2).hardware_file_ = m.hardware_file_ :=
  rfl

@[simp]
theorem end_of_scenario_current_rip_ (m : Replayer) (d : Bool) :
    ((end_of_scenario m d).2).current_rip_ = m.current_rip_ :=
  rfl

@[simp]
theorem end_of_scenario_current_instruction_ (m : Replayer) (d : Bool) :
    ((end_of_scenario m d).2).current_instruction_ = m.current_instruction_ :=
  rfl

@[simp]
theorem end_of_scenario_current_event_ (m : Replayer) (d : Bool) :
    ((end_of_scenario m d).2).current_event_ = m.current_event_ :=
  rfl

@[simp]
theorem end_of_scenario_current_ctx_ (m : Replayer) (d : Bool) :
    ((end_of_scenario m d).2).current_ctx_ = m.current_ctx_ :=
  rfl

@[simp]
theorem end_of_scenario_saved_interrupt_event_ (m : Replayer) (d : Bool) :
    ((end_of_scenario m d).2).saved_interrupt_event_ = m.saved_interrupt_event_ :=
  rfl

@[simp]
theorem end_of_scenario_desync_ (m : Replayer) (d : Bool) :
    ((end_of_scenario m d).2).desync_ = d :=
  rfl

@[simp]
theorem end_of_scenario_last_sync_point_ (m : Replayer) (d : Bool) :
    ((end_of_scenario m d).2).last_sync_point_ = m.last_sync_point_ :=
  rfl

@[simp]
theorem end_of_scenario_cpu (m : Replayer) (d : Bool) :
    ((end_of_scenario m d).2).cpu = { m.cpu with async_event := 1 } :=
  rfl

@[simp]
theorem end_of_scenario_i (m : Replayer) (d : Bool) :
    ((end_of_scenario m d).2).i = m.i :=
  rfl

@[simp]
theorem end_of_scenario_kill_bochs_request (m : Replayer) (d : Bool) :
    ((end_of_scenario m d).2).kill_bochs_request = true :=
  rfl

@[simp]
theorem end_of_scenario_log (m : Replayer) (d : Bool) :
    ((end_of_scenario m d).2).log = m.log ++ [Effect.end_of_scenario d] :=
  rfl

@[simp]
theorem LOG_DESYNC_sync_file_ (m : Replayer) (msg : Message) :
    ((LOG_DESYNC m msg).2).sync_file_ = m.sync_file_ :=
  by simp [LOG_DESYNC, end_of_scenario, Replayer.emit]

@[simp]
theorem LOG_DESYNC_hardware_file_ (m : Replayer) (msg : Message) :
    ((LOG_DESYNC m msg).2).hardware_file_ = m.hardware_file_ :=
  by simp [LOG_DESYNC, end_of_scenario, Replayer.emit]

@[simp]
theorem LOG_DESYNC_current_rip_ (m : Replayer) (msg : Message) :
    ((LOG_DESYNC m msg).2).current_rip_ = m.current_rip_ :=
  by simp [LOG_DESYNC, end_of_scenario, Replayer.emit]

@[simp]
theorem LOG_DESYNC_current_instruction_ (m : Replayer) (msg : Message) :
    ((LOG_DESYNC m msg).2).current_instruction_ = m.current_instruction_ :=
  by simp [LOG_DESYNC, end_of_scenario, Replayer.emit]

@[simp]
theorem LOG_DESYNC_current_event_ (m : Replayer) (msg : Message) :
    ((LOG_DESYNC m msg).2).current_event_ = m.current_event_ :=
  by simp [LOG_DESYNC, end_of_scenario, Replayer.emit]

@[simp]
theorem LOG_DESYNC_current_ctx_ (m : Replayer) (msg : Message) :
    ((LOG_DESYNC m msg).2).current_ctx_ = m.current_ctx_ :=
  by simp [LOG_DESYNC, end_of_scenario, Replayer.emit]

@[simp]
theorem LOG_DESYNC_saved_interrupt_event_ (m : Replayer) (msg : Message) :
    ((LOG_DESYNC m msg).2).saved_interrupt_event_ = m.saved_interrupt_event_ :=
  by simp [LOG_DESYNC, end_of_scenario, Replayer.emit]

@[simp]
theorem LOG_DESYNC_desync_ (m : Replayer) (msg : Message) :
    ((LOG_DESYNC m msg).2).desync_ = true :=
  by simp [LOG_DESYNC, end_of_scenario, Replayer.emit]

@[simp]
theorem LOG_DESYNC_last_sync_point_ (m : Replayer) (msg : Message) :
    ((LOG_DESYNC m msg).2).last_sync_point_ = m.last_sync_point_ :=
  by simp [LOG_DESYNC, end_of_scenario, Replayer.emit]

@[simp]
theorem LOG_DESYNC_cpu (m : Replayer) (msg : Message) :
    ((LOG_DESYNC m msg).2).cpu = { m.cpu with async_event := 1 } :=
  by simp [LOG_DESYNC, end_of_scenario, Replayer.emit]

@[simp]
theorem LOG_DESYNC_i (m : Replayer) (msg : Message) :
    ((LOG_DESYNC m msg).2).i = m.i :=
  by simp [LOG_DESYNC, end_of_scenario, Replayer.emit]

@[simp]
theorem LOG_DESYNC_kill_bochs_request (m : Replayer) (msg : Message) :
    ((LOG_DESYNC m msg).2).kill_bochs_request = true :=
  by simp [LOG_DESYNC, end_of_scenario, Replayer.emit]

@[simp]
theorem LOG_DESYNC_log (m : Replayer) (msg : Message) :
    ((LOG_DESYNC m msg).2).log = m.log ++ [Effect.message msg, Effect.end_of_scenario true] :=
  by simp [LOG_DESYNC, end_of_scenario, Replayer.emit]

@[simp]
theorem LOG_END_REPLAY_sync_file_ (m : Replayer) (msg : Message) :
    ((LOG_END_REPLAY m msg).2).sync_file_ = m.sync_file_ :=
  by simp [LOG_END_REPLAY, end_of_scenario, Replayer.emit]

@[simp]
theorem LOG_END_REPLAY_hardware_file_ (m : Replayer) (msg : Message) :
    ((LOG_END_REPLAY m msg).2).hardware_file_ = m.hardware_file_ :=
  by simp [LOG_END_REPLAY, end_of_scenario, Replayer.emit]

@[simp]
theorem LOG_END_REPLAY_current_rip_ (m : Replayer) (msg : Message) :
    ((LOG_END_REPLAY m msg).2).current_rip_ = m.current_rip_ :=
  by simp [LOG_END_REPLAY, end_of_scenario, Replayer.emit]

@[simp]
theorem LOG_END_REPLAY_current_instruction_ (m : Replayer) (msg : Message) :
    ((LOG_END_REPLAY m msg).2).current_instruction_ = m.current_instruction_ :=
  by simp [LOG_END_REPLAY, end_of_scenario, Replayer.emit]

@[simp]
theorem LOG_END_REPLAY_current_event_ (m : Replayer) (msg : Message) :
    ((LOG_END_REPLAY m msg).2).current_event_ = m.current_event_ :=
  by simp [LOG_END_REPLAY, end_of_scenario, Replayer.emit]

@[simp]
theorem LOG_END_REPLAY_current_ctx_ (m : Replayer) (msg : Message) :
    ((LOG_END_REPLAY m msg).2).current_ctx_ = m.current_ctx_ :=
  by simp [LOG_END_REPLAY, end_of_scenario, Replayer.emit]

@[simp]
theorem LOG_END_REPLAY_saved_interrupt_event_ (m : Replayer) (msg : Message) :
    ((LOG_END_REPLAY m msg).2).saved_interrupt_event_ = m.saved_interrupt_event_ :=
  by simp [LOG_END_REPLAY, end_of_scenario, Replayer.emit]

@[simp]
theorem LOG_END_REPLAY_desync_ (m : Replayer) (msg : Message) :
    ((LOG_END_REPLAY m msg).2).desync_ = false :=
  by simp [LOG_END_REPLAY, end_of_scenario, Replayer.emit]

@[simp]
theorem LOG_END_REPLAY_last_sync_point_ (m : Replayer) (msg : Message) :
    ((LOG_END_REPLAY m msg).2).last_sync_point_ = m.last_sync_point_ :=
  by simp [LOG_END_REPLAY, end_of_scenario, Replayer.emit]

@[simp]
theorem LOG_END_REPLAY_cpu (m : Replayer) (msg : Message) :
    ((LOG_END_REPLAY m msg).2).cpu = { m.cpu with async_event := 1 } :=
  by simp [LOG_END_REPLAY, end_of_scenario, Replayer.emit]

@[simp]
theorem LOG_END_REPLAY_i (m : Replayer) (msg : Message) :
    ((LOG_END_REPLAY m msg).2).i = m.i :=
  by simp [LOG_END_REPLAY, end_of_scenario, Replayer.emit]

@[simp]
theorem LOG_END_REPLAY_kill_bochs_request (m : Replayer) (msg : Message) :
    ((LOG_END_REPLAY m msg).2).kill_bochs_request = true :=
  by simp [LOG_END_REPLAY, end_of_scenario, Replayer.emit]

@[simp]
theorem LOG_END_REPLAY_log (m : Replayer) (msg : Message) :
    ((LOG_END_REPLAY m msg).2).log = m.log ++ [Effect.message msg, Effect.end_of_scenario false] :=
  by simp [LOG_END_REPLAY, end_of_scenario, Replayer.emit]

@[simp]
theorem end_of_scenario_flow (m : Replayer) (d : Bool) :
    (end_of_scenario m d).1 = Flow.longjmp 1 :=
  rfl

@[simp]
theorem LOG_DESYNC_flow (m : Replayer) (msg : Message) :
    (LOG_DESYNC m msg).1 = Flow.longjmp 1 :=
  rfl

@[simp]
theorem LOG_END_REPLAY_flow (m : Replayer) (msg : Message) :
    (LOG_END_REPLAY m msg).1 = Flow.longjmp 1 :=
  rfl

@[simp]
theorem capture_context_sync_file_ (m : Replayer) :
    (capture_context m).sync_file_ = m.sync_file_ :=
  rfl

@[simp]
theorem capture_context_hardware_file_ (m : Replayer) :
    (capture_context m).hardware_file_ = m.hardware_file_ :=
  rfl

@[simp]
theorem capture_context_current_rip_ (m : Replayer) :
    (capture_context m).current_rip_ = m.current_rip_ :=
  rfl

@[simp]
theorem capture_context_current_instruction_ (m : Replayer) :
    (capture_context m).current_instruction_ = m.current_instruction_ :=
  rfl

@[simp]
theorem capture_context_current_event_ (m : Replayer) :
    (capture_context m).current_event_ = m.current_event_ :=
  rfl

@[simp]
theorem capture_context_saved_interrupt_event_ (m : Replayer) :
    (capture_context m).saved_interrupt_event_ = m.saved_interrupt_event_ :=
  rfl

@[simp]
theorem capture_context_desync_ (m : Replayer) :
    (capture_context m).desync_ = m.desync_ :=
  rfl

@[simp]
theorem capture_context_last_sync_point_ (m : Replayer) :
    (capture_context m).last_sync_point_ = m.last_sync_point_ :=
  rfl

@[simp]
theorem capture_context_cpu (m : Replayer) :
    (capture_context m).cpu = m.cpu :=
  rfl

@[simp]
theorem capture_context_i (m : Replayer) :
    (capture_context m).i = m.i :=
  rfl

@[simp]
theorem capture_context_kill_bochs_request (m : Replayer) :
    (capture_context m).kill_bochs_request = m.kill_bochs_request :=
  rfl

@[simp]
theorem capture_context_log (m : Replayer) :
    (capture_context m).log = m.log :=
  rfl

@[simp]
theorem enter_instruction_sync_file_ (m : Replayer) :
    (enter_instruction m).sync_file_ = m.sync_file_ :=
  rfl

@[simp]
theorem enter_instruction_hardware_file_ (m : Replayer) :
    (enter_instruction m).hardware_file_ = m.hardware_file_ :=
  rfl

@[simp]
theorem enter_instruction_current_rip_ (m : Replayer) :
    (enter_instruction m).current_rip_ = m.cpu.rip :=
  rfl

@[simp]
theorem enter_instruction_current_instruction_ (m : Replayer) :
    (enter_instruction m).current_instruction_ = m.i.execute1 :=
  rfl

@[simp]
theorem enter_instruction_current_event_ (m : Replayer) :
    (enter_instruction m).current_event_ = sync_event.none :=
  rfl

@[simp]
theorem enter_instruction_current_ctx_ (m : Replayer) :
    (enter_instruction m).current_ctx_ = m.current_ctx_ :=
  rfl

@[simp]
theorem enter_instruction_saved_interrupt_event_ (m : Replayer) :
    (enter_instruction m).saved_interrupt_event_ = m.saved_interrupt_event_ :=
  rfl

@[simp]
theorem enter_instruction_desync_ (m : Replayer) :
    (enter_instruction m).desync_ = m.desync_ :=
  rfl

@[simp]
theorem enter_instruction_last_sync_point_ (m : Replayer) :
    (enter_instruction m).last_sync_point_ = m.last_sync_point_ :=
  rfl

@[simp]
theorem enter_instruction_cpu (m : Replayer) :
    (enter_instruction m).cpu = m.cpu :=
  rfl

@[simp]
theorem enter_instruction_i (m : Replayer) :
    (enter_instruction m).i = m.i :=
  rfl

@[simp]
theorem enter_instruction_kill_bochs_request (m : Replayer) :
    (enter_instruction m).kill_bochs_request = m.kill_bochs_request :=
  rfl

@[simp]
theorem enter_instruction_log (m : Replayer) :
    (enter_instruction m).log = m.log :=
  rfl

@[simp]
theorem match_sync_event_sync_file_ (m : Replayer) (ev : sync_event) (note : MatchNote) :
    (match_sync_event m ev note).sync_file_ = m.sync_file_.tail :=
  rfl

@[simp]
theorem match_sync_event_hardware_file_ (m : Replayer) (ev : sync_event) (note : MatchNote) :
    (match_sync_event m ev note).hardware_file_ = m.hardware_file_ :=
  rfl

@[simp]
theorem match_sync_event_current_rip_ (m : Replayer) (ev : sync_event) (note : MatchNote) :
    (match_sync_event m ev note).current_rip_ = m.current_rip_ :=
  rfl

@[simp]
theorem match_sync_event_current_instruction_ (m : Replayer) (ev : sync_event) (note : MatchNote) :
    (match_sync_event m ev note).current_instruction_ = m.current_instruction_ :=
  rfl

@[simp]
theorem match_sync_event_current_event_ (m : Replayer) (ev : sync_event) (note : MatchNote) :
    (match_sync_event m ev note).current_event_ = ev :=
  rfl

@[simp]
theorem match_sync_event_current_ctx_ (m : Replayer) (ev : sync_event) (note : MatchNote) :
    (match_sync_event m ev note).current_ctx_ = m.current_ctx_ :=
  rfl

@[simp]
theorem match_sync_event_saved_interrupt_event_ (m : Replayer) (ev : sync_event) (note : MatchNote) :
    (match_sync_event m ev note).saved_interrupt_event_ = m.saved_interrupt_event_ :=
  rfl

@[simp]
theorem match_sync_event_desync_ (m : Replayer) (ev : sync_event) (note : MatchNote) :
    (match_sync_event m ev note).desync_ = m.desync_ :=
  rfl

@[simp]
theorem match_sync_event_last_sync_point_ (m : Replayer) (ev : sync_event) (note : MatchNote) :
    (match_sync_event m ev note).last_sync_point_ = ev.position :=
  rfl

@[simp]
theorem match_sync_event_cpu (m : Replayer) (ev : sync_event) (note : MatchNote) :
    (match_sync_event m ev note).cpu = m.cpu :=
  rfl

@[simp]
theorem match_sync_event_i (m : Replayer) (ev : sync_event) (note : MatchNote) :
    (match_sync_event m ev note).i = m.i :=
  rfl

@[simp]
theorem match_sync_event_kill_bochs_request (m : Replayer) (ev : sync_event) (note : MatchNote) :
    (match_sync_event m ev note).kill_bochs_request = m.kill_bochs_request :=
  rfl

@[simp]
theorem match_sync_event_log (m : Replayer) (ev : sync_event) (note : MatchNote) :
    (match_sync_event m ev note).log = m.log ++ [Effect.match_sync_event ev.position note] :=
  rfl

@[simp]
theorem nop_emulated_instruction_sync_file_ (m : Replayer) :
    (nop_emulated_instruction m).sync_file_ = m.sync_file_ :=
  by unfold nop_emulated_instruction; split_ifs <;> rfl

@[simp]
theorem nop_emulated_instruction_hardware_file_ (m : Replayer) :
    (nop_emulated_instruction m).hardware_file_ = m.hardware_file_ :=
  by unfold nop_emulated_instruction; split_ifs <;> rfl

@[simp]
theorem nop_emulated_instruction_current_rip_ (m : Replayer) :
    (nop_emulated_instruction m).current_rip_ = m.current_rip_ :=
  by unfold nop_emulated_instruction; split_ifs <;> rfl

@[simp]
theorem nop_emulated_instruction_current_instruction_ (m : Replayer) :
    (nop_emulated_instruction m).current_instruction_ = m.current_instruction_ :=
  by unfold nop_emulated_instruction; split_ifs <;> rfl

@[simp]
theorem nop_emulated_instruction_current_event_ (m : Replayer) :
    (nop_emulated_instruction m).current_event_ = m.current_event_ :=
  by unfold nop_emulated_instruction; split_ifs <;> rfl

@[simp]
theorem nop_emulated_instruction_current_ctx_ (m : Replayer) :
    (nop_emulated_instruction m).current_ctx_ = m.current_ctx_ :=
  by unfold nop_emulated_instruction; split_ifs <;> rfl

@[simp]
theorem nop_emulated_instruction_saved_interrupt_event_ (m : Replayer) :
    (nop_emulated_instruction m).saved_interrupt_event_ = m.saved_interrupt_event_ :=
  by unfold nop_emulated_instruction; split_ifs <;> rfl

@[simp]
theorem nop_emulated_instruction_desync_ (m : Replayer) :
    (nop_emulated_instruction m).desync_ = m.desync_ :=
  by unfold nop_emulated_instruction; split_ifs <;> rfl

@[simp]
theorem nop_emulated_instruction_last_sync_point_ (m : Replayer) :
    (nop_emulated_instruction m).last_sync_point_ = m.last_sync_point_ :=
  by unfold nop_emulated_instruction; split_ifs <;> rfl

@[simp]
theorem nop_emulated_instruction_cpu (m : Replayer) :
    (nop_emulated_instruction m).cpu = m.cpu :=
  by unfold nop_emulated_instruction; split_ifs <;> rfl

@[simp]
theorem nop_emulated_instruction_kill_bochs_request (m : Replayer) :
    (nop_emulated_instruction m).kill_bochs_request = m.kill_bochs_request :=
  by unfold nop_emulated_instruction; split_ifs <;> rfl

@[simp]
theorem nop_emulated_instruction_log (m : Replayer) :
    (nop_emulated_instruction m).log = m.log :=
  by unfold nop_emulated_instruction; split_ifs <;> rfl

@[simp]
theorem force_emulation_sync_file_ (m : Replayer) (position : Nat) (c : context) :
    (force_emulation m position c).sync_file_ = m.sync_file_ :=
  rfl

@[simp]
theorem force_emulation_hardware_file_ (m : Replayer) (position : Nat) (c : context) :
    (force_emulation m position c).hardware_file_ = m.hardware_file_ :=
  rfl

@[simp]
theorem force_emulation_current_rip_ (m : Replayer) (position : Nat) (c : context) :
    (force_emulation m position c).current_rip_ = m.current_rip_ :=
  rfl

@[simp]
theorem force_emulation_current_instruction_ (m : Replayer) (position : Nat) (c : context) :
    (force_emulation m position c).current_instruction_ = m.current_instruction_ :=
  rfl

@[simp]
theorem force_emulation_current_event_ (m : Replayer) (position : Nat) (c : context) :
    (force_emulation m position c).current_event_ = m.current_event_ :=
  rfl

@[simp]
theorem force_emulation_current_ctx_ (m : Replayer) (position : Nat) (c : context) :
    (force_emulation m position c).current_ctx_ = m.current_ctx_ :=
  rfl

@[simp]
theorem force_emulation_saved_interrupt_event_ (m : Replayer) (position : Nat) (c : context) :
    (force_emulation m position c).saved_interrupt_event_ = m.saved_interrupt_event_ :=
  rfl

@[simp]
theorem force_emulation_desync_ (m : Replayer) (position : Nat) (c : context) :
    (force_emulation m position c).desync_ = m.desync_ :=
  rfl

@[simp]
theorem force_emulation_last_sync_point_ (m : Replayer) (position : Nat) (c : context) :
    (force_emulation m position c).last_sync_point_ = m.last_sync_point_ :=
  rfl

@[simp]
theorem force_emulation_i (m : Replayer) (position : Nat) (c : context) :
    (force_emulation m position c).i = m.i :=
  rfl

@[simp]
theorem force_emulation_kill_bochs_request (m : Replayer) (position : Nat) (c : context) :
    (force_emulation m position c).kill_bochs_request = m.kill_bochs_request :=
  rfl

@[simp]
theorem force_emulation_log (m : Replayer) (position : Nat) (c : context) :
    (force_emulation m position c).log = m.log ++ [Effect.info_forcing_emulation position] :=
  rfl

@[simp]
theorem restore_instruction_sync_file_ (m : Replayer) :
    (restore_instruction m).sync_file_ = m.sync_file_ :=
  rfl

@[simp]
theorem restore_instruction_hardware_file_ (m : Replayer) :
    (restore_instruction m).hardware_file_ = m.hardware_file_ :=
  rfl

@[simp]
theorem restore_instruction_current_rip_ (m : Replayer) :
    (restore_instruction m).current_rip_ = m.current_rip_ :=
  rfl

@[simp]
theorem restore_instruction_current_instruction_ (m : Replayer) :
    (restore_instruction m).current_instruction_ = m.current_instruction_ :=
  rfl

@[simp]
theorem restore_instruction_current_event_ (m : Replayer) :
    (restore_instruction m).current_event_ = m.current_event_ :=
  rfl

@[simp]
theorem restore_instruction_current_ctx_ (m : Replayer) :
    (restore_instruction m).current_ctx_ = m.current_ctx_ :=
  rfl

@[simp]
theorem restore_instruction_saved_interrupt_event_ (m : Replayer) :
    (restore_instruction m).saved_interrupt_event_ = m.saved_interrupt_event_ :=
  rfl

@[simp]
theorem restore_instruction_desync_ (m : Replayer) :
    (restore_instruction m).desync_ = m.desync_ :=
  rfl

@[simp]
theorem restore_instruction_last_sync_point_ (m : Replayer) :
    (restore_instruction m).last_sync_point_ = m.last_sync_point_ :=
  rfl

@[simp]
theorem restore_instruction_cpu (m : Replayer) :
    (restore_instruction m).cpu = m.cpu :=
  rfl

@[simp]
theorem restore_instruction_i (m : Replayer) :
    (restore_instruction m).i = { m.i with execute1 := m.current_instruction_ } :=
  rfl

@[simp]
theorem restore_instruction_kill_bochs_request (m : Replayer) :
    (restore_instruction m).kill_bochs_request = m.kill_bochs_request :=
  rfl

@[simp]
theorem restore_instruction_log (m : Replayer) :
    (restore_instruction m).log = m.log :=
  rfl

@[simp]
theorem delivery_call_sync_file_ (m : Replayer) (ev : sync_event) :
    (delivery_call m ev).sync_file_ = m.sync_file_ :=
  rfl

@[simp]
theorem delivery_call_hardware_file_ (m : Replayer) (ev : sync_event) :
    (delivery_call m ev).hardware_file_ = m.hardware_file_.drop (consumed_entries ev.start_context.tsc m.hardware_file_).length :=
  rfl

@[simp]
theorem delivery_call_current_rip_ (m : Replayer) (ev : sync_event) :
    (delivery_call m ev).current_rip_ = m.current_rip_ :=
  rfl

@[simp]
theorem delivery_call_current_instruction_ (m : Replayer) (ev : sync_event) :
    (delivery_call m ev).current_instruction_ = m.current_instruction_ :=
  rfl

@[simp]
theorem delivery_call_current_event_ (m : Replayer) (ev : sync_event) :
    (delivery_call m ev).current_event_ = m.current_event_ :=
  rfl

@[simp]
theorem delivery_call_current_ctx_ (m : Replayer) (ev : sync_event) :
    (delivery_call m ev).current_ctx_ = m.current_ctx_ :=
  rfl

@[simp]
theorem delivery_call_saved_interrupt_event_ (m : Replayer) (ev : sync_event) :
    (delivery_call m ev).saved_interrupt_event_ = m.saved_interrupt_event_ :=
  rfl

@[simp]
theorem delivery_call_desync_ (m : Replayer) (ev : sync_event) :
    (delivery_call m ev).desync_ = m.desync_ :=
  rfl

@[simp]
theorem delivery_call_last_sync_point_ (m : Replayer) (ev : sync_event) :
    (delivery_call m ev).last_sync_point_ = m.last_sync_point_ :=
  rfl

@[simp]
theorem delivery_call_i (m : Replayer) (ev : sync_event) :
    (delivery_call m ev).i = m.i :=
  rfl

@[simp]
theorem delivery_call_kill_bochs_request (m : Replayer) (ev : sync_event) :
    (delivery_call m ev).kill_bochs_request = m.kill_bochs_request :=
  rfl

@[simp]
theorem delivery_call_cpu (m : Replayer) (ev : sync_event) :
    (delivery_call m ev).cpu = { m.cpu with tsc := ev.start_context.tsc } :=
  rfl

@[simp]
theorem delivery_call_log (m : Replayer) (ev : sync_event) :
    (delivery_call m ev).log = m.log ++ Effect.set_TSC ev.start_context.tsc ::
        (consumed_entries ev.start_context.tsc m.hardware_file_).flatMap (access_effects m.cpu) ++
      [Effect.warn_simulating_interrupt ev.position] ++
      [Effect.interrupt ev.interrupt_vector InterruptType.BX_EXTERNAL_INTERRUPT 0
        ev.fault_error_code] :=
  rfl

@[simp]
theorem clear_current_event_sync_file_ (m : Replayer) :
    (clear_current_event m).sync_file_ = m.sync_file_ :=
  rfl

@[simp]
theorem clear_current_event_hardware_file_ (m : Replayer) :
    (clear_current_event m).hardware_file_ = m.hardware_file_ :=
  rfl

@[simp]
theorem clear_current_event_current_rip_ (m : Replayer) :
    (clear_current_event m).current_rip_ = m.current_rip_ :=
  rfl

@[simp]
theorem clear_current_event_current_instruction_ (m : Replayer) :
    (clear_current_event m).current_instruction_ = m.current_instruction_ :=
  rfl

@[simp]
theorem clear_current_event_current_event_ (m : Replayer) :
    (clear_current_event m).current_event_ = sync_event.none :=
  rfl

@[simp]
theorem clear_current_event_current_ctx_ (m : Replayer) :
    (clear_current_event m).current_ctx_ = m.current_ctx_ :=
  rfl

@[simp]
theorem clear_current_event_saved_interrupt_event_ (m : Replayer) :
    (clear_current_event m).saved_interrupt_event_ = m.saved_interrupt_event_ :=
  rfl

@[simp]
theorem clear_current_event_desync_ (m : Replayer) :
    (clear_current_event m).desync_ = m.desync_ :=
  rfl

@[simp]
theorem clear_current_event_last_sync_point_ (m : Replayer) :
    (clear_current_event m).last_sync_point_ = m.last_sync_point_ :=
  rfl

@[simp]
theorem clear_current_event_cpu (m : Replayer) :
    (clear_current_event m).cpu = m.cpu :=
  rfl

@[simp]
theorem clear_current_event_i (m : Replayer) :
    (clear_current_event m).i = m.i :=
  rfl

@[simp]
theorem clear_current_event_kill_bochs_request (m : Replayer) :
    (clear_current_event m).kill_bochs_request = m.kill_bochs_request :=
  rfl

@[simp]
theorem clear_current_event_log (m : Replayer) :
    (clear_current_event m).log = m.log :=
  rfl

/-! ## Control flow lemmas -/

@[simp]
theorem andThen_returned (m : Replayer) (k : Replayer → Result) :
    Result.andThen (Flow.returned, m) k = k m :=
  rfl

@[simp]
theorem andThen_longjmp (v : Nat) (m : Replayer) (k : Replayer → Result) :
    Result.andThen (Flow.longjmp v, m) k = (Flow.longjmp v, m) :=
  rfl

@[simp]
theorem andThen_end_of_scenario (m : Replayer) (d : Bool) (k : Replayer → Result) :
    (end_of_scenario m d).andThen k = end_of_scenario m d :=
  rfl

@[simp]
theorem andThen_LOG_DESYNC (m : Replayer) (msg : Message) (k : Replayer → Result) :
    (LOG_DESYNC m msg).andThen k = LOG_DESYNC m msg :=
  rfl

@[simp]
theorem andThen_LOG_END_REPLAY (m : Replayer) (msg : Message) (k : Replayer → Result) :
    (LOG_END_REPLAY m msg).andThen k = LOG_END_REPLAY m msg :=
  rfl

theorem andThen_ite (c : Prop) [Decidable c] (a b : Result) (k : Replayer → Result) :
    (if c then a else b).andThen k = if c then a.andThen k else b.andThen k := by
  split <;> rfl

/-! ## Rule B -/

theorem TEST_IGNORE_EFL_iff (x y : Nat) : TEST_IGNORE_EFL x y = true ↔ tolerated x y := by
  simp [TEST_IGNORE_EFL, tolerated]

/-- Rule B unfolded: a conjunction of the fifteen tolerant comparisons and the
five exact ones. -/
theorem match_with_no_eflags_iff (a b : context) :
    match_with_no_eflags a b = true ↔
      (tolerated a.rax b.rax ∧ tolerated a.rbx b.rbx ∧ tolerated a.rcx b.rcx ∧
       tolerated a.rdx b.rdx ∧ tolerated a.rsi b.rsi ∧ tolerated a.rdi b.rdi ∧
       tolerated a.rbp b.rbp ∧ tolerated a.r8 b.r8 ∧ tolerated a.r9 b.r9 ∧
       tolerated a.r10 b.r10 ∧ tolerated a.r11 b.r11 ∧ tolerated a.r12 b.r12 ∧
       tolerated a.r13 b.r13 ∧ tolerated a.r14 b.r14 ∧ tolerated a.r15 b.r15) ∧
      (a.rsp = b.rsp ∧ a.cr0 = b.cr0 ∧ a.cr2 = b.cr2 ∧ a.cr3 = b.cr3 ∧ a.cr4 = b.cr4) := by
  simp only [match_with_no_eflags, Bool.true_and, Bool.and_eq_true, TEST_IGNORE_EFL_iff,
    beq_iff_eq]
  tauto

theorem are_values_equivalent_iff (a b : context) :
    a.are_values_equivalent b = true ↔ a.tracked_fields_equal b := by
  simp only [context.are_values_equivalent, context.tracked_fields_equal, Bool.and_eq_true,
    beq_iff_eq]
  tauto

/-- C2. Rule A implies Rule B: two contexts whose tracked fields are all equal
are accepted by `match_with_no_eflags`. -/
theorem rule_A_implies_rule_B (a b : context) (h : a.tracked_fields_equal b) :
    match_with_no_eflags a b = true := by
  obtain ⟨h1, h2, h3, h4, h5, h6, h7, h8, h9, h10, h11, h12, h13, h14, h15, h16, h17, h18,
    h19, h20, _, _, _⟩ := h
  rw [match_with_no_eflags_iff]
  simp only [tolerated]
  refine ⟨⟨?_, ?_, ?_, ?_, ?_, ?_, ?_, ?_, ?_, ?_, ?_, ?_, ?_, ?_, ?_⟩, ?_, ?_, ?_, ?_, ?_⟩ <;>
    first
      | assumption
      | (left; assumption)

theorem rule_A_implies_rule_B_witness :
    (context.fill 0xffffffffffffffff 0x7ffe0000 0x80050033 0x37f).tracked_fields_equal
        (context.fill 0xffffffffffffffff 0x7ffe0000 0x80050033 0x37f) ∧
      match_with_no_eflags (context.fill 0xffffffffffffffff 0x7ffe0000 0x80050033 0x37f)
        (context.fill 0xffffffffffffffff 0x7ffe0000 0x80050033 0x37f) = true :=
  ⟨by decide, rule_A_implies_rule_B _ _ (by decide)⟩

/-- C3. Two contexts that differ in RSP, CR0, CR2, CR3 or CR4 are rejected by
`match_with_no_eflags`, whatever the other registers hold. -/
theorem match_with_no_eflags_rejects_rsp_cr (a b : context)
    (h : a.rsp ≠ b.rsp ∨ a.cr0 ≠ b.cr0 ∨ a.cr2 ≠ b.cr2 ∨ a.cr3 ≠ b.cr3 ∨ a.cr4 ≠ b.cr4) :
    match_with_no_eflags a b = false := by
  rw [Bool.eq_false_iff]
  intro hm
  rw [match_with_no_eflags_iff] at hm
  obtain ⟨_, h1, h2, h3, h4, h5⟩ := hm
  rcases h with h | h | h | h | h <;> exact h (by assumption)

theorem match_with_no_eflags_rejects_rsp_cr_witness :
    ((context.fill 0x246 0x7ffe0000 0x80050033 0x37f).rsp ≠
        (context.fill 0x202 0x7ffe0008 0x80050033 0x37f).rsp ∨
      (context.fill 0x246 0x7ffe0000 0x80050033 0x37f).cr0 ≠
        (context.fill 0x202 0x7ffe0008 0x80050033 0x37f).cr0 ∨
      (context.fill 0x246 0x7ffe0000 0x80050033 0x37f).cr2 ≠
        (context.fill 0x202 0x7ffe0008 0x80050033 0x37f).cr2 ∨
      (context.fill 0x246 0x7ffe0000 0x80050033 0x37f).cr3 ≠
        (context.fill 0x202 0x7ffe0008 0x80050033 0x37f).cr3 ∨
      (context.fill 0x246 0x7ffe0000 0x80050033 0x37f).cr4 ≠
        (context.fill 0x202 0x7ffe0008 0x80050033 0x37f).cr4) ∧
      match_with_no_eflags (context.fill 0x246 0x7ffe0000 0x80050033 0x37f)
        (context.fill 0x202 0x7ffe0008 0x80050033 0x37f) = false :=
  ⟨by decide, match_with_no_eflags_rejects_rsp_cr _ _ (by decide)⟩

/-- C4, as stated, fails: two contexts that differ only in the FPU status,
control and tag words are accepted by `match_with_no_eflags`. -/
theorem match_with_no_eflags_accepts_fpu_mismatch :
    match_with_no_eflags (context.fill 0x1234 0x7ffe0000 0x80050033 0x37f)
        (context.fill 0x1234 0x7ffe0000 0x80050033 0x20) = true ∧
      (context.fill 0x1234 0x7ffe0000 0x80050033 0x37f).fpu_sw ≠
        (context.fill 0x1234 0x7ffe0000 0x80050033 0x20).fpu_sw ∧
      (context.fill 0x1234 0x7ffe0000 0x80050033 0x37f).fpu_cw ≠
        (context.fill 0x1234 0x7ffe0000 0x80050033 0x20).fpu_cw ∧
      (context.fill 0x1234 0x7ffe0000 0x80050033 0x37f).fpu_tags ≠
        (context.fill 0x1234 0x7ffe0000 0x80050033 0x20).fpu_tags := by
  decide

/-- C4, amended. `match_with_no_eflags` accepts a pair only if RSP, CR0, CR2,
CR3 and CR4 are equal on both sides; the FPU status, control and tag words
(and the clock) play no part in its result. -/
theorem match_with_no_eflags_exact_fields (a b : context)
    (h : match_with_no_eflags a b = true) :
    (a.rsp = b.rsp ∧ a.cr0 = b.cr0 ∧ a.cr2 = b.cr2 ∧ a.cr3 = b.cr3 ∧ a.cr4 = b.cr4) ∧
      ∀ sw cw tags tsc sw2 cw2 tags2 tsc2 : Nat,
        match_with_no_eflags
          { a with fpu_sw := sw, fpu_cw := cw, fpu_tags := tags, tsc := tsc }
          { b with fpu_sw := sw2, fpu_cw := cw2, fpu_tags := tags2, tsc := tsc2 } = true := by
  refine ⟨((match_with_no_eflags_iff a b).1 h).2, ?_⟩
  intro sw cw tags tsc sw2 cw2 tags2 tsc2
  rw [match_with_no_eflags_iff] at h ⊢
  exact h

theorem match_with_no_eflags_exact_fields_witness :
    match_with_no_eflags (context.fill 0x246 0x7ffe0000 0x80050033 0x37f)
        (context.fill 0x202 0x7ffe0000 0x80050033 0x20) = true ∧
      (context.fill 0x246 0x7ffe0000 0x80050033 0x37f).rsp =
        (context.fill 0x202 0x7ffe0000 0x80050033 0x20).rsp :=
  ⟨by decide,
    (match_with_no_eflags_exact_fields _ _ (by decide)).1.1⟩

/-! ## The EFLAGS heuristic -/

theorem looks_like_eflags_arith (v : Nat) :
    looks_like_eflags v = true ↔
      (v % 2 ^ 32 / 2 % 2 = 1 ∧ v % 2 ^ 32 / 8 % 2 = 0 ∧ v % 2 ^ 32 / 32 % 2 = 0 ∧
        v % 2 ^ 32 / 32768 % 2 = 0 ∧ v % 2 ^ 32 < 2 ^ 22) := by
  simp only [looks_like_eflags, Bool.and_eq_true, beq_iff_eq, Nat.and_one_is_mod,
    Nat.shiftRight_eq_div_pow]
  norm_num
  omega

theorem bits_22_to_31_clear_iff (v : Nat) :
    v % 2 ^ 32 < 2 ^ 22 ↔ ∀ k, 22 ≤ k → k < 32 → v.testBit k = false := by
  constructor
  · intro h k hk hk2
    have h1 : (v % 2 ^ 32).testBit k = false :=
      Nat.testBit_lt_two_pow (lt_of_lt_of_le h (Nat.pow_le_pow_right (by norm_num) hk))
    rw [Nat.testBit_mod_two_pow] at h1
    simpa [hk2] using h1
  · intro h
    apply Nat.lt_pow_two_of_testBit
    intro i hi
    rw [Nat.testBit_mod_two_pow]
    by_cases h32 : i < 32
    · simp [h32, h i hi h32]
    · simp [h32]

/-- What the heuristic tests: bit 1 set, bits 3, 5 and 15 clear, bits 22 to 31
clear. Bits 32 and above are not looked at. -/
theorem looks_like_eflags_iff (v : Nat) :
    looks_like_eflags v = true ↔
      (v.testBit 1 = true ∧ v.testBit 3 = false ∧ v.testBit 5 = false ∧
        v.testBit 15 = false ∧ ∀ k, 22 ≤ k → k < 32 → v.testBit k = false) := by
  rw [looks_like_eflags_arith, bits_22_to_31_clear_iff]
  simp only [Nat.testBit_to_div_mod, decide_eq_true_eq, decide_eq_false_iff_not]
  norm_num
  constructor
  · rintro ⟨h1, h2, h3, h4, h5⟩
    exact ⟨by omega, by omega, by omega, by omega, h5⟩
  · rintro ⟨h1, h2, h3, h4, h5⟩
    exact ⟨by omega, by omega, by omega, by omega, h5⟩

/-- The heuristic does not see the upper half of a 64-bit value. -/
theorem looks_like_eflags_low_half (v : Nat) :
    looks_like_eflags v = looks_like_eflags (v % 2 ^ 32) := by
  simp [looks_like_eflags]

/-- C5, evaluated on the code: the 64-bit register value `0x100000002` has bit
32 set and is accepted by `looks_like_eflags`, and Rule B accepts a recorded
RAX of `0x100000002` against a live RAX of `0x2`. -/
theorem looks_like_eflags_accepts_bit_32 :
    (0x100000002 < 2 ^ 64 ∧ Nat.testBit 0x100000002 32 = true) ∧
      looks_like_eflags 0x100000002 = true ∧
      match_with_no_eflags { context.fill 0 0x7ffe0000 0x80050033 0x37f with rax := 0x2 }
        { context.fill 0 0x7ffe0000 0x80050033 0x37f with rax := 0x100000002 } = true := by
  decide

/-! ## Hardware replay in closed form -/

theorem replay_access_eq (m : Replayer) (a : hardware_access) :
    replay_access m a = { m with log := m.log ++ access_effects m.cpu a } := by
  unfold replay_access access_effects
  split_ifs <;> simp [Replayer.emit]

/-- The loop of `apply_hardware_access` in closed form: it consumes
`consumed_entries`, logs the transfers of the consumed entries and ends in a
desync exactly when it meets an oversized read. -/
theorem apply_hardware_loop_eq (tsc : Nat) (l : List hardware_access) :
    ∀ m : Replayer, m.hardware_file_ = l →
      apply_hardware_loop tsc l m =
        if meets_oversized_read tsc l then
          LOG_DESYNC
            { m with
              hardware_file_ := l.drop (consumed_entries tsc l).length,
              log := m.log ++ (consumed_entries tsc l).flatMap (access_effects m.cpu) }
            Message.read_access_bigger_than_maximum
        else
          (Flow.returned,
            { m with
              hardware_file_ := l.drop (consumed_entries tsc l).length,
              log := m.log ++ (consumed_entries tsc l).flatMap (access_effects m.cpu) }) := by
  induction l with
  | nil =>
    intro m hm
    cases m
    simp only at hm
    subst hm
    simp [apply_hardware_loop, meets_oversized_read, consumed_entries]
  | cons a rest ih =>
    intro m hm
    cases m
    simp only at hm
    subst hm
    by_cases hdue : a.due tsc = true
    · by_cases hov : a.oversized_read = true
      · have hdue2 : (a.valid && decide (a.tsc ≤ tsc)) = true := hdue
        have hov2 : (!a.is_write && decide (a.data.length > read_data_size)) = true := hov
        rw [apply_hardware_loop, if_pos hdue2, if_pos hov2]
        simp [meets_oversized_read, consumed_entries, hdue, hov]
      · have hdue2 : (a.valid && decide (a.tsc ≤ tsc)) = true := hdue
        have hov2 : ¬ (!a.is_write && decide (a.data.length > read_data_size)) = true := hov
        rw [apply_hardware_loop, if_pos hdue2, if_neg hov2, ih _ rfl]
        simp [meets_oversized_read, consumed_entries, hdue, hov, replay_access_eq,
          List.append_assoc]
    · have hdue2 : ¬ (a.valid && decide (a.tsc ≤ tsc)) = true := hdue
      rw [apply_hardware_loop, if_neg hdue2]
      simp [meets_oversized_read, consumed_entries, hdue]

theorem access_effects_tsc (cpu : BX_CPU_C) (t : Nat) (a : hardware_access) :
    access_effects { cpu with tsc := t } a = access_effects cpu a := rfl

/-- The method `apply_hardware_access` in closed form. -/
theorem apply_hardware_access_eq (m : Replayer) (tsc : Nat) :
    apply_hardware_access m tsc =
      if meets_oversized_read tsc m.hardware_file_ then
        LOG_DESYNC (replayed m tsc) Message.read_access_bigger_than_maximum
      else
        (Flow.returned, replayed m tsc) := by
  have h : ∀ l : List hardware_access,
      l.flatMap (access_effects { m.cpu with tsc := tsc }) = l.flatMap (access_effects m.cpu) := by
    intro l
    congr 1
  have key := apply_hardware_loop_eq tsc m.hardware_file_
    ({ m with cpu := { m.cpu with tsc := tsc } }.emit (Effect.set_TSC tsc)) rfl
  unfold apply_hardware_access
  simp only [Replayer.emit] at key ⊢
  rw [key]
  simp [replayed, h, List.append_assoc]

/-! ## Entries consumed by a replay -/

theorem consumed_entries_eq_takeWhile (t : Nat) (l : List hardware_access)
    (h : meets_oversized_read t l = false) :
    consumed_entries t l = l.takeWhile (fun a => a.due t) := by
  induction l with
  | nil => rfl
  | cons a rest ih =>
    by_cases hdue : a.due t = true
    · by_cases hov : a.oversized_read = true
      · simp [meets_oversized_read, hdue, hov] at h
      · have h2 : meets_oversized_read t rest = false := by
          simpa [meets_oversized_read, hdue, hov] using h
        simp [consumed_entries, hdue, hov, List.takeWhile, ih h2]
    · simp [consumed_entries, hdue, List.takeWhile]

theorem consumed_entries_append_drop (t : Nat) (l : List hardware_access) :
    consumed_entries t l ++ l.drop (consumed_entries t l).length = l := by
  induction l with
  | nil => rfl
  | cons a rest ih =>
    by_cases hc : (a.due t && !a.oversized_read) = true
    · simp only [consumed_entries, hc, if_true, List.length_cons, List.drop_succ_cons,
        List.cons_append, ih]
    · simp [consumed_entries, hc]

theorem consumed_entries_drop (t : Nat) (l : List hardware_access) :
    consumed_entries t (l.drop (consumed_entries t l).length) = [] := by
  induction l with
  | nil => rfl
  | cons a rest ih =>
    by_cases hc : (a.due t && !a.oversized_read) = true
    · simp only [consumed_entries, hc, if_true, List.length_cons, List.drop_succ_cons, ih]
    · simp [consumed_entries, hc]

theorem meets_oversized_read_drop (t : Nat) (l : List hardware_access) :
    meets_oversized_read t (l.drop (consumed_entries t l).length) = meets_oversized_read t l := by
  induction l with
  | nil => rfl
  | cons a rest ih =>
    by_cases hdue : a.due t = true
    · by_cases hov : a.oversized_read = true
      · simp [consumed_entries, meets_oversized_read, hdue, hov]
      · simp [consumed_entries, meets_oversized_read, hdue, hov, ih]
    · simp [consumed_entries, meets_oversized_read, hdue]

theorem meets_oversized_read_head (t : Nat) (l : List hardware_access)
    (h : meets_oversized_read t l = true) :
    ∃ a rest, l.drop (consumed_entries t l).length = a :: rest ∧ a.due t = true ∧
      a.oversized_read = true := by
  induction l with
  | nil => simp [meets_oversized_read] at h
  | cons a rest ih =>
    by_cases hdue : a.due t = true
    · by_cases hov : a.oversized_read = true
      · exact ⟨a, rest, by simp [consumed_entries, hdue, hov], hdue, hov⟩
      · have h2 : meets_oversized_read t rest = true := by
          simpa [meets_oversized_read, hdue, hov] using h
        obtain ⟨b, rest2, h3, h4, h5⟩ := ih h2
        exact ⟨b, rest2, by simpa [consumed_entries, hdue, hov] using h3, h4, h5⟩
    · simp [meets_oversized_read, hdue] at h

/-! ## Exhausted sync stream -/

/-- C8. When the sync stream is exhausted (the pending event is not valid),
`before_instruction` with no postponed interrupt due at the current rip, and
`exception` and `interrupt` with no current event, end the session with
`desync = false`. -/
theorem exhausted_stream_ends_without_desync (m : Replayer)
    (hex : (current_event m.sync_file_).is_valid = false) :
    (postponed_due m = false →
      (before_instruction m).1 = Flow.longjmp 1 ∧ (before_instruction m).2.desync_ = false ∧
        (before_instruction m).2.kill_bochs_request = true) ∧
    (m.current_event_.is_valid = false → ∀ vector error_code : Nat,
      (exception m vector error_code).1 = Flow.longjmp 1 ∧
        (exception m vector error_code).2.desync_ = false ∧
        (exception m vector error_code).2.kill_bochs_request = true) ∧
    (m.current_event_.is_valid = false → ∀ vector : Nat,
      (interrupt m vector).1 = Flow.longjmp 1 ∧ (interrupt m vector).2.desync_ = false ∧
        (interrupt m vector).2.kill_bochs_request = true) := by
  refine ⟨?_, ?_, ?_⟩
  · intro hnd
    have hnd2 : (m.saved_interrupt_event_.is_valid
        && m.cpu.rip == m.saved_interrupt_event_.interrupt_rip) = false := hnd
    simp [before_instruction, enter_instruction, hnd2, hex, LOG_END_REPLAY, end_of_scenario,
      Result.andThen, Replayer.emit]
  · intro hcur vector error_code
    simp [exception, match_pending_event, hcur, hex, LOG_END_REPLAY, end_of_scenario,
      Result.andThen, Replayer.emit]
  · intro hcur vector
    simp [interrupt, match_pending_event, hcur, hex, LOG_END_REPLAY, end_of_scenario,
      Result.andThen, Replayer.emit]

/-! ## Flag forcing in closed form -/

theorem UPDATE_FLAG_VALUE_eq (m : Replayer) (name : FlagName) (getB : BX_CPU_C → Nat)
    (set : BX_CPU_C → Nat → BX_CPU_C) (value : Nat) (hid : ∀ c, set c (getB c) = c) :
    UPDATE_FLAG_VALUE m name getB set value =
      { m with
        cpu := set m.cpu value,
        log := m.log ++ if getB m.cpu != value then [Effect.warn_forcing_flag name] else [] } := by
  unfold UPDATE_FLAG_VALUE
  by_cases h : getB m.cpu = value
  · subst h
    cases m
    simp [hid]
  · simp [h, Replayer.emit]

theorem UPDATE_FLAG_VALUE_CF (m : Replayer) (value : Nat) :
    UPDATE_FLAG_VALUE m .CF (·.CF) (fun c v => { c with CF := v }) value =
      { m with
        cpu := { m.cpu with CF := value },
        log := m.log ++ if m.cpu.CF != value then [Effect.warn_forcing_flag .CF] else [] } :=
  UPDATE_FLAG_VALUE_eq m .CF (·.CF) (fun c v => { c with CF := v }) value (fun _ => rfl)

theorem UPDATE_FLAG_VALUE_PF (m : Replayer) (value : Nat) :
    UPDATE_FLAG_VALUE m .PF (·.PF) (fun c v => { c with PF := v }) value =
      { m with
        cpu := { m.cpu with PF := value },
        log := m.log ++ if m.cpu.PF != value then [Effect.warn_forcing_flag .PF] else [] } :=
  UPDATE_FLAG_VALUE_eq m .PF (·.PF) (fun c v => { c with PF := v }) value (fun _ => rfl)

theorem UPDATE_FLAG_VALUE_AF (m : Replayer) (value : Nat) :
    UPDATE_FLAG_VALUE m .AF (·.AF) (fun c v => { c with AF := v }) value =
      { m with
        cpu := { m.cpu with AF := value },
        log := m.log ++ if m.cpu.AF != value then [Effect.warn_forcing_flag .AF] else [] } :=
  UPDATE_FLAG_VALUE_eq m .AF (·.AF) (fun c v => { c with AF := v }) value (fun _ => rfl)

theorem UPDATE_FLAG_VALUE_ZF (m : Replayer) (value : Nat) :
    UPDATE_FLAG_VALUE m .ZF (·.ZF) (fun c v => { c with ZF := v }) value =
      { m with
        cpu := { m.cpu with ZF := value },
        log := m.log ++ if m.cpu.ZF != value then [Effect.warn_forcing_flag .ZF] else [] } :=
  UPDATE_FLAG_VALUE_eq m .ZF (·.ZF) (fun c v => { c with ZF := v }) value (fun _ => rfl)

theorem UPDATE_FLAG_VALUE_SF (m : Replayer) (value : Nat) :
    UPDATE_FLAG_VALUE m .SF (·.SF) (fun c v => { c with SF := v }) value =
      { m with
        cpu := { m.cpu with SF := value },
        log := m.log ++ if m.cpu.SF != value then [Effect.warn_forcing_flag .SF] else [] } :=
  UPDATE_FLAG_VALUE_eq m .SF (·.SF) (fun c v => { c with SF := v }) value (fun _ => rfl)

theorem UPDATE_FLAG_VALUE_TF (m : Replayer) (value : Nat) :
    UPDATE_FLAG_VALUE m .TF (·.TF) (fun c v => { c with TF := v }) value =
      { m with
        cpu := { m.cpu with TF := value },
        log := m.log ++ if m.cpu.TF != value then [Effect.warn_forcing_flag .TF] else [] } :=
  UPDATE_FLAG_VALUE_eq m .TF (·.TF) (fun c v => { c with TF := v }) value (fun _ => rfl)

theorem UPDATE_FLAG_VALUE_IF (m : Replayer) (value : Nat) :
    UPDATE_FLAG_VALUE m .IF (·.IF) (fun c v => { c with IF := v }) value =
      { m with
        cpu := { m.cpu with IF := value },
        log := m.log ++ if m.cpu.IF != value then [Effect.warn_forcing_flag .IF] else [] } :=
  UPDATE_FLAG_VALUE_eq m .IF (·.IF) (fun c v => { c with IF := v }) value (fun _ => rfl)

theorem UPDATE_FLAG_VALUE_DF (m : Replayer) (value : Nat) :
    UPDATE_FLAG_VALUE m .DF (·.DF) (fun c v => { c with DF := v }) value =
      { m with
        cpu := { m.cpu with DF := value },
        log := m.log ++ if m.cpu.DF != value then [Effect.warn_forcing_flag .DF] else [] } :=
  UPDATE_FLAG_VALUE_eq m .DF (·.DF) (fun c v => { c with DF := v }) value (fun _ => rfl)

theorem UPDATE_FLAG_VALUE_OF (m : Replayer) (value : Nat) :
    UPDATE_FLAG_VALUE m .OF (·.OF) (fun c v => { c with OF := v }) value =
      { m with
        cpu := { m.cpu with OF := value },
        log := m.log ++ if m.cpu.OF != value then [Effect.warn_forcing_flag .OF] else [] } :=
  UPDATE_FLAG_VALUE_eq m .OF (·.OF) (fun c v => { c with OF := v }) value (fun _ => rfl)

theorem UPDATE_FLAG_VALUE_IOPL (m : Replayer) (value : Nat) :
    UPDATE_FLAG_VALUE m .IOPL (·.IOPL) (fun c v => { c with IOPL := v }) value =
      { m with
        cpu := { m.cpu with IOPL := value },
        log := m.log ++ if m.cpu.IOPL != value then [Effect.warn_forcing_flag .IOPL] else [] } :=
  UPDATE_FLAG_VALUE_eq m .IOPL (·.IOPL) (fun c v => { c with IOPL := v }) value (fun _ => rfl)

theorem force_flags_eq (m : Replayer) (f : Nat) :
    force_flags m f =
      { m with
        cpu := { m.cpu with
          CF := (f >>> 0) &&& 1, PF := (f >>> 2) &&& 1, AF := (f >>> 4) &&& 1,
          ZF := (f >>> 6) &&& 1, SF := (f >>> 7) &&& 1, TF := (f >>> 8) &&& 1,
          IF := (f >>> 9) &&& 1, DF := (f >>> 10) &&& 1, OF := (f >>> 11) &&& 1,
          IOPL := (f >>> 12) &&& 3 },
        log := m.log ++
          ((if m.cpu.CF != (f >>> 0) &&& 1 then [Effect.warn_forcing_flag .CF] else []) ++
          (if m.cpu.PF != (f >>> 2) &&& 1 then [Effect.warn_forcing_flag .PF] else []) ++
          (if m.cpu.AF != (f >>> 4) &&& 1 then [Effect.warn_forcing_flag .AF] else []) ++
          (if m.cpu.ZF != (f >>> 6) &&& 1 then [Effect.warn_forcing_flag .ZF] else []) ++
          (if m.cpu.SF != (f >>> 7) &&& 1 then [Effect.warn_forcing_flag .SF] else []) ++
          (if m.cpu.TF != (f >>> 8) &&& 1 then [Effect.warn_forcing_flag .TF] else []) ++
          (if m.cpu.IF != (f >>> 9) &&& 1 then [Effect.warn_forcing_flag .IF] else []) ++
          (if m.cpu.DF != (f >>> 10) &&& 1 then [Effect.warn_forcing_flag .DF] else []) ++
          (if m.cpu.OF != (f >>> 11) &&& 1 then [Effect.warn_forcing_flag .OF] else []) ++
          (if m.cpu.IOPL != (f >>> 12) &&& 3 then [Effect.warn_forcing_flag .IOPL] else [])) } := by
  simp only [force_flags]
  rw [UPDATE_FLAG_VALUE_CF, UPDATE_FLAG_VALUE_PF, UPDATE_FLAG_VALUE_AF, UPDATE_FLAG_VALUE_ZF, UPDATE_FLAG_VALUE_SF, UPDATE_FLAG_VALUE_TF, UPDATE_FLAG_VALUE_IF, UPDATE_FLAG_VALUE_DF, UPDATE_FLAG_VALUE_OF, UPDATE_FLAG_VALUE_IOPL]
  simp only [List.append_assoc]

theorem flag_bit (f k : Nat) : (f >>> k) &&& 1 = (f.testBit k).toNat := by
  rw [Nat.toNat_testBit, Nat.shiftRight_eq_div_pow, Nat.and_one_is_mod]

theorem iopl_bits (f : Nat) : (f >>> 12) &&& 3 = f / 2 ^ 12 % 4 := by
  rw [Nat.shiftRight_eq_div_pow]
  exact Nat.and_pow_two_sub_one_eq_mod _ 2

theorem force_flags_flags (m : Replayer) (f : Nat) :
    (force_flags m f).cpu.CF = (f.testBit 0).toNat ∧
      (force_flags m f).cpu.PF = (f.testBit 2).toNat ∧
      (force_flags m f).cpu.AF = (f.testBit 4).toNat ∧
      (force_flags m f).cpu.ZF = (f.testBit 6).toNat ∧
      (force_flags m f).cpu.SF = (f.testBit 7).toNat ∧
      (force_flags m f).cpu.TF = (f.testBit 8).toNat ∧
      (force_flags m f).cpu.IF = (f.testBit 9).toNat ∧
      (force_flags m f).cpu.DF = (f.testBit 10).toNat ∧
      (force_flags m f).cpu.OF = (f.testBit 11).toNat ∧
      (force_flags m f).cpu.IOPL = f / 2 ^ 12 % 4 := by
  rw [force_flags_eq]
  exact ⟨flag_bit f 0, flag_bit f 2, flag_bit f 4, flag_bit f 6, flag_bit f 7, flag_bit f 8, flag_bit f 9, flag_bit f 10, flag_bit f 11, iopl_bits f⟩

theorem force_flags_warnings (m : Replayer) (f : Nat) :
    ∃ warnings : List Effect, (∀ e ∈ warnings, ∃ name, e = Effect.warn_forcing_flag name) ∧
      (force_flags m f).log = m.log ++ warnings := by
  rw [force_flags_eq]
  refine ⟨_, ?_, rfl⟩
  intro e he
  simp only [List.mem_append] at he
  rcases he with ((((((((he | he) | he) | he) | he) | he) | he) | he) | he) | he <;>
    (split at he <;> simp at he; exact ⟨_, he⟩)

@[simp]
theorem force_flags_sync_file_ (m : Replayer) (f : Nat) :
    (force_flags m f).sync_file_ = m.sync_file_ := by
  rw [force_flags_eq]

@[simp]
theorem force_flags_hardware_file_ (m : Replayer) (f : Nat) :
    (force_flags m f).hardware_file_ = m.hardware_file_ := by
  rw [force_flags_eq]

@[simp]
theorem force_flags_current_rip_ (m : Replayer) (f : Nat) :
    (force_flags m f).current_rip_ = m.current_rip_ := by
  rw [force_flags_eq]

@[simp]
theorem force_flags_current_instruction_ (m : Replayer) (f : Nat) :
    (force_flags m f).current_instruction_ = m.current_instruction_ := by
  rw [force_flags_eq]

@[simp]
theorem force_flags_current_event_ (m : Replayer) (f : Nat) :
    (force_flags m f).current_event_ = m.current_event_ := by
  rw [force_flags_eq]

@[simp]
theorem force_flags_current_ctx_ (m : Replayer) (f : Nat) :
    (force_flags m f).current_ctx_ = m.current_ctx_ := by
  rw [force_flags_eq]

@[simp]
theorem force_flags_saved_interrupt_event_ (m : Replayer) (f : Nat) :
    (force_flags m f).saved_interrupt_event_ = m.saved_interrupt_event_ := by
  rw [force_flags_eq]

@[simp]
theorem force_flags_desync_ (m : Replayer) (f : Nat) :
    (force_flags m f).desync_ = m.desync_ := by
  rw [force_flags_eq]

@[simp]
theorem force_flags_last_sync_point_ (m : Replayer) (f : Nat) :
    (force_flags m f).last_sync_point_ = m.last_sync_point_ := by
  rw [force_flags_eq]

@[simp]
theorem force_flags_i (m : Replayer) (f : Nat) :
    (force_flags m f).i = m.i := by
  rw [force_flags_eq]

@[simp]
theorem force_flags_kill_bochs_request (m : Replayer) (f : Nat) :
    (force_flags m f).kill_bochs_request = m.kill_bochs_request := by
  rw [force_flags_eq]

theorem interrupt_two_steps (m : Replayer) (vector : Nat) :
    interrupt m vector = (interrupt_attempt m vector).andThen fun m =>
      if !m.current_event_.is_valid || !m.current_event_.has_interrupt
          || m.current_event_.interrupt_vector != vector
          || m.current_event_.interrupt_rip != m.cpu.prev_rip then
        (Flow.returned, m)
      else
        (apply_hardware_access (force_flags m m.current_event_.rflags)
            m.current_event_.new_context.tsc).andThen fun m =>
        (Flow.returned, { m with current_event_ := sync_event.none }) := rfl

/-! ## Closed forms -/

theorem simulate_interrupt_eq (m : Replayer) (ev : sync_event) :
    simulate_interrupt m ev =
      if meets_oversized_read ev.start_context.tsc m.hardware_file_ then
        LOG_DESYNC (replayed m ev.start_context.tsc) Message.read_access_bigger_than_maximum
      else
        interrupt (delivery_call m ev) ev.interrupt_vector := by
  unfold simulate_interrupt BX_CPU_interrupt bx_instr_interrupt delivery_call
  rw [apply_hardware_access_eq, andThen_ite]
  simp

/-- The hook on a state with a current event: it acts only if the event
carries this interrupt at the rip the engine is leaving. -/
theorem interrupt_current (m : Replayer) (vector : Nat)
    (hv : m.current_event_.is_valid = true) :
    interrupt m vector =
      if matches_interrupt m vector then
        if meets_oversized_read m.current_event_.new_context.tsc m.hardware_file_ then
          LOG_DESYNC
            (replayed (force_flags m m.current_event_.rflags) m.current_event_.new_context.tsc)
            Message.read_access_bigger_than_maximum
        else
          (Flow.returned,
            clear_current_event
              (replayed (force_flags m m.current_event_.rflags)
                m.current_event_.new_context.tsc))
      else
        (Flow.returned, m) := by
  have hattempt : interrupt_attempt m vector = (Flow.returned, m) := by
    unfold interrupt_attempt
    simp [hv]
  rw [interrupt_two_steps, hattempt, andThen_returned]
  by_cases hm : matches_interrupt m vector
  · obtain ⟨_, h2, h3, h4⟩ := hm
    have htest : (!m.current_event_.is_valid || !m.current_event_.has_interrupt
        || m.current_event_.interrupt_vector != vector
        || m.current_event_.interrupt_rip != m.cpu.prev_rip) = false := by
      simp [hv, h2, h3, h4]
    have hm2 : matches_interrupt m vector := ⟨hv, h2, h3, h4⟩
    rw [htest, if_neg Bool.false_ne_true, if_pos hm2, apply_hardware_access_eq,
      force_flags_hardware_file_, andThen_ite, andThen_LOG_DESYNC, andThen_returned]
    rfl
  · have htest : (!m.current_event_.is_valid || !m.current_event_.has_interrupt
        || m.current_event_.interrupt_vector != vector
        || m.current_event_.interrupt_rip != m.cpu.prev_rip) = true := by
      by_contra hc
      apply hm
      simp only [hv, Bool.not_true, Bool.false_or, Bool.or_eq_true, Bool.not_eq_true',
        bne_iff_ne, ne_eq, not_or, not_not, Bool.not_eq_false] at hc
      exact ⟨hv, hc.1.1, hc.1.2, hc.2⟩
    rw [htest, if_pos rfl, if_neg hm]

/-- The hook with no current event on an exhausted stream ends the session. -/
theorem interrupt_exhausted (m : Replayer) (vector : Nat)
    (hv : m.current_event_.is_valid = false)
    (hex : (current_event m.sync_file_).is_valid = false) :
    interrupt m vector =
      LOG_END_REPLAY (capture_context m) Message.no_more_valid_sync_points := by
  unfold interrupt match_pending_event
  simp [hv, hex]

/-- The hook with no current event, when the pending event was not taken at
the rip the engine is leaving: nothing is matched and the hook returns. -/
theorem interrupt_unmatched (m : Replayer) (vector : Nat)
    (hv : m.current_event_.is_valid = false)
    (hp : (current_event m.sync_file_).is_valid = true)
    (hrip : m.cpu.prev_rip ≠ (current_event m.sync_file_).interrupt_rip) :
    interrupt m vector = (Flow.returned, capture_context m) := by
  unfold interrupt match_pending_event match_at_event check_matched_vector
  simp [hv, hp, hrip]

theorem apply_sync_event_eq (m : Replayer) (ev : sync_event) :
    apply_sync_event m ev =
      if meets_oversized_read ev.new_context.tsc m.hardware_file_ then
        LOG_DESYNC (replayed m ev.new_context.tsc) Message.read_access_bigger_than_maximum
      else if ev.is_instruction_emulation then
        (Flow.returned,
          force_emulation (replayed m ev.new_context.tsc) ev.position ev.new_context)
      else
        (Flow.returned, replayed m ev.new_context.tsc) := by
  unfold apply_sync_event
  rw [apply_hardware_access_eq, andThen_ite]
  simp

theorem reconcile_interrupt_eq (m : Replayer) :
    reconcile_interrupt m =
      if carries_external_interrupt m.current_event_ then
        if m.current_rip_ ≠ m.current_event_.interrupt_rip then
          (Flow.returned,
            { m.emit (Effect.warn_saving_interrupt m.current_event_.position) with
              saved_interrupt_event_ := m.current_event_ })
        else if meets_oversized_read m.current_event_.start_context.tsc m.hardware_file_ then
          LOG_DESYNC (replayed m m.current_event_.start_context.tsc)
            Message.read_access_bigger_than_maximum
        else
          (interrupt (delivery_call m m.current_event_)
            m.current_event_.interrupt_vector).andThen fun m => (Flow.longjmp 0, m)
      else
        (Flow.returned, m) := by
  unfold reconcile_interrupt
  rw [simulate_interrupt_eq, andThen_ite]
  by_cases h1 : m.current_event_.has_interrupt = true <;>
    by_cases h2 : m.current_event_.interrupt_vector ≥ 16 <;>
    by_cases h3 : m.current_rip_ = m.current_event_.interrupt_rip <;>
    simp [carries_external_interrupt, h1, h2, h3]

theorem handle_current_event_eq (m : Replayer) (hv : m.current_event_.is_valid = true) :
    handle_current_event m =
      if is_final_int3 m then LOG_END_REPLAY m Message.found_a_stopping_int3
      else if m.current_event_.is_last_event then
        LOG_END_REPLAY m Message.reach_the_last_sync_point
      else if m.current_event_.is_first_event_context_unknown then
        reconcile_interrupt (nop_emulated_instruction m)
      else if meets_oversized_read m.current_event_.start_context.tsc m.hardware_file_ then
        LOG_DESYNC (replayed m m.current_event_.start_context.tsc)
          Message.read_access_bigger_than_maximum
      else
        reconcile_interrupt
          (nop_emulated_instruction (replayed m m.current_event_.start_context.tsc)) := by
  unfold handle_current_event
  rw [if_pos hv]
  simp only [andThen_ite, andThen_returned, andThen_LOG_END_REPLAY, apply_hardware_access_eq,
    andThen_LOG_DESYNC]
  by_cases h1 : is_final_int3 m = true <;>
    by_cases h2 : m.current_event_.is_last_event = true <;>
    by_cases h3 : m.current_event_.is_first_event_context_unknown = true <;>
    simp [h1, h2, h3]

theorem handle_current_event_none (m : Replayer) (hv : m.current_event_.is_valid = false) :
    handle_current_event m = (Flow.returned, m) := by
  unfold handle_current_event
  simp [hv]

theorem check_unmatched_valid (m : Replayer) (hv : m.current_event_.is_valid = true) :
    check_unmatched m =
      if emulated_instructions.contains m.i.execute1 = true
          ∧ executed_instructions.contains m.i.execute1 = false then
        (Flow.returned, { m with i := { m.i with execute1 := BxExecutePtr_tR.NOP } })
      else
        (Flow.returned, m) := by
  unfold check_unmatched
  simp only [hv, Bool.not_true, Bool.false_eq_true, if_false, andThen_returned]
  split_ifs <;> simp_all

theorem check_unmatched_none (m : Replayer) (hv : m.current_event_.is_valid = false) :
    check_unmatched m =
      if is_final_int3 m then LOG_DESYNC m Message.stopping_int3_without_sync_point
      else if emulated_instructions.contains m.i.execute1 then
        LOG_DESYNC m Message.cannot_execute_without_sync_point
      else
        (Flow.returned, m) := by
  unfold check_unmatched
  simp only [hv, Bool.not_false, if_true, andThen_ite, andThen_returned, andThen_LOG_DESYNC]

theorem before_instruction_due (m : Replayer) (h : postponed_due m = true) :
    before_instruction m =
      if meets_oversized_read m.saved_interrupt_event_.start_context.tsc m.hardware_file_ then
        LOG_DESYNC (replayed (enter_instruction m) m.saved_interrupt_event_.start_context.tsc)
          Message.read_access_bigger_than_maximum
      else
        (interrupt (delivery_call (enter_instruction m) m.saved_interrupt_event_)
          m.saved_interrupt_event_.interrupt_vector).andThen fun m =>
            (Flow.longjmp 0, { m with saved_interrupt_event_ := sync_event.none }) := by
  have h2 : (m.saved_interrupt_event_.is_valid
      && m.cpu.rip == m.saved_interrupt_event_.interrupt_rip) = true := h
  unfold before_instruction
  simp only [enter_instruction_saved_interrupt_event_, enter_instruction_current_rip_, h2,
    if_true, simulate_interrupt_eq, andThen_ite, andThen_LOG_DESYNC,
    enter_instruction_hardware_file_]

theorem before_instruction_exhausted (m : Replayer) (h : postponed_due m = false)
    (hex : (current_event m.sync_file_).is_valid = false) :
    before_instruction m =
      LOG_END_REPLAY (enter_instruction m) Message.no_more_valid_sync_points := by
  have h2 : (m.saved_interrupt_event_.is_valid
      && m.cpu.rip == m.saved_interrupt_event_.interrupt_rip) = false := h
  unfold before_instruction
  simp [h2, hex]

theorem before_instruction_pending (m : Replayer) (h : postponed_due m = false)
    (hv : (current_event m.sync_file_).is_valid = true) :
    before_instruction m =
      (match_at_boundary (capture_context (enter_instruction m))
        (current_event m.sync_file_)).andThen fun m =>
          (handle_current_event m).andThen check_unmatched := by
  have h2 : (m.saved_interrupt_event_.is_valid
      && m.cpu.rip == m.saved_interrupt_event_.interrupt_rip) = false := h
  unfold before_instruction
  simp [h2, hv]

/-- After a match of an event without interrupt, the rest of
`before_instruction` keeps the matched event, the cursor and the last matched
position, and can only raise the desync of the hardware replay bound. -/
theorem handle_then_check (m : Replayer) (hv : m.current_event_.is_valid = true)
    (hint : m.current_event_.has_interrupt = false) :
    ((handle_current_event m).andThen check_unmatched).2.current_event_ = m.current_event_ ∧
    ((handle_current_event m).andThen check_unmatched).2.sync_file_ = m.sync_file_ ∧
    ((handle_current_event m).andThen check_unmatched).2.last_sync_point_
      = m.last_sync_point_ ∧
    (((handle_current_event m).andThen check_unmatched).2.desync_ = true →
      m.desync_ = true ∨
        (m.current_event_.is_first_event_context_unknown = false ∧
          meets_oversized_read m.current_event_.start_context.tsc m.hardware_file_ = true)) := by
  rw [handle_current_event_eq m hv]
  simp only [reconcile_interrupt_eq, carries_external_interrupt,
    nop_emulated_instruction_current_event_,
    replayed_current_event_, hint, Bool.false_eq_true, false_and, if_false, andThen_ite,
    andThen_LOG_END_REPLAY, andThen_LOG_DESYNC, andThen_returned]
  split_ifs <;>
    simp_all [check_unmatched_valid] <;>
    split_ifs <;> simp_all

/-! ## The sync cursor -/

theorem matched_positions_append (l1 l2 : List Effect) :
    matched_positions (l1 ++ l2) = matched_positions l1 ++ matched_positions l2 := by
  induction l1 with
  | nil => rfl
  | cons e l ih => cases e <;> simp [matched_positions, ih]

theorem matched_positions_access_effects (cpu : BX_CPU_C) (l : List hardware_access) :
    matched_positions (l.flatMap (access_effects cpu)) = [] := by
  induction l with
  | nil => rfl
  | cons a l ih =>
    rw [List.flatMap_cons, matched_positions_append, ih]
    unfold access_effects
    split_ifs <;> rfl

theorem sync_view_andThen (r : Result) (k : Replayer → Result)
    (h : ∀ m1, sync_view (k m1).2 = sync_view m1) :
    sync_view (r.andThen k).2 = sync_view r.2 := by
  unfold Result.andThen
  split
  · exact h _
  · rfl

theorem sync_view_end_of_scenario (m : Replayer) (d : Bool) :
    sync_view (end_of_scenario m d).2 = sync_view m := by
  simp [sync_view, end_of_scenario, Replayer.emit, matched_positions_append, matched_positions]

theorem sync_view_LOG_DESYNC (m : Replayer) (msg : Message) :
    sync_view (LOG_DESYNC m msg).2 = sync_view m := by
  simp [sync_view, LOG_DESYNC, end_of_scenario, Replayer.emit, matched_positions_append,
    matched_positions]

theorem sync_view_LOG_END_REPLAY (m : Replayer) (msg : Message) :
    sync_view (LOG_END_REPLAY m msg).2 = sync_view m := by
  simp [sync_view, LOG_END_REPLAY, end_of_scenario, Replayer.emit, matched_positions_append,
    matched_positions]

theorem sync_view_replayed (m : Replayer) (tsc : Nat) :
    sync_view (replayed m tsc) = sync_view m := by
  simp [sync_view, replayed, matched_positions_append, matched_positions,
    matched_positions_access_effects]

theorem sync_view_apply_hardware_access (m : Replayer) (tsc : Nat) :
    sync_view (apply_hardware_access m tsc).2 = sync_view m := by
  rw [apply_hardware_access_eq]
  split
  · rw [sync_view_LOG_DESYNC, sync_view_replayed]
  · exact sync_view_replayed m tsc

theorem sync_view_apply_sync_event (m : Replayer) (ev : sync_event) :
    sync_view (apply_sync_event m ev).2 = sync_view m := by
  unfold apply_sync_event
  rw [sync_view_andThen, sync_view_apply_hardware_access]
  intro m1
  split
  · simp [sync_view, force_emulation, Replayer.emit, matched_positions_append,
      matched_positions]
  · rfl

theorem sync_view_capture_context (m : Replayer) :
    sync_view (capture_context m) = sync_view m := rfl

theorem sync_view_seq {r : Result} {k : Replayer → Result} {v : List sync_event × Nat × List Nat}
    (h1 : sync_view r.2 = v) (h2 : ∀ m1, sync_view (k m1).2 = sync_view m1) :
    sync_view (r.andThen k).2 = v := by
  rw [sync_view_andThen r k h2, h1]

theorem sync_view_emit (m : Replayer) (e : Effect)
    (h : ∀ p n, e ≠ Effect.match_sync_event p n) :
    sync_view (m.emit e) = sync_view m := by
  cases e <;>
    first
      | exact absurd rfl (h _ _)
      | simp [sync_view, Replayer.emit, matched_positions_append, matched_positions]

theorem sync_view_nop_emulated_instruction (m : Replayer) :
    sync_view (nop_emulated_instruction m) = sync_view m := by
  unfold nop_emulated_instruction
  split_ifs <;> rfl

theorem sync_view_check_unmatched (m : Replayer) :
    sync_view (check_unmatched m).2 = sync_view m := by
  unfold check_unmatched
  refine sync_view_seq ?_ fun m1 => ?_
  · split_ifs
    · exact sync_view_LOG_DESYNC _ _
    · rfl
    · rfl
  · split
    · refine sync_view_seq ?_ fun m2 => ?_
      · split
        · exact sync_view_LOG_DESYNC _ _
        · rfl
      · split <;> rfl
    · rfl

theorem sync_view_after_instruction (m : Replayer) :
    sync_view (after_instruction m).2 = sync_view m := by
  unfold after_instruction retire_current_event
  split
  · refine sync_view_seq ?_ fun m1 => sync_view_seq ?_ fun m2 => rfl
    · split
      · exact sync_view_LOG_DESYNC _ _
      · rfl
    · split
      · exact sync_view_apply_sync_event _ _
      · rfl
  · rfl

theorem sync_view_UPDATE_FLAG_VALUE (m : Replayer) (name : FlagName) (getB : BX_CPU_C → Nat)
    (set : BX_CPU_C → Nat → BX_CPU_C) (value : Nat) :
    sync_view (UPDATE_FLAG_VALUE m name getB set value) = sync_view m := by
  unfold UPDATE_FLAG_VALUE
  split
  · simp [sync_view, Replayer.emit, matched_positions_append, matched_positions]
  · rfl

theorem sync_view_force_flags (m : Replayer) (f : Nat) :
    sync_view (force_flags m f) = sync_view m := by
  simp only [force_flags, sync_view_UPDATE_FLAG_VALUE]

theorem current_event_valid {l : List sync_event} (h : (current_event l).is_valid = true) :
    l = current_event l :: l.tail := by
  cases l with
  | nil => simp [current_event, sync_event.none] at h
  | cons e rest => rfl

theorem sync_step_match_sync_event (m : Replayer) (note : MatchNote)
    (h : (current_event m.sync_file_).is_valid = true) :
    sync_step (sync_view m)
      (sync_view (match_sync_event m (current_event m.sync_file_) note)) := by
  refine Or.inr ⟨current_event m.sync_file_, m.sync_file_.tail, current_event_valid h, ?_⟩
  simp [sync_view, match_sync_event, Replayer.emit, matched_positions_append, matched_positions]

theorem sync_step_seq_left {r : Result} {k : Replayer → Result}
    {v : List sync_event × Nat × List Nat} (h1 : sync_view r.2 = v)
    (h2 : ∀ m1, r = (Flow.returned, m1) → sync_step (sync_view m1) (sync_view (k m1).2)) :
    sync_step v (sync_view (r.andThen k).2) := by
  obtain ⟨f, m1⟩ := r
  cases f with
  | returned =>
    have := h2 m1 rfl
    simp only at h1
    rw [h1] at this
    exact this
  | longjmp val => exact Or.inl h1

theorem sync_step_seq_right {r : Result} {k : Replayer → Result}
    {v : List sync_event × Nat × List Nat} (h1 : sync_step v (sync_view r.2))
    (h2 : ∀ m1, sync_view (k m1).2 = sync_view m1) :
    sync_step v (sync_view (r.andThen k).2) := by
  rw [sync_view_andThen r k h2]
  exact h1

theorem sync_step_match_at_boundary (m : Replayer)
    (h : (current_event m.sync_file_).is_valid = true) :
    sync_step (sync_view m)
      (sync_view (match_at_boundary m (current_event m.sync_file_)).2) := by
  unfold match_at_boundary
  split_ifs
  · rw [sync_view_apply_sync_event]
    exact sync_step_match_sync_event m _ h
  · exact sync_step_match_sync_event m _ h
  · exact sync_step_match_sync_event m _ h
  · exact Or.inl rfl
  · exact Or.inl rfl

theorem sync_step_match_at_event (m : Replayer) (exact tolerant : MatchNote)
    (h : (current_event m.sync_file_).is_valid = true) :
    sync_step (sync_view m)
      (sync_view (match_at_event m (current_event m.sync_file_) exact tolerant)) := by
  unfold match_at_event
  split_ifs
  · exact sync_step_match_sync_event m _ h
  · exact sync_step_match_sync_event m _ h
  · exact Or.inl rfl
  · exact Or.inl rfl

/-- The guard on the validity of the pending event, as it opens the matching
code of all three callbacks: when it returns, the pending event is valid. -/
theorem pending_guard_returned {m m1 : Replayer} {msg : Message}
    (h : (if !(current_event m.sync_file_).is_valid then LOG_END_REPLAY m msg
      else (Flow.returned, m)) = (Flow.returned, m1)) :
    m1 = m ∧ (current_event m.sync_file_).is_valid = true := by
  split at h
  · simp [LOG_END_REPLAY, end_of_scenario] at h
  · rename_i hv
    simp only [Prod.mk.injEq, true_and] at h
    exact ⟨h.symm, by simpa using hv⟩

theorem sync_step_match_pending_event (m : Replayer) (exact tolerant : MatchNote) :
    sync_step (sync_view m) (sync_view (match_pending_event m exact tolerant).2) := by
  unfold match_pending_event
  refine sync_step_seq_left (v := sync_view m) ?_ fun m1 h1 => ?_
  · split
    · exact sync_view_LOG_END_REPLAY _ _
    · rfl
  · obtain ⟨rfl, hv⟩ := pending_guard_returned (m := capture_context m) h1
    exact sync_step_match_at_event (capture_context m) exact tolerant hv

theorem sync_step_exception (m : Replayer) (vector error_code : Nat) :
    sync_step (sync_view m) (sync_view (exception m vector error_code).2) := by
  unfold exception
  refine sync_step_seq_right ?_ fun m1 => ?_
  · split
    · exact sync_step_match_pending_event m _ _
    · exact Or.inl rfl
  · split
    · exact sync_view_LOG_DESYNC _ _
    · rfl

theorem sync_view_check_matched_vector (m : Replayer) (vector : Nat) :
    sync_view (check_matched_vector m vector).2 = sync_view m := by
  unfold check_matched_vector
  split_ifs
  · rfl
  · exact sync_view_LOG_DESYNC _ _
  · rfl

theorem sync_step_interrupt (m : Replayer) (vector : Nat) :
    sync_step (sync_view m) (sync_view (interrupt m vector).2) := by
  unfold interrupt
  refine sync_step_seq_right ?_ fun m1 => ?_
  · split
    · exact sync_step_seq_right (sync_step_match_pending_event m _ _)
        (fun m2 => sync_view_check_matched_vector m2 vector)
    · exact Or.inl rfl
  · split
    · rfl
    · refine sync_view_seq ?_ fun _ => rfl
      rw [sync_view_apply_hardware_access, sync_view_force_flags]

theorem sync_view_clear_current_event (m : Replayer) :
    sync_view (clear_current_event m) = sync_view m :=
  rfl

theorem sync_view_delivery_call (m : Replayer) (ev : sync_event) :
    sync_view (delivery_call m ev) = sync_view m := by
  simp [sync_view, delivery_call, replayed, Replayer.emit, matched_positions_append,
    matched_positions, matched_positions_access_effects]

theorem sync_view_interrupt_current (m : Replayer) (vector : Nat)
    (hv : m.current_event_.is_valid = true) :
    sync_view (interrupt m vector).2 = sync_view m := by
  rw [interrupt_current m vector hv]
  split_ifs
  · rw [sync_view_LOG_DESYNC, sync_view_replayed, sync_view_force_flags]
  · rw [sync_view_clear_current_event, sync_view_replayed, sync_view_force_flags]
  · rfl

/-- The forced delivery moves the sync side by at most one event: the hook of
the engine call is the only part of it that can match. -/
theorem sync_step_simulate_interrupt (m : Replayer) (ev : sync_event) :
    sync_step (sync_view m) (sync_view (simulate_interrupt m ev).2) := by
  rw [simulate_interrupt_eq]
  split
  · rw [sync_view_LOG_DESYNC, sync_view_replayed]
    exact Or.inl rfl
  · have := sync_step_interrupt (delivery_call m ev) ev.interrupt_vector
    rwa [sync_view_delivery_call] at this

theorem sync_view_reconcile_interrupt (m : Replayer)
    (hv : m.current_event_.is_valid = true) :
    sync_view (reconcile_interrupt m).2 = sync_view m := by
  rw [reconcile_interrupt_eq]
  split_ifs
  · simp [sync_view, Replayer.emit, matched_positions_append, matched_positions]
  · rw [sync_view_LOG_DESYNC, sync_view_replayed]
  · refine sync_view_seq ?_ (fun _ => rfl)
    rw [sync_view_interrupt_current _ _ (by simpa using hv), sync_view_delivery_call]
  · rfl

theorem sync_view_handle_current_event (m : Replayer) :
    sync_view (handle_current_event m).2 = sync_view m := by
  by_cases hv : m.current_event_.is_valid = true
  · rw [handle_current_event_eq m hv]
    split_ifs
    · exact sync_view_LOG_END_REPLAY _ _
    · exact sync_view_LOG_END_REPLAY _ _
    · rw [sync_view_reconcile_interrupt _ (by simpa using hv),
        sync_view_nop_emulated_instruction]
    · rw [sync_view_LOG_DESYNC, sync_view_replayed]
    · rw [sync_view_reconcile_interrupt _ (by simpa using hv),
        sync_view_nop_emulated_instruction, sync_view_replayed]
  · rw [handle_current_event_none m (by simpa using hv)]

theorem sync_step_before_instruction (m : Replayer) :
    sync_step (sync_view m) (sync_view (before_instruction m).2) := by
  unfold before_instruction
  split
  · exact sync_step_seq_right
      (sync_step_simulate_interrupt (enter_instruction m) _) (fun _ => rfl)
  · refine sync_step_seq_left (v := sync_view m) ?_ fun m1 h1 => ?_
    · split
      · exact sync_view_LOG_END_REPLAY _ _
      · rfl
    · obtain ⟨rfl, hv⟩ := pending_guard_returned h1
      refine sync_step_seq_right ?_ fun m2 =>
        sync_view_seq (sync_view_handle_current_event m2) sync_view_check_unmatched
      exact sync_step_match_at_boundary (capture_context (enter_instruction m)) hv

theorem sync_step_call (m : Replayer) (c : Callback) :
    sync_step (sync_view m) (sync_view (c.call m).2) := by
  cases c with
  | before_instruction cpu i => exact sync_step_before_instruction { m with cpu := cpu, i := i }
  | after_instruction cpu i =>
    exact Or.inl (sync_view_after_instruction { m with cpu := cpu, i := i })
  | exception cpu vector error_code =>
    exact sync_step_exception { m with cpu := cpu } vector error_code
  | interrupt cpu vector => exact sync_step_interrupt { m with cpu := cpu } vector

theorem consumed_in_order_refl (l : List sync_event) (last : Nat) (mp : List Nat) :
    consumed_in_order l last mp (l, last, mp) :=
  ⟨0, Nat.zero_le _, by simp, by simp, fun _ => rfl, fun h => absurd h (lt_irrefl 0)⟩

theorem consumed_in_order_cons {e : sync_event} {rest : List sync_event} {last : Nat}
    {mp : List Nat} {w : List sync_event × Nat × List Nat}
    (hpos : consecutive_positions (e :: rest))
    (h : consumed_in_order rest e.position (mp ++ [e.position]) w) :
    consumed_in_order (e :: rest) last mp w := by
  obtain ⟨n, hn, h1, h2, h3, h4⟩ := h
  refine ⟨n + 1, by simpa using hn, by simpa using h1, ?_, by simp, fun _ => ?_⟩
  · rw [h2, List.append_assoc]
    congr 1
    cases n with
    | zero => simp [current_event]
    | succ k =>
      cases rest with
      | nil => simp at hn
      | cons e2 rest2 =>
        have h12 : e2.position = e.position + 1 := hpos.1
        simp [current_event, h12, List.range'_succ]
  · cases n with
    | zero =>
      rw [h3 rfl]
      simp [current_event]
    | succ k =>
      cases rest with
      | nil => simp at hn
      | cons e2 rest2 =>
        have h12 : e2.position = e.position + 1 := hpos.1
        have := h4 (Nat.succ_pos k)
        simp only [current_event] at this ⊢
        omega

theorem consumed_in_order_run (cs : List Callback) :
    ∀ m : Replayer, consecutive_positions m.sync_file_ →
      consumed_in_order m.sync_file_ m.last_sync_point_ (matched_positions m.log)
        (sync_view (run m cs)) := by
  induction cs with
  | nil => intro m _; exact consumed_in_order_refl _ _ _
  | cons c cs ih =>
    intro m hpos
    have hstep := sync_step_call m c
    have key : consumed_in_order m.sync_file_ m.last_sync_point_ (matched_positions m.log)
        (sync_view (run (c.call m).2 cs)) ∧
        consumed_in_order m.sync_file_ m.last_sync_point_ (matched_positions m.log)
        (sync_view (c.call m).2) := by
      rcases hstep with h | ⟨e, rest, h1, h2⟩
      · have hs : (c.call m).2.sync_file_ = m.sync_file_ := congrArg Prod.fst h
        have hl : (c.call m).2.last_sync_point_ = m.last_sync_point_ :=
          congrArg (fun v => v.2.1) h
        have hm : matched_positions (c.call m).2.log = matched_positions m.log :=
          congrArg (fun v => v.2.2) h
        have := ih (c.call m).2 (by rw [hs]; exact hpos)
        rw [hs, hl, hm] at this
        refine ⟨this, ?_⟩
        rw [h]
        exact consumed_in_order_refl _ _ _
      · have h1' : m.sync_file_ = e :: rest := h1
        have hs : (c.call m).2.sync_file_ = rest := congrArg Prod.fst h2
        have hl : (c.call m).2.last_sync_point_ = e.position := congrArg (fun v => v.2.1) h2
        have hm : matched_positions (c.call m).2.log = matched_positions m.log ++ [e.position] :=
          congrArg (fun v => v.2.2) h2
        rw [h1'] at hpos ⊢
        have hrest : consecutive_positions rest := by
          cases rest with
          | nil => trivial
          | cons e2 rest2 => exact hpos.2
        have := ih (c.call m).2 (by rw [hs]; exact hrest)
        rw [hs, hl, hm] at this
        refine ⟨consumed_in_order_cons hpos this, consumed_in_order_cons hpos ?_⟩
        rw [h2]
        exact consumed_in_order_refl _ _ _
    unfold run
    split
    · exact key.2
    · exact key.1

/-- C1. Every callback either leaves the sync cursor, the last matched position
and the announced matches unchanged (no match, or a failed attempt), or
consumes exactly the pending event, records its position as last matched and
announces it once. Hence, on a sync stream with consecutive positions, a
session of any callbacks consumes a prefix of the stream, the announced
positions are `p, p + 1, p + 2, ...` without gap or repetition, and the last
matched position is the last of them. -/
theorem sync_positions_advance_by_one (m : Replayer)
    (hpos : consecutive_positions m.sync_file_) :
    (∀ c : Callback, sync_step (sync_view m) (sync_view (c.call m).2)) ∧
      ∀ cs : List Callback,
        consumed_in_order m.sync_file_ m.last_sync_point_ (matched_positions m.log)
          (sync_view (run m cs)) :=
  ⟨sync_step_call m, fun cs => consumed_in_order_run cs m hpos⟩

/-- The demo session announces the positions 10, 11 and 12 in this order. -/
theorem demo_session_matches :
    matched_positions (run demo_session demo_callbacks).log = [10, 11, 12] ∧
      (run demo_session demo_callbacks).last_sync_point_ = 12 := by
  decide

theorem sync_positions_advance_by_one_witness :
    consecutive_positions demo_session.sync_file_ ∧
      ((∀ c : Callback, sync_step (sync_view demo_session) (sync_view (c.call demo_session).2)) ∧
        ∀ cs : List Callback,
          consumed_in_order demo_session.sync_file_ demo_session.last_sync_point_
            (matched_positions demo_session.log) (sync_view (run demo_session cs))) :=
  ⟨by decide, sync_positions_advance_by_one demo_session (by decide)⟩

/-! ## Flags-tolerant match -/

/-- C6, amended: no postponed interrupt is due at the boundary. At a boundary whose
rip is the start rip of the valid pending event `ev`, if `ev` carries no
interrupt and the live context differs from its start context only in
general-purpose registers whose two values both look like EFLAGS,
`before_instruction` matches `ev`: it is the current event, the cursor has
advanced, its position is the last matched one and is announced; the only
desync the call can raise is the bound of the hardware replay. -/
theorem flags_tolerant_match (m : Replayer) (ev : sync_event) (rest : List sync_event)
    (hsync : m.sync_file_ = ev :: rest) (hvalid : ev.is_valid = true)
    (hnd : postponed_due m = false) (hrip : m.cpu.rip = ev.start_rip)
    (hint : ev.has_interrupt = false)
    (hctx : differs_only_in_eflags_like (capture_context m).current_ctx_ ev.start_context) :
    (before_instruction m).2.current_event_ = ev ∧
      (before_instruction m).2.sync_file_ = rest ∧
      (before_instruction m).2.last_sync_point_ = ev.position ∧
      matched_positions (before_instruction m).2.log
        = matched_positions m.log ++ [ev.position] ∧
      ((before_instruction m).2.desync_ = true →
        m.desync_ = true ∨
          meets_oversized_read ev.start_context.tsc m.hardware_file_ = true ∨
          meets_oversized_read ev.new_context.tsc m.hardware_file_ = true) := by
  have hcur : current_event m.sync_file_ = ev := by rw [hsync]; rfl
  have hB : match_with_no_eflags (capture_context (enter_instruction m)).current_ctx_
      ev.start_context = true := by
    rw [match_with_no_eflags_iff]
    exact ⟨hctx.1, hctx.2.1⟩
  have main : (before_instruction m).2.current_event_ = ev ∧
      (before_instruction m).2.sync_file_ = rest ∧
      (before_instruction m).2.last_sync_point_ = ev.position ∧
      ((before_instruction m).2.desync_ = true →
        m.desync_ = true ∨
          meets_oversized_read ev.start_context.tsc m.hardware_file_ = true ∨
          meets_oversized_read ev.new_context.tsc m.hardware_file_ = true) := by
    rw [before_instruction_pending m hnd (by rw [hcur]; exact hvalid), hcur]
    by_cases hfirst : ev.is_first_event_context_unknown = true
    · unfold match_at_boundary
      rw [if_pos hfirst, apply_sync_event_eq]
      simp only [andThen_ite, andThen_LOG_DESYNC, andThen_returned]
      split_ifs with h1 h2
      · simp_all
      · have := handle_then_check
          (force_emulation (replayed (match_sync_event (capture_context (enter_instruction m))
            ev MatchNote.plain) ev.new_context.tsc) ev.position ev.new_context)
          (by simpa using hvalid) (by simpa using hint)
        simp_all
        try tauto
      · have := handle_then_check
          (replayed (match_sync_event (capture_context (enter_instruction m))
            ev MatchNote.plain) ev.new_context.tsc)
          (by simpa using hvalid) (by simpa using hint)
        simp_all
        try tauto
    · have hrip2 : ((capture_context (enter_instruction m)).current_rip_ == ev.start_rip)
          = true := by simpa using hrip
      unfold match_at_boundary
      rw [if_neg hfirst, if_pos hrip2]
      split_ifs with h1 h2
      · have := handle_then_check
          (match_sync_event (capture_context (enter_instruction m)) ev MatchNote.plain)
          (by simpa using hvalid) (by simpa using hint)
        simp_all
        try tauto
      · have := handle_then_check
          (match_sync_event (capture_context (enter_instruction m)) ev MatchNote.without_eflags)
          (by simpa using hvalid) (by simpa using hint)
        simp_all
        try tauto
      · simp_all
  refine ⟨main.1, main.2.1, main.2.2.1, ?_, main.2.2.2⟩
  rcases sync_step_before_instruction m with h | ⟨e, r, h1, h2⟩
  · have hs : (before_instruction m).2.sync_file_ = m.sync_file_ := congrArg Prod.fst h
    rw [main.2.1, hsync] at hs
    exact absurd hs.symm (List.cons_ne_self ev rest)
  · have h1' : m.sync_file_ = e :: r := h1
    rw [hsync] at h1'
    have he : ev = e := (List.cons.inj h1').1
    have hm : matched_positions (before_instruction m).2.log
        = matched_positions m.log ++ [e.position] := congrArg (fun v => v.2.2) h2
    rw [hm, he]

/-! ## Terminal sentinel -/

theorem andThen_current_event (r : Result) (k : Replayer → Result)
    (h : ∀ m1, (k m1).2.current_event_ = m1.current_event_) :
    (r.andThen k).2.current_event_ = r.2.current_event_ := by
  unfold Result.andThen
  split
  · exact h _
  · rfl

theorem interrupt_current_event_cases (m : Replayer) (vector : Nat)
    (hv : m.current_event_.is_valid = true) :
    (interrupt m vector).2.current_event_ = m.current_event_ ∨
      (interrupt m vector).2.current_event_ = sync_event.none := by
  rw [interrupt_current m vector hv]
  split_ifs
  · left; simp
  · right; simp
  · left; rfl

/-- The matched event stays the current one through `reconcile_interrupt`,
unless the hook of a forced delivery clears it. -/
theorem reconcile_interrupt_current_event (m : Replayer)
    (hv : m.current_event_.is_valid = true) :
    (reconcile_interrupt m).2.current_event_ = m.current_event_ ∨
      (reconcile_interrupt m).2.current_event_ = sync_event.none := by
  rw [reconcile_interrupt_eq]
  split_ifs
  · left; simp
  · left; simp
  · have hv2 : (delivery_call m m.current_event_).current_event_.is_valid = true := by
      simpa using hv
    have := interrupt_current_event_cases (delivery_call m m.current_event_)
      m.current_event_.interrupt_vector hv2
    rw [andThen_current_event _ _ (fun _ => rfl)]
    simpa using this
  · left; rfl

theorem handle_current_event_current_event (m : Replayer) :
    (handle_current_event m).2.current_event_ = m.current_event_ ∨
      (handle_current_event m).2.current_event_ = sync_event.none := by
  by_cases hv : m.current_event_.is_valid = true
  · rw [handle_current_event_eq m hv]
    split_ifs
    · left; simp
    · left; simp
    · simpa using reconcile_interrupt_current_event (nop_emulated_instruction m)
        (by simpa using hv)
    · left; simp
    · simpa using reconcile_interrupt_current_event
        (nop_emulated_instruction (replayed m m.current_event_.start_context.tsc))
        (by simpa using hv)
  · rw [handle_current_event_none m (by simpa using hv)]
    exact Or.inl rfl

theorem check_unmatched_current_event (m : Replayer) :
    (check_unmatched m).2.current_event_ = m.current_event_ := by
  by_cases hv : m.current_event_.is_valid = true
  · rw [check_unmatched_valid m hv]
    split_ifs <;> rfl
  · rw [check_unmatched_none m (by simpa using hv)]
    split_ifs <;> simp

theorem handle_then_check_current_event (m : Replayer) :
    ((handle_current_event m).andThen check_unmatched).2.current_event_ = m.current_event_ ∨
      ((handle_current_event m).andThen check_unmatched).2.current_event_
        = sync_event.none := by
  rw [andThen_current_event _ _ check_unmatched_current_event]
  exact handle_current_event_current_event m

/-- The match attempt at a boundary either changes nothing or makes the pending
event the current one. -/
theorem match_at_boundary_cases (m : Replayer) (ev : sync_event) :
    match_at_boundary m ev = (Flow.returned, m) ∨
      (match_at_boundary m ev).2.current_event_ = ev := by
  unfold match_at_boundary
  split_ifs
  · right
    rw [apply_sync_event_eq]
    split_ifs <;> simp
  · right; simp
  · right; simp
  · left; rfl
  · left; rfl

@[simp]
theorem is_final_int3_capture_context (m : Replayer) :
    is_final_int3 (capture_context m) = is_final_int3 m :=
  rfl

@[simp]
theorem is_final_int3_enter_instruction (m : Replayer) :
    is_final_int3 (enter_instruction m) = is_final_int3 m :=
  rfl

/-- C7, as stated, fails: at the terminal sentinel with an exhausted sync
stream, no event is matched and the session ends with `desync = false`. -/
theorem final_int3_on_exhausted_stream :
    is_final_int3 sentinel_exhausted = true ∧
      (before_instruction sentinel_exhausted).2.current_event_.is_valid = false ∧
      (before_instruction sentinel_exhausted).1 = Flow.longjmp 1 ∧
      (before_instruction sentinel_exhausted).2.desync_ = false := by
  decide

/-- The match attempt at a boundary either changes nothing or consumes the
pending event. -/
theorem match_at_boundary_cursor (m : Replayer) (ev : sync_event) :
    match_at_boundary m ev = (Flow.returned, m) ∨
      (match_at_boundary m ev).2.sync_file_ = m.sync_file_.tail := by
  unfold match_at_boundary
  split_ifs
  · right
    have := congrArg Prod.fst (sync_view_apply_sync_event (match_sync_event m ev MatchNote.plain) ev)
    exact this
  · right; rfl
  · right; rfl
  · left; rfl
  · left; rfl

/-- When no postponed interrupt is due, the pending event is valid and the
sync cursor is not moved by `before_instruction`, no event was matched and
only the final checks ran. -/
theorem before_instruction_no_match (m : Replayer) (hnd : postponed_due m = false)
    (hv : (current_event m.sync_file_).is_valid = true)
    (hno : (before_instruction m).2.sync_file_ = m.sync_file_) :
    before_instruction m = check_unmatched (capture_context (enter_instruction m)) := by
  rw [before_instruction_pending m hnd hv] at hno ⊢
  rcases match_at_boundary_cursor (capture_context (enter_instruction m))
    (current_event m.sync_file_) with h | h
  · rw [h, andThen_returned, handle_current_event_none _ (by simp [sync_event.none]),
      andThen_returned]
  · exfalso
    have hrest := sync_view_andThen
      (match_at_boundary (capture_context (enter_instruction m)) (current_event m.sync_file_))
      (fun m => (handle_current_event m).andThen check_unmatched)
      (fun m1 => sync_view_seq (sync_view_handle_current_event m1) sync_view_check_unmatched)
    have hs := congrArg Prod.fst hrest
    simp only [sync_view] at hs
    rw [hs, h] at hno
    have hl := current_event_valid hv
    have hlen := congrArg List.length hno
    rw [hl] at hlen
    simp at hlen

/-- C7, amended. When `before_instruction` is entered at the terminal sentinel
instruction with no postponed interrupt due at the current rip and a pending
event that is valid (the stream is not exhausted), and no sync event is
matched for that instruction (the sync cursor stays where it was), the session
ends with `desync = true`. -/
theorem final_int3_without_match (m : Replayer) (hfinal : is_final_int3 m = true)
    (hnd : postponed_due m = false)
    (hv : (current_event m.sync_file_).is_valid = true)
    (hno : (before_instruction m).2.sync_file_ = m.sync_file_) :
    (before_instruction m).1 = Flow.longjmp 1 ∧ (before_instruction m).2.desync_ = true ∧
      (before_instruction m).2.kill_bochs_request = true := by
  rw [before_instruction_no_match m hnd hv hno,
    check_unmatched_none _ (by simp [sync_event.none])]
  simp [hfinal]

/-! ## Forced interrupts -/

@[simp]
theorem forced_interrupts_append (l1 l2 : List Effect) :
    forced_interrupts (l1 ++ l2) = forced_interrupts l1 ++ forced_interrupts l2 := by
  induction l1 with
  | nil => rfl
  | cons e l ih => cases e <;> simp [forced_interrupts, ih]

@[simp]
theorem forced_interrupts_access_effects (cpu : BX_CPU_C) (l : List hardware_access) :
    forced_interrupts (l.flatMap (access_effects cpu)) = [] := by
  induction l with
  | nil => rfl
  | cons a l ih =>
    rw [List.flatMap_cons, forced_interrupts_append, ih]
    unfold access_effects
    split_ifs <;> rfl

@[simp]
theorem forced_interrupts_replayed (m : Replayer) (t : Nat) :
    forced_interrupts (replayed m t).log = forced_interrupts m.log := by
  simp [forced_interrupts_append, forced_interrupts]

@[simp]
theorem forced_interrupts_LOG_DESYNC (m : Replayer) (msg : Message) :
    forced_interrupts (LOG_DESYNC m msg).2.log = forced_interrupts m.log := by
  simp [forced_interrupts_append, forced_interrupts]

@[simp]
theorem forced_interrupts_LOG_END_REPLAY (m : Replayer) (msg : Message) :
    forced_interrupts (LOG_END_REPLAY m msg).2.log = forced_interrupts m.log := by
  simp [forced_interrupts_append, forced_interrupts]

/-! ## The postponed slot outside `before_instruction` -/

theorem slot_view_seq {r : Result} {k : Replayer → Result}
    {v : sync_event × List (Nat × InterruptType × Nat)}
    (h1 : slot_view r.2 = v) (h2 : ∀ m1, slot_view (k m1).2 = slot_view m1) :
    slot_view (r.andThen k).2 = v := by
  unfold Result.andThen
  split
  · rw [h2, h1]
  · exact h1

theorem slot_view_LOG_DESYNC (m : Replayer) (msg : Message) :
    slot_view (LOG_DESYNC m msg).2 = slot_view m := by
  simp [slot_view]

theorem slot_view_LOG_END_REPLAY (m : Replayer) (msg : Message) :
    slot_view (LOG_END_REPLAY m msg).2 = slot_view m := by
  simp [slot_view]

theorem slot_view_apply_hardware_access (m : Replayer) (tsc : Nat) :
    slot_view (apply_hardware_access m tsc).2 = slot_view m := by
  rw [apply_hardware_access_eq]
  split <;> simp [slot_view]

theorem slot_view_apply_sync_event (m : Replayer) (ev : sync_event) :
    slot_view (apply_sync_event m ev).2 = slot_view m := by
  rw [apply_sync_event_eq]
  split_ifs <;> simp [slot_view, forced_interrupts_append, forced_interrupts]

theorem slot_view_match_at_event (m : Replayer) (ev : sync_event) (exact tolerant : MatchNote) :
    slot_view (match_at_event m ev exact tolerant) = slot_view m := by
  unfold match_at_event
  split_ifs <;> simp [slot_view, forced_interrupts_append, forced_interrupts]

theorem slot_view_match_pending_event (m : Replayer) (exact tolerant : MatchNote) :
    slot_view (match_pending_event m exact tolerant).2 = slot_view m := by
  unfold match_pending_event
  refine slot_view_seq ?_ fun m1 => slot_view_match_at_event _ _ _ _
  split
  · rw [slot_view_LOG_END_REPLAY]; rfl
  · rfl

theorem slot_view_exception (m : Replayer) (vector error_code : Nat) :
    slot_view (exception m vector error_code).2 = slot_view m := by
  unfold exception
  refine slot_view_seq ?_ fun m1 => ?_
  · split
    · exact slot_view_match_pending_event _ _ _
    · rfl
  · split
    · exact slot_view_LOG_DESYNC _ _
    · rfl

theorem slot_view_UPDATE_FLAG_VALUE (m : Replayer) (name : FlagName) (getB : BX_CPU_C → Nat)
    (set : BX_CPU_C → Nat → BX_CPU_C) (value : Nat) :
    slot_view (UPDATE_FLAG_VALUE m name getB set value) = slot_view m := by
  unfold UPDATE_FLAG_VALUE
  split
  · simp [slot_view, forced_interrupts_append, forced_interrupts]
  · rfl

theorem slot_view_force_flags (m : Replayer) (f : Nat) :
    slot_view (force_flags m f) = slot_view m := by
  simp only [force_flags, slot_view_UPDATE_FLAG_VALUE]

theorem slot_view_interrupt (m : Replayer) (vector : Nat) :
    slot_view (interrupt m vector).2 = slot_view m := by
  unfold interrupt
  refine slot_view_seq ?_ fun m1 => ?_
  · split
    · refine slot_view_seq (slot_view_match_pending_event _ _ _) fun m2 => ?_
      unfold check_matched_vector
      split_ifs
      · rfl
      · exact slot_view_LOG_DESYNC _ _
      · rfl
    · rfl
  · split
    · rfl
    · refine slot_view_seq ?_ fun _ => rfl
      rw [slot_view_apply_hardware_access, slot_view_force_flags]

theorem slot_view_after_instruction (m : Replayer) :
    slot_view (after_instruction m).2 = slot_view m := by
  unfold after_instruction retire_current_event
  split
  · refine slot_view_seq ?_ fun m1 => slot_view_seq ?_ fun m2 => rfl
    · split
      · rw [slot_view_LOG_DESYNC]; rfl
      · rfl
    · split
      · exact slot_view_apply_sync_event _ _
      · rfl
  · rfl

/-! ## The hook of a forced delivery -/

theorem andThen_abort_state (r : Result) (f : Flow) :
    (r.andThen fun m => (f, m)).2 = r.2 := by
  obtain ⟨fl, m1⟩ := r
  cases fl <;> rfl

theorem andThen_of_not_returned {r : Result} (k : Replayer → Result)
    (h : r.1 ≠ Flow.returned) : r.andThen k = r := by
  obtain ⟨fl, m1⟩ := r
  cases fl with
  | returned => exact absurd rfl h
  | longjmp v => rfl

theorem andThen_abort_not_returned (r : Result) (n : Nat) :
    (r.andThen fun m => (Flow.longjmp n, m)).1 ≠ Flow.returned := by
  obtain ⟨fl, m1⟩ := r
  cases fl <;> simp [Result.andThen]

theorem andThen_not_returned (r : Result) (k : Replayer → Result)
    (h : ∀ m1, (k m1).1 ≠ Flow.returned) : (r.andThen k).1 ≠ Flow.returned := by
  obtain ⟨fl, m1⟩ := r
  cases fl with
  | returned => exact h m1
  | longjmp v => simp [Result.andThen]

theorem flow_seq {r : Result} {k : Replayer → Result}
    (h1 : r.1 = Flow.returned ∨ r.1 = Flow.longjmp 1)
    (h2 : ∀ m1, (k m1).1 = Flow.returned ∨ (k m1).1 = Flow.longjmp 1) :
    (r.andThen k).1 = Flow.returned ∨ (r.andThen k).1 = Flow.longjmp 1 := by
  obtain ⟨fl, m1⟩ := r
  cases fl with
  | returned => exact h2 m1
  | longjmp v => exact h1

theorem apply_hardware_access_flows (m : Replayer) (tsc : Nat) :
    (apply_hardware_access m tsc).1 = Flow.returned ∨
      (apply_hardware_access m tsc).1 = Flow.longjmp 1 := by
  rw [apply_hardware_access_eq]
  split
  · right; simp
  · left; rfl

/-- The callback `interrupt` returns or ends the session; it never aborts an
instruction itself. -/
theorem interrupt_flow (m : Replayer) (vector : Nat) :
    (interrupt m vector).1 = Flow.returned ∨ (interrupt m vector).1 = Flow.longjmp 1 := by
  unfold interrupt
  refine flow_seq ?_ fun m1 => ?_
  · split
    · refine flow_seq (flow_seq ?_ fun _ => Or.inl rfl) fun m2 => ?_
      · split
        · right; simp
        · left; rfl
      · unfold check_matched_vector
        split_ifs
        · left; rfl
        · right; simp
        · left; rfl
    · left; rfl
  · split
    · left; rfl
    · exact flow_seq (apply_hardware_access_flows _ _) fun _ => Or.inl rfl

theorem slot_view_delivery_call (m : Replayer) (ev : sync_event) :
    slot_view (delivery_call m ev) =
      (m.saved_interrupt_event_,
        forced_interrupts m.log ++
          [(ev.interrupt_vector, InterruptType.BX_EXTERNAL_INTERRUPT, ev.fault_error_code)]) := by
  simp [slot_view, forced_interrupts_append, forced_interrupts]

/-- The hook of a forced delivery leaves the postponed slot alone, and the
only engine call logged by the delivery is its own. -/
theorem slot_view_hook (m : Replayer) (ev : sync_event) :
    (interrupt (delivery_call m ev) ev.interrupt_vector).2.saved_interrupt_event_
        = m.saved_interrupt_event_ ∧
      forced_interrupts (interrupt (delivery_call m ev) ev.interrupt_vector).2.log =
        forced_interrupts m.log ++
          [(ev.interrupt_vector, InterruptType.BX_EXTERNAL_INTERRUPT, ev.fault_error_code)] := by
  have h := slot_view_interrupt (delivery_call m ev) ev.interrupt_vector
  rw [slot_view_delivery_call] at h
  exact ⟨congrArg Prod.fst h, congrArg Prod.snd h⟩

/-- An immediate delivery by `reconcile_interrupt`: the slot is untouched, the
engine call is logged unless the hardware replay ended the session before it,
and the call does not return to the instruction. -/
theorem reconcile_interrupt_delivery (m : Replayer)
    (hc : carries_external_interrupt m.current_event_)
    (hr : m.current_rip_ = m.current_event_.interrupt_rip) :
    (reconcile_interrupt m).2.saved_interrupt_event_ = m.saved_interrupt_event_ ∧
      (forced_interrupts (reconcile_interrupt m).2.log = forced_interrupts m.log ∨
        forced_interrupts (reconcile_interrupt m).2.log =
          forced_interrupts m.log ++
            [(m.current_event_.interrupt_vector, InterruptType.BX_EXTERNAL_INTERRUPT,
              m.current_event_.fault_error_code)]) ∧
      (reconcile_interrupt m).1 ≠ Flow.returned := by
  rw [reconcile_interrupt_eq, if_pos hc, if_neg (not_not.mpr hr)]
  split_ifs
  · simp
  · rw [andThen_abort_state]
    exact ⟨(slot_view_hook m m.current_event_).1, Or.inr (slot_view_hook m m.current_event_).2,
      andThen_abort_not_returned _ 0⟩

/-- What the rest of `before_instruction` does once an event is matched, case
by case on the interrupt the event carries. -/
theorem handle_then_check_spec (m : Replayer) (hv : m.current_event_.is_valid = true) :
    (¬ carries_external_interrupt m.current_event_ →
      ((handle_current_event m).andThen check_unmatched).2.saved_interrupt_event_
          = m.saved_interrupt_event_ ∧
        forced_interrupts ((handle_current_event m).andThen check_unmatched).2.log
          = forced_interrupts m.log) ∧
    (carries_external_interrupt m.current_event_ →
      m.current_rip_ ≠ m.current_event_.interrupt_rip →
      forced_interrupts ((handle_current_event m).andThen check_unmatched).2.log
          = forced_interrupts m.log ∧
        (((handle_current_event m).andThen check_unmatched).2.saved_interrupt_event_
            = m.saved_interrupt_event_ ∨
          ((handle_current_event m).andThen check_unmatched).2.saved_interrupt_event_
            = m.current_event_) ∧
        (((handle_current_event m).andThen check_unmatched).1 ≠ Flow.longjmp 1 →
          ((handle_current_event m).andThen check_unmatched).1 = Flow.returned ∧
            ((handle_current_event m).andThen check_unmatched).2.saved_interrupt_event_
              = m.current_event_)) ∧
    (carries_external_interrupt m.current_event_ →
      m.current_rip_ = m.current_event_.interrupt_rip →
      ((handle_current_event m).andThen check_unmatched).2.saved_interrupt_event_
          = m.saved_interrupt_event_ ∧
        (forced_interrupts ((handle_current_event m).andThen check_unmatched).2.log
            = forced_interrupts m.log ∨
          forced_interrupts ((handle_current_event m).andThen check_unmatched).2.log =
            forced_interrupts m.log ++
              [(m.current_event_.interrupt_vector, InterruptType.BX_EXTERNAL_INTERRUPT,
                m.current_event_.fault_error_code)]) ∧
        ((handle_current_event m).andThen check_unmatched).1 ≠ Flow.returned) := by
  rw [handle_current_event_eq m hv]
  refine ⟨fun hc => ?_, fun hc hr => ?_, fun hc hr => ?_⟩
  · simp only [reconcile_interrupt_eq, nop_emulated_instruction_current_event_,
      replayed_current_event_, if_neg hc, andThen_ite, andThen_LOG_END_REPLAY,
      andThen_LOG_DESYNC]
    split_ifs <;>
      simp_all [check_unmatched_valid, forced_interrupts_append, forced_interrupts] <;>
      try (split_ifs <;> simp_all [forced_interrupts_append, forced_interrupts])
  · simp only [reconcile_interrupt_eq, nop_emulated_instruction_current_event_,
      nop_emulated_instruction_current_rip_, replayed_current_rip_,
      replayed_current_event_, if_pos hc, if_pos hr, andThen_ite, andThen_LOG_END_REPLAY,
      andThen_LOG_DESYNC, andThen_returned]
    split_ifs <;>
      simp_all [check_unmatched_valid, forced_interrupts_append, forced_interrupts] <;>
      try (split_ifs <;> simp_all [forced_interrupts_append, forced_interrupts])
  · simp only [andThen_ite, andThen_LOG_END_REPLAY, andThen_LOG_DESYNC]
    split_ifs
    · simp
    · simp
    · obtain ⟨h1, h2, h3⟩ := reconcile_interrupt_delivery (nop_emulated_instruction m)
        (by simpa using hc) (by simpa using hr)
      rw [andThen_of_not_returned _ h3]
      exact ⟨by simpa using h1, by simpa using h2, h3⟩
    · simp
    · obtain ⟨h1, h2, h3⟩ := reconcile_interrupt_delivery
        (nop_emulated_instruction (replayed m m.current_event_.start_context.tsc))
        (by simpa using hc) (by simpa using hr)
      rw [andThen_of_not_returned _ h3]
      exact ⟨by simpa using h1, by simpa using h2, h3⟩

/-- The match attempt at a boundary: nothing changes, or the pending event is
the current one of a state `m1` that the attempt returns, or on which the
hardware replay of the anchor event ends the session. -/
theorem match_at_boundary_spec (m : Replayer) (ev : sync_event) :
    match_at_boundary m ev = (Flow.returned, m) ∨
      ∃ m1 : Replayer, m1.current_event_ = ev ∧
        m1.saved_interrupt_event_ = m.saved_interrupt_event_ ∧
        m1.current_rip_ = m.current_rip_ ∧
        forced_interrupts m1.log = forced_interrupts m.log ∧
        (match_at_boundary m ev = (Flow.returned, m1) ∨
          match_at_boundary m ev = LOG_DESYNC m1 Message.read_access_bigger_than_maximum) := by
  unfold match_at_boundary
  split_ifs
  · right
    rw [apply_sync_event_eq]
    split_ifs
    · exact ⟨_, by simp, by simp, by simp,
        by simp [forced_interrupts_append, forced_interrupts], Or.inr rfl⟩
    · exact ⟨_, by simp, by simp, by simp,
        by simp [forced_interrupts_append, forced_interrupts], Or.inl rfl⟩
    · exact ⟨_, by simp, by simp, by simp,
        by simp [forced_interrupts_append, forced_interrupts], Or.inl rfl⟩
  · exact Or.inr ⟨_, by simp, by simp, by simp,
      by simp [forced_interrupts_append, forced_interrupts], Or.inl rfl⟩
  · exact Or.inr ⟨_, by simp, by simp, by simp,
      by simp [forced_interrupts_append, forced_interrupts], Or.inl rfl⟩
  · exact Or.inl rfl
  · exact Or.inl rfl

/-- The shape of `before_instruction` when no postponed interrupt is due and
the pending event is valid: no event is matched and only the final checks run,
or an event is matched in a state `m1` and handled, or the hardware replay of
the anchor event ends the session. -/
theorem before_instruction_shape (m : Replayer) (hnd : postponed_due m = false)
    (hv : (current_event m.sync_file_).is_valid = true) :
    before_instruction m = check_unmatched (capture_context (enter_instruction m)) ∨
      ∃ m1 : Replayer, m1.current_event_ = current_event m.sync_file_ ∧
        m1.saved_interrupt_event_ = m.saved_interrupt_event_ ∧
        m1.current_rip_ = m.cpu.rip ∧
        forced_interrupts m1.log = forced_interrupts m.log ∧
        (before_instruction m = (handle_current_event m1).andThen check_unmatched ∨
          before_instruction m = LOG_DESYNC m1 Message.read_access_bigger_than_maximum) := by
  rw [before_instruction_pending m hnd hv]
  rcases match_at_boundary_spec (capture_context (enter_instruction m))
    (current_event m.sync_file_) with h | ⟨m1, h1, h2, h3, h4, h5 | h5⟩
  · left
    rw [h, andThen_returned, handle_current_event_none _ (by simp [sync_event.none]),
      andThen_returned]
  · exact Or.inr ⟨m1, h1, by simpa using h2, by simpa using h3, by simpa using h4,
      Or.inl (by rw [h5, andThen_returned])⟩
  · exact Or.inr ⟨m1, h1, by simpa using h2, by simpa using h3, by simpa using h4,
      Or.inr (by rw [h5, andThen_LOG_DESYNC])⟩

/-! ## Postponed interrupts -/

/-- A call of `before_instruction` at which a postponed interrupt is due does
not return to the instruction. -/
theorem before_instruction_due_not_returned (m : Replayer) (h : postponed_due m = true) :
    (before_instruction m).1 ≠ Flow.returned := by
  rw [before_instruction_due m h]
  split_ifs
  · simp
  · exact andThen_not_returned _ _ (fun _ => Flow.noConfusion)

/-- C9. (1) For an event carrying an interrupt of vector at least 16 that
`before_instruction` matches at a rip different from its `interrupt_rip`, the
engine is not called, and the call returns with the event stored in the
postponed slot (or ends the session). (2) When a postponed interrupt is due
(the rip is its `interrupt_rip`) the call does not return to the instruction:
either the delivery completes, the instruction is aborted
(`longjmp(jmp_buf_env, 0)`), the slot is empty and the engine was called with
the recorded vector, external origin and error code; or the hardware replay
or the interrupt hook of the engine call ends the session, with the slot as it
was. (3) At any other rip the slot stays occupied and the only interrupt that
can be forced is the one of the pending event, matched in this very call at
its own `interrupt_rip`. (4) If the sync stream is exhausted at such a rip the
session ends with `desync = false`, nothing is forced. (5) The other callbacks
neither touch the slot nor force an interrupt. -/
theorem postponed_interrupt (m : Replayer) :
    (postponed_due m = false →
      (before_instruction m).2.current_event_.is_valid = true →
      carries_external_interrupt (before_instruction m).2.current_event_ →
      m.cpu.rip ≠ (before_instruction m).2.current_event_.interrupt_rip →
      forced_interrupts (before_instruction m).2.log = forced_interrupts m.log ∧
        ((before_instruction m).1 = Flow.longjmp 1 ∨
          ((before_instruction m).1 = Flow.returned ∧
            (before_instruction m).2.saved_interrupt_event_
              = (before_instruction m).2.current_event_))) ∧
    (postponed_due m = true →
      ((before_instruction m).1 = Flow.longjmp 0 ∨
        (before_instruction m).1 = Flow.longjmp 1) ∧
      ((before_instruction m).1 = Flow.longjmp 0 →
        (before_instruction m).2.saved_interrupt_event_ = sync_event.none ∧
        forced_interrupts (before_instruction m).2.log =
          forced_interrupts m.log ++
            [(m.saved_interrupt_event_.interrupt_vector, InterruptType.BX_EXTERNAL_INTERRUPT,
              m.saved_interrupt_event_.fault_error_code)]) ∧
      ((before_instruction m).1 = Flow.longjmp 1 →
        (before_instruction m).2.saved_interrupt_event_ = m.saved_interrupt_event_)) ∧
    (m.saved_interrupt_event_.is_valid = true →
      m.cpu.rip ≠ m.saved_interrupt_event_.interrupt_rip →
      (before_instruction m).2.saved_interrupt_event_.is_valid = true ∧
        (forced_interrupts (before_instruction m).2.log = forced_interrupts m.log ∨
          ((current_event m.sync_file_).is_valid = true ∧
            carries_external_interrupt (current_event m.sync_file_) ∧
            (current_event m.sync_file_).interrupt_rip = m.cpu.rip ∧
            (before_instruction m).2.saved_interrupt_event_ = m.saved_interrupt_event_ ∧
            forced_interrupts (before_instruction m).2.log =
              forced_interrupts m.log ++
                [((current_event m.sync_file_).interrupt_vector,
                  InterruptType.BX_EXTERNAL_INTERRUPT,
                  (current_event m.sync_file_).fault_error_code)]))) ∧
    (m.saved_interrupt_event_.is_valid = true →
      m.cpu.rip ≠ m.saved_interrupt_event_.interrupt_rip →
      (current_event m.sync_file_).is_valid = false →
      (before_instruction m).1 = Flow.longjmp 1 ∧
        (before_instruction m).2.desync_ = false ∧
        (before_instruction m).2.saved_interrupt_event_ = m.saved_interrupt_event_ ∧
        forced_interrupts (before_instruction m).2.log = forced_interrupts m.log) ∧
    (slot_view (after_instruction m).2 = slot_view m ∧
      (∀ vector error_code, slot_view (exception m vector error_code).2 = slot_view m) ∧
      ∀ vector, slot_view (interrupt m vector).2 = slot_view m) := by
  have hnot_due : m.cpu.rip ≠ m.saved_interrupt_event_.interrupt_rip →
      postponed_due m = false := by
    intro h
    simp [postponed_due, h]
  refine ⟨?_, ?_, ?_, ?_, slot_view_after_instruction m, slot_view_exception m,
    slot_view_interrupt m⟩
  · intro hnd hcur hc hr
    by_cases hv : (current_event m.sync_file_).is_valid = true
    · rcases before_instruction_shape m hnd hv with h | ⟨m1, h1, h2, h3, h4, h | h⟩
      · rw [h, check_unmatched_current_event] at hcur
        simp [sync_event.none] at hcur
      · have hm1 : ((handle_current_event m1).andThen check_unmatched).2.current_event_
            = m1.current_event_ := by
          rcases handle_then_check_current_event m1 with hk | hk
          · exact hk
          · rw [h, hk] at hcur
            simp [sync_event.none] at hcur
        rw [h] at hcur hc hr ⊢
        rw [hm1] at hcur hc hr ⊢
        have := (handle_then_check_spec m1 hcur).2.1 hc (by rw [h3]; exact hr)
        refine ⟨by rw [this.1, h4], ?_⟩
        by_cases hflow : ((handle_current_event m1).andThen check_unmatched).1 = Flow.longjmp 1
        · exact Or.inl hflow
        · exact Or.inr (this.2.2 hflow)
      · rw [h]
        exact ⟨by simpa using h4, Or.inl rfl⟩
    · rw [before_instruction_exhausted m hnd (by simpa using hv)] at hcur
      simp [sync_event.none] at hcur
  · intro hd
    rw [before_instruction_due m hd]
    split_ifs with hov
    · exact ⟨Or.inr (by simp), fun h => by simp at h, fun _ => by simp⟩
    · obtain ⟨hs, hf⟩ := slot_view_hook (enter_instruction m) m.saved_interrupt_event_
      have hflow := interrupt_flow
        (delivery_call (enter_instruction m) m.saved_interrupt_event_)
        m.saved_interrupt_event_.interrupt_vector
      generalize interrupt (delivery_call (enter_instruction m) m.saved_interrupt_event_)
        m.saved_interrupt_event_.interrupt_vector = r at hs hf hflow ⊢
      obtain ⟨fl, m1⟩ := r
      simp only [enter_instruction_saved_interrupt_event_, enter_instruction_log] at hs hf
      cases fl with
      | returned =>
        rw [andThen_returned]
        exact ⟨Or.inl rfl, fun _ => ⟨rfl, hf⟩, fun h => by simp at h⟩
      | longjmp v =>
        rcases hflow with hflow | hflow
        · simp at hflow
        · simp only [Flow.longjmp.injEq] at hflow
          subst hflow
          rw [andThen_longjmp]
          exact ⟨Or.inr rfl, fun h => by simp at h, fun _ => hs⟩
  · intro hs hr
    have hnd := hnot_due hr
    by_cases hv : (current_event m.sync_file_).is_valid = true
    · rcases before_instruction_shape m hnd hv with h | ⟨m1, h1, h2, h3, h4, h | h⟩
      · rw [h, check_unmatched_none _ (by simp [sync_event.none])]
        split_ifs <;> simp [hs]
      · have hv1 : m1.current_event_.is_valid = true := by rw [h1]; exact hv
        rw [h]
        by_cases hc : carries_external_interrupt m1.current_event_
        · by_cases hr1 : m1.current_rip_ = m1.current_event_.interrupt_rip
          · obtain ⟨hsv, hrest, _⟩ := (handle_then_check_spec m1 hv1).2.2 hc hr1
            rw [hsv, h2]
            refine ⟨hs, ?_⟩
            rcases hrest with hf | hf
            · exact Or.inl (by rw [hf, h4])
            · refine Or.inr ⟨hv, by rw [← h1]; exact hc, by rw [← h1, ← hr1, h3], rfl, ?_⟩
              rw [hf, h4, h1]
          · obtain ⟨hf, hsv, _⟩ := (handle_then_check_spec m1 hv1).2.1 hc hr1
            refine ⟨?_, Or.inl (by rw [hf, h4])⟩
            rcases hsv with hsv | hsv
            · rw [hsv, h2]; exact hs
            · rw [hsv]; exact hv1
        · obtain ⟨hsv, hf⟩ := (handle_then_check_spec m1 hv1).1 hc
          exact ⟨by rw [hsv, h2]; exact hs, Or.inl (by rw [hf, h4])⟩
      · rw [h]
        exact ⟨by simpa [h2] using hs, Or.inl (by simpa using h4)⟩
    · rw [before_instruction_exhausted m hnd (by simpa using hv)]
      simp [hs]
  · intro hs hr hex
    rw [before_instruction_exhausted m (hnot_due hr) hex]
    simp

/-! ## Forced delivery -/

/-- After a replay up to `tsc` that meets no oversized read, the cursor is
exhausted or on an entry that is not due at `tsc`, and every consumed entry
was due. -/
theorem replayed_up_to (tsc : Nat) (l : List hardware_access)
    (h : meets_oversized_read tsc l = false) :
    (current (l.drop (consumed_entries tsc l).length)).due tsc = false ∧
      ∀ a ∈ consumed_entries tsc l, a.due tsc = true := by
  induction l with
  | nil => simp [consumed_entries, current, hardware_access.none, hardware_access.due]
  | cons a rest ih =>
    by_cases hdue : a.due tsc = true
    · by_cases hov : a.oversized_read = true
      · simp [meets_oversized_read, hdue, hov] at h
      · have h2 : meets_oversized_read tsc rest = false := by
          simpa [meets_oversized_read, hdue, hov] using h
        obtain ⟨ih1, ih2⟩ := ih h2
        have hc : consumed_entries tsc (a :: rest) = a :: consumed_entries tsc rest := by
          simp [consumed_entries, hdue, hov]
        rw [hc]
        refine ⟨by simpa using ih1, ?_⟩
        intro b hb
        rcases List.mem_cons.mp hb with rfl | hb
        · exact hdue
        · exact ih2 b hb
    · simp [consumed_entries, hdue, current]

/-- An immediate delivery whose hook finds the matched event taken at the rip
the engine is leaving: the flags are forced, the hardware accesses replayed up
to the post-state clock and the event cleared, inside the engine call. -/
theorem reconcile_interrupt_immediate (m : Replayer)
    (hv : m.current_event_.is_valid = true)
    (hc : carries_external_interrupt m.current_event_)
    (hr : m.current_rip_ = m.current_event_.interrupt_rip)
    (hp : m.current_event_.interrupt_rip = m.cpu.prev_rip)
    (h1 : meets_oversized_read m.current_event_.start_context.tsc m.hardware_file_ = false)
    (h2 : meets_oversized_read m.current_event_.new_context.tsc
      (m.hardware_file_.drop
        (consumed_entries m.current_event_.start_context.tsc m.hardware_file_).length)
      = false) :
    reconcile_interrupt m =
      (Flow.longjmp 0,
        clear_current_event
          (replayed (force_flags (delivery_call m m.current_event_) m.current_event_.rflags)
            m.current_event_.new_context.tsc)) := by
  have hm : matches_interrupt (delivery_call m m.current_event_)
      m.current_event_.interrupt_vector :=
    ⟨by simpa using hv, by simpa using hc.1, rfl, by simpa using hp⟩
  rw [reconcile_interrupt_eq, if_pos hc, if_neg (not_not.mpr hr),
    if_neg (by rw [h1]; exact Bool.false_ne_true),
    interrupt_current _ _ (by simpa using hv), if_pos hm]
  simp only [delivery_call_current_event_, delivery_call_hardware_file_]
  rw [if_neg (by rw [h2]; exact Bool.false_ne_true), andThen_returned]

theorem matched_boundary_current_event_ (m : Replayer) (ev : sync_event) :
    (matched_boundary m ev).current_event_ = ev := by
  simp [matched_boundary]

/-- With no postponed interrupt due and the pending event matched exactly,
away from the sentinel and the last event, `before_instruction` comes to
`reconcile_interrupt` in the state `matched_boundary`. -/
theorem before_instruction_matched (m : Replayer) (hnd : postponed_due m = false)
    (hv : (current_event m.sync_file_).is_valid = true)
    (hanch : (current_event m.sync_file_).is_first_event_context_unknown = false)
    (hrip : m.cpu.rip = (current_event m.sync_file_).start_rip)
    (hctx : (current_event m.sync_file_).start_context.are_values_equivalent
      (capture_context m).current_ctx_ = true)
    (hfin : is_final_int3 m = false)
    (hlast : (current_event m.sync_file_).is_last_event = false)
    (hov : meets_oversized_read (current_event m.sync_file_).start_context.tsc
      m.hardware_file_ = false) :
    before_instruction m =
      (reconcile_interrupt (matched_boundary m (current_event m.sync_file_))).andThen
        check_unmatched := by
  have hmatch : match_at_boundary (capture_context (enter_instruction m))
      (current_event m.sync_file_) =
      (Flow.returned, match_sync_event (capture_context (enter_instruction m))
        (current_event m.sync_file_) MatchNote.plain) := by
    unfold match_at_boundary
    have h1 : (capture_context (enter_instruction m)).current_rip_ = m.cpu.rip := rfl
    have h2 : (capture_context (enter_instruction m)).current_ctx_ =
        (capture_context m).current_ctx_ := rfl
    simp only [hanch, h1, hrip, h2, hctx, Bool.false_eq_true, if_false, beq_self_eq_true,
      if_true]
  rw [before_instruction_pending m hnd hv, hmatch, andThen_returned]
  unfold matched_boundary
  generalize hm1 : match_sync_event (capture_context (enter_instruction m))
      (current_event m.sync_file_) MatchNote.plain = m1
  have e1 : m1.current_event_ = current_event m.sync_file_ := by rw [← hm1]; simp
  have e2 : m1.i = m.i := by rw [← hm1]; simp
  have e3 : m1.hardware_file_ = m.hardware_file_ := by rw [← hm1]; simp
  have e5 : is_final_int3 m1 = false := by
    rw [← hfin]
    unfold is_final_int3
    rw [e2, ← hm1]
    simp
  rw [handle_current_event_eq m1 (by rw [e1]; exact hv)]
  simp only [e5, Bool.false_eq_true, if_false]
  rw [if_neg (by rw [e1, hlast]; simp), if_neg (by rw [e1, hanch]; simp),
    if_neg (by rw [e1, e3, hov]; simp), e1]

theorem final_int3_without_match_witness :
    (is_final_int3 sentinel_unmatched = true ∧ postponed_due sentinel_unmatched = false ∧
      (current_event sentinel_unmatched.sync_file_).is_valid = true ∧
      (before_instruction sentinel_unmatched).2.sync_file_ = sentinel_unmatched.sync_file_) ∧
    ((before_instruction sentinel_unmatched).1 = Flow.longjmp 1 ∧
      (before_instruction sentinel_unmatched).2.desync_ = true ∧
      (before_instruction sentinel_unmatched).2.kill_bochs_request = true) :=
  ⟨by decide,
    final_int3_without_match sentinel_unmatched (by decide) (by decide) (by decide)
      (by decide)⟩

theorem exhausted_stream_ends_without_desync_witness :
    ((current_event sentinel_exhausted.sync_file_).is_valid = false ∧
      postponed_due sentinel_exhausted = false ∧
      sentinel_exhausted.current_event_.is_valid = false) ∧
    ((before_instruction sentinel_exhausted).1 = Flow.longjmp 1 ∧
      (before_instruction sentinel_exhausted).2.desync_ = false ∧
      (before_instruction sentinel_exhausted).2.kill_bochs_request = true) ∧
    ((exception sentinel_exhausted 14 2).1 = Flow.longjmp 1 ∧
      (exception sentinel_exhausted 14 2).2.desync_ = false ∧
      (exception sentinel_exhausted 14 2).2.kill_bochs_request = true) ∧
    ((interrupt sentinel_exhausted 0x30).1 = Flow.longjmp 1 ∧
      (interrupt sentinel_exhausted 0x30).2.desync_ = false ∧
      (interrupt sentinel_exhausted 0x30).2.kill_bochs_request = true) :=
  ⟨by decide,
    (exhausted_stream_ends_without_desync sentinel_exhausted (by decide)).1 (by decide),
    (exhausted_stream_ends_without_desync sentinel_exhausted (by decide)).2.1 (by decide) 14 2,
    (exhausted_stream_ends_without_desync sentinel_exhausted (by decide)).2.2 (by decide) 0x30⟩

/-- C6, as stated, fails: while a postponed interrupt is due at the rip of the
boundary, `before_instruction` delivers it and aborts the instruction; the
pending event, whose context differs from the live one only in registers that
look like EFLAGS on both sides, is not matched and the cursor does not move. -/
theorem postponed_delivery_preempts_match :
    (flags_boundary_postponed.sync_file_ = [flags_event] ∧ flags_event.is_valid = true ∧
      flags_boundary_postponed.cpu.rip = flags_event.start_rip ∧
      flags_event.has_interrupt = false ∧
      differs_only_in_eflags_like (capture_context flags_boundary_postponed).current_ctx_
        flags_event.start_context) ∧
    (before_instruction flags_boundary_postponed).1 = Flow.longjmp 0 ∧
    (before_instruction flags_boundary_postponed).2.current_event_.is_valid = false ∧
    (before_instruction flags_boundary_postponed).2.sync_file_ = [flags_event] ∧
    matched_positions (before_instruction flags_boundary_postponed).2.log = [] := by
  decide

theorem flags_tolerant_match_witness :
    (flags_boundary.sync_file_ = [flags_event] ∧ flags_event.is_valid = true ∧
      postponed_due flags_boundary = false ∧
      flags_boundary.cpu.rip = flags_event.start_rip ∧ flags_event.has_interrupt = false ∧
      differs_only_in_eflags_like (capture_context flags_boundary).current_ctx_
        flags_event.start_context ∧
      flags_event.start_context.are_values_equivalent
        (capture_context flags_boundary).current_ctx_ = false ∧
      (before_instruction flags_boundary).2.log =
        [Effect.match_sync_event 11 MatchNote.without_eflags, Effect.set_TSC 200]) ∧
    ((before_instruction flags_boundary).2.current_event_ = flags_event ∧
      (before_instruction flags_boundary).2.sync_file_ = [] ∧
      (before_instruction flags_boundary).2.last_sync_point_ = flags_event.position ∧
      matched_positions (before_instruction flags_boundary).2.log
        = matched_positions flags_boundary.log ++ [flags_event.position] ∧
      ((before_instruction flags_boundary).2.desync_ = true →
        flags_boundary.desync_ = true ∨
          meets_oversized_read flags_event.start_context.tsc flags_boundary.hardware_file_
            = true ∨
          meets_oversized_read flags_event.new_context.tsc flags_boundary.hardware_file_
            = true)) :=
  ⟨by decide,
    flags_tolerant_match flags_boundary flags_event [] (by decide) (by decide) (by decide)
      (by decide) (by decide) (by decide)⟩

theorem postponed_interrupt_witness :
    (forced_interrupts (before_instruction late_interrupt_session).2.log
        = forced_interrupts late_interrupt_session.log ∧
      ((before_instruction late_interrupt_session).1 = Flow.longjmp 1 ∨
        ((before_instruction late_interrupt_session).1 = Flow.returned ∧
          (before_instruction late_interrupt_session).2.saved_interrupt_event_
            = (before_instruction late_interrupt_session).2.current_event_))) ∧
    ((before_instruction late_interrupt_session).1 = Flow.returned ∧
      (before_instruction late_interrupt_session).2.saved_interrupt_event_
        = late_interrupt_event) ∧
    ((before_instruction (resumed_boundary 0x1000)).1 = Flow.longjmp 0 ∧
      (before_instruction (resumed_boundary 0x1000)).2.saved_interrupt_event_
        = sync_event.none ∧
      forced_interrupts (before_instruction (resumed_boundary 0x1000)).2.log =
        forced_interrupts (resumed_boundary 0x1000).log ++
          [((resumed_boundary 0x1000).saved_interrupt_event_.interrupt_vector,
            InterruptType.BX_EXTERNAL_INTERRUPT,
            (resumed_boundary 0x1000).saved_interrupt_event_.fault_error_code)]) ∧
    ((before_instruction (resumed_boundary 0x3000)).2.saved_interrupt_event_.is_valid = true ∧
      forced_interrupts (before_instruction (resumed_boundary 0x3000)).2.log
        = forced_interrupts (resumed_boundary 0x3000).log) ∧
    ((before_instruction (later_boundary 0x3000)).1 = Flow.longjmp 1 ∧
      (before_instruction (later_boundary 0x3000)).2.desync_ = false ∧
      (before_instruction (later_boundary 0x3000)).2.saved_interrupt_event_
        = (later_boundary 0x3000).saved_interrupt_event_ ∧
      forced_interrupts (before_instruction (later_boundary 0x3000)).2.log
        = forced_interrupts (later_boundary 0x3000).log) ∧
    ((before_instruction (later_boundary 0x1000)).1 = Flow.longjmp 1 ∧
      (before_instruction (later_boundary 0x1000)).2.desync_ = false ∧
      (before_instruction (later_boundary 0x1000)).2.saved_interrupt_event_
        = (later_boundary 0x1000).saved_interrupt_event_) :=
  ⟨(postponed_interrupt late_interrupt_session).1 (by decide) (by decide) (by decide)
      (by decide),
    by decide,
    ⟨by decide,
      ((postponed_interrupt (resumed_boundary 0x1000)).2.1 (by decide)).2.1 (by decide)⟩,
    ⟨((postponed_interrupt (resumed_boundary 0x3000)).2.2.1 (by decide) (by decide)).1,
      by decide⟩,
    (postponed_interrupt (later_boundary 0x3000)).2.2.2.1 (by decide) (by decide) (by decide),
    ⟨by decide, by decide,
      ((postponed_interrupt (later_boundary 0x1000)).2.1 (by decide)).2.2 (by decide)⟩⟩

theorem exception_do_have_error_code_iff (v : Nat) (h : v < 2 ^ 8) :
    exception_do_have_error_code v = true ↔ v ∈ error_code_vectors := by
  unfold exception_do_have_error_code error_code_vectors
  rw [Nat.mod_eq_of_lt h]
  simp [or_assoc]

theorem exception_check_iff (cur : sync_event) (vector error_code : Nat)
    (hvec : vector < 2 ^ 8 ∨ cur.interrupt_vector < 2 ^ 8) :
    (!cur.is_valid || !cur.has_interrupt || cur.interrupt_vector != vector
      || (exception_do_have_error_code vector && cur.fault_error_code != error_code)) = false
      ↔ accounts_for_exception cur vector error_code := by
  unfold accounts_for_exception
  by_cases hv : cur.interrupt_vector = vector
  · have h8 : vector < 2 ^ 8 := by
      rcases hvec with h | h
      · exact h
      · exact hv ▸ h
    have hiff := exception_do_have_error_code_iff vector h8
    by_cases hl : vector ∈ error_code_vectors
    · simp [hv, hl, hiff.mpr hl, and_assoc]
    · have : exception_do_have_error_code vector = false := by
        cases hc : exception_do_have_error_code vector
        · rfl
        · exact absurd (hiff.mp hc) hl
      simp [hv, hl, this]
  · simp [hv]

theorem exception_two_steps (m : Replayer) (vector error_code : Nat) :
    exception m vector error_code = (exception_attempt m).andThen fun m =>
      if !m.current_event_.is_valid || !m.current_event_.has_interrupt
          || m.current_event_.interrupt_vector != vector
          || (exception_do_have_error_code vector
              && m.current_event_.fault_error_code != error_code) then
        LOG_DESYNC m Message.unmatched_exception
      else
        (Flow.returned, m) := rfl

theorem exception_attempt_returned (m : Replayer)
    (hstream : m.current_event_.is_valid = true ∨ (current_event m.sync_file_).is_valid = true) :
    (exception_attempt m).1 = Flow.returned := by
  unfold exception_attempt match_pending_event
  by_cases hc : m.current_event_.is_valid = true
  · simp [hc]
  · have hp : (current_event m.sync_file_).is_valid = true := by
      rcases hstream with h | h
      · exact absurd h hc
      · exact h
    simp [hc, hp, Result.andThen]

/-- C11, amended. When `exception` does not find the sync stream exhausted
(there is a current event, or the pending event is valid), its match attempt
returns, and the callback returns in the state the attempt left exactly when
the current event then accounts for the exception: it is valid, carries an
interrupt with this vector and, when the vector is one of 8, 10, 11, 12, 13, 14
and 17, this error code. Otherwise the session ends with `desync = true`. For
any other vector the outcome does not depend on the error code. Vectors are
8-bit, on the side of the engine or of the event. -/
theorem exception_desync_unless_matched (m : Replayer) (vector error_code : Nat)
    (hstream : m.current_event_.is_valid = true ∨ (current_event m.sync_file_).is_valid = true)
    (hvec : vector < 2 ^ 8 ∨ (exception_attempt m).2.current_event_.interrupt_vector < 2 ^ 8) :
    (exception_attempt m).1 = Flow.returned ∧
    (accounts_for_exception (exception_attempt m).2.current_event_ vector error_code →
      exception m vector error_code = (Flow.returned, (exception_attempt m).2)) ∧
    (¬ accounts_for_exception (exception_attempt m).2.current_event_ vector error_code →
      (exception m vector error_code).1 = Flow.longjmp 1 ∧
      (exception m vector error_code).2.desync_ = true ∧
      (exception m vector error_code).2.kill_bochs_request = true) ∧
    (vector ∉ error_code_vectors → ∀ error_code2 : Nat,
      exception m vector error_code2 = exception m vector error_code) := by
  have hret := exception_attempt_returned m hstream
  have hiff := fun e => exception_check_iff (exception_attempt m).2.current_event_ vector e hvec
  rcases hr : exception_attempt m with ⟨f, m1⟩
  rw [hr] at hret hiff
  simp only at hret hiff
  subst hret
  refine ⟨rfl, ?_, ?_, ?_⟩
  · intro hacc
    rw [exception_two_steps, hr, andThen_returned, (hiff error_code).mpr hacc]
    simp
  · intro hacc
    have hc : (!m1.current_event_.is_valid || !m1.current_event_.has_interrupt
          || m1.current_event_.interrupt_vector != vector
          || (exception_do_have_error_code vector
              && m1.current_event_.fault_error_code != error_code)) = true := by
      cases hb : (!m1.current_event_.is_valid || !m1.current_event_.has_interrupt
          || m1.current_event_.interrupt_vector != vector
          || (exception_do_have_error_code vector
              && m1.current_event_.fault_error_code != error_code))
      · exact absurd ((hiff error_code).mp hb) hacc
      · rfl
    rw [exception_two_steps, hr, andThen_returned, hc]
    simp
  · intro hl e2
    have h12 : accounts_for_exception m1.current_event_ vector e2 ↔
        accounts_for_exception m1.current_event_ vector error_code := by
      unfold accounts_for_exception
      simp [hl]
    rw [exception_two_steps, exception_two_steps, hr, andThen_returned, andThen_returned]
    by_cases hacc : accounts_for_exception m1.current_event_ vector error_code
    · rw [(hiff error_code).mpr hacc, (hiff e2).mpr (h12.mpr hacc)]
    · have hb : ∀ e, ¬ accounts_for_exception m1.current_event_ vector e →
          (!m1.current_event_.is_valid || !m1.current_event_.has_interrupt
          || m1.current_event_.interrupt_vector != vector
          || (exception_do_have_error_code vector
              && m1.current_event_.fault_error_code != e)) = true := by
        intro e he
        cases hb : (!m1.current_event_.is_valid || !m1.current_event_.has_interrupt
          || m1.current_event_.interrupt_vector != vector
          || (exception_do_have_error_code vector
              && m1.current_event_.fault_error_code != e))
        · exact absurd ((hiff e).mp hb) he
        · rfl
      rw [hb error_code hacc, hb e2 (fun h => hacc (h12.mp h))]

theorem exception_desync_unless_matched_witness :
    (exception_attempt page_fault_boundary).2.current_event_ = page_fault_event ∧
    exception page_fault_boundary 14 2 =
      (Flow.returned, (exception_attempt page_fault_boundary).2) ∧
    (exception page_fault_boundary 14 3).1 = Flow.longjmp 1 ∧
    (exception page_fault_boundary 14 3).2.desync_ = true :=
  ⟨by decide,
   (exception_desync_unless_matched page_fault_boundary 14 2 (by decide) (by decide)).2.1
     (by decide),
   ((exception_desync_unless_matched page_fault_boundary 14 3 (by decide) (by decide)).2.2.1
     (by decide)).1,
   ((exception_desync_unless_matched page_fault_boundary 14 3 (by decide) (by decide)).2.2.1
     (by decide)).2.1⟩

/-- C11, as stated, fails: on an exhausted stream with no current event,
`exception` ends the session with `desync = false`, although no current event
accounts for the exception. -/
theorem exception_on_exhausted_stream :
    sentinel_exhausted.current_event_.is_valid = false ∧
    (current_event sentinel_exhausted.sync_file_).is_valid = false ∧
    (exception sentinel_exhausted 14 2).1 = Flow.longjmp 1 ∧
    (exception sentinel_exhausted 14 2).2.current_event_.is_valid = false ∧
    (exception sentinel_exhausted 14 2).2.desync_ = false := by
  decide

/-! ## Flags forced by `interrupt` -/

/-- C12. When the match attempt of `interrupt` returns in a state `m1` whose
current event carries an interrupt with this vector and `interrupt_rip` equal
to the previous rip of the engine, the callback leaves CF, PF, AF, ZF, SF, TF,
IF, DF and OF equal to bits 0, 2, 4, 6, 7, 8, 9, 10 and 11 of the recorded
flags and IOPL equal to bits 12-13, logging only warnings for the corrections,
and sets the clock to the post-state clock of the event. Unless the hardware
replay meets an oversized read (which ends the session), the callback returns
with no current event, the desync flag untouched and the hardware stream
replayed up to that clock. -/
theorem interrupt_forces_recorded_flags (m m1 : Replayer) (vector : Nat)
    (hattempt : interrupt_attempt m vector = (Flow.returned, m1))
    (hmatch : matches_interrupt m1 vector) :
    ((interrupt m vector).2.cpu.CF = (m1.current_event_.rflags.testBit 0).toNat ∧
      (interrupt m vector).2.cpu.PF = (m1.current_event_.rflags.testBit 2).toNat ∧
      (interrupt m vector).2.cpu.AF = (m1.current_event_.rflags.testBit 4).toNat ∧
      (interrupt m vector).2.cpu.ZF = (m1.current_event_.rflags.testBit 6).toNat ∧
      (interrupt m vector).2.cpu.SF = (m1.current_event_.rflags.testBit 7).toNat ∧
      (interrupt m vector).2.cpu.TF = (m1.current_event_.rflags.testBit 8).toNat ∧
      (interrupt m vector).2.cpu.IF = (m1.current_event_.rflags.testBit 9).toNat ∧
      (interrupt m vector).2.cpu.DF = (m1.current_event_.rflags.testBit 10).toNat ∧
      (interrupt m vector).2.cpu.OF = (m1.current_event_.rflags.testBit 11).toNat ∧
      (interrupt m vector).2.cpu.IOPL = m1.current_event_.rflags / 2 ^ 12 % 4) ∧
    (interrupt m vector).2.cpu.tsc = m1.current_event_.new_context.tsc ∧
    ∃ warnings : List Effect, (∀ e ∈ warnings, ∃ name, e = Effect.warn_forcing_flag name) ∧
      if meets_oversized_read m1.current_event_.new_context.tsc m1.hardware_file_ then
        (interrupt m vector).1 = Flow.longjmp 1 ∧ (interrupt m vector).2.desync_ = true
      else
        (interrupt m vector).1 = Flow.returned ∧
        (interrupt m vector).2.current_event_ = sync_event.none ∧
        (interrupt m vector).2.desync_ = m1.desync_ ∧
        (interrupt m vector).2.kill_bochs_request = m1.kill_bochs_request ∧
        (interrupt m vector).2.log = m1.log ++ warnings ++
          Effect.set_TSC m1.current_event_.new_context.tsc ::
            (consumed_entries m1.current_event_.new_context.tsc m1.hardware_file_).flatMap
              (access_effects m1.cpu) ∧
        (interrupt m vector).2.hardware_file_ = m1.hardware_file_.drop
          (consumed_entries m1.current_event_.new_context.tsc m1.hardware_file_).length ∧
        (current (interrupt m vector).2.hardware_file_).due
          m1.current_event_.new_context.tsc = false := by
  obtain ⟨h1, h2, h3, h4⟩ := hmatch
  have hc : (!m1.current_event_.is_valid || !m1.current_event_.has_interrupt
          || m1.current_event_.interrupt_vector != vector
          || m1.current_event_.interrupt_rip != m1.cpu.prev_rip) = false := by
    simp [h1, h2, h3, h4]
  have hhw : (force_flags m1 m1.current_event_.rflags).hardware_file_ = m1.hardware_file_ := by
    rw [force_flags_eq]
  have hfx : ∀ l : List hardware_access,
      l.flatMap (access_effects (force_flags m1 m1.current_event_.rflags).cpu) =
        l.flatMap (access_effects m1.cpu) := by
    intro l
    rw [force_flags_eq]
    congr 1
  obtain ⟨warnings, hw1, hw2⟩ := force_flags_warnings m1 m1.current_event_.rflags
  rw [interrupt_two_steps, hattempt, andThen_returned, hc]
  simp only [Bool.false_eq_true, if_false]
  rw [apply_hardware_access_eq, hhw]
  by_cases hov : meets_oversized_read m1.current_event_.new_context.tsc m1.hardware_file_ = true
  · rw [if_pos hov, andThen_LOG_DESYNC]
    refine ⟨?_, ?_, warnings, hw1, ?_⟩
    · simp only [LOG_DESYNC_cpu, replayed]
      exact force_flags_flags m1 _
    · simp only [LOG_DESYNC_cpu, replayed]
    · rw [if_pos hov]
      exact ⟨rfl, LOG_DESYNC_desync_ _ _⟩
  · rw [if_neg hov, andThen_returned]
    have hov2 : meets_oversized_read m1.current_event_.new_context.tsc m1.hardware_file_
        = false := by simpa using hov
    refine ⟨?_, ?_, warnings, hw1, ?_⟩
    · simp only [replayed]
      exact force_flags_flags m1 _
    · simp only [replayed]
    rw [if_neg hov]
    refine ⟨rfl, rfl, ?_, ?_, ?_, ?_, ?_⟩
    · simp only [replayed, force_flags_eq]
    · simp only [replayed, force_flags_eq]
    · simp only [replayed, hhw, hfx, hw2]
    · simp [replayed, hhw]
    · simp only [replayed, hhw]
      exact (replayed_up_to _ _ hov2).1

theorem interrupt_forces_recorded_flags_witness :
    (interrupt_attempt flagged_interrupt_boundary 0x30 =
        (Flow.returned, (interrupt_attempt flagged_interrupt_boundary 0x30).2) ∧
      matches_interrupt (interrupt_attempt flagged_interrupt_boundary 0x30).2 0x30 ∧
      (interrupt_attempt flagged_interrupt_boundary 0x30).2.current_event_ =
        flagged_interrupt_event) ∧
    ((interrupt flagged_interrupt_boundary 0x30).2.cpu.CF =
        (flagged_interrupt_event.rflags.testBit 0).toNat ∧
      (interrupt flagged_interrupt_boundary 0x30).2.cpu.PF =
        (flagged_interrupt_event.rflags.testBit 2).toNat) ∧
    (interrupt flagged_interrupt_boundary 0x30).2.cpu.tsc = 9 ∧
    ((interrupt flagged_interrupt_boundary 0x30).1 = Flow.returned ∧
      (interrupt flagged_interrupt_boundary 0x30).2.current_event_ = sync_event.none ∧
      (interrupt flagged_interrupt_boundary 0x30).2.desync_ = false ∧
      (interrupt flagged_interrupt_boundary 0x30).2.hardware_file_ = [] ∧
      (interrupt flagged_interrupt_boundary 0x30).2.cpu.CF = 1 ∧
      (interrupt flagged_interrupt_boundary 0x30).2.cpu.TF = 0 ∧
      (interrupt flagged_interrupt_boundary 0x30).2.cpu.OF = 1 ∧
      (interrupt flagged_interrupt_boundary 0x30).2.cpu.IOPL = 3) :=
  ⟨by decide,
    ⟨(interrupt_forces_recorded_flags flagged_interrupt_boundary
        (interrupt_attempt flagged_interrupt_boundary 0x30).2 0x30 (by decide) (by decide)).1.1,
      (interrupt_forces_recorded_flags flagged_interrupt_boundary
        (interrupt_attempt flagged_interrupt_boundary 0x30).2 0x30 (by decide)
        (by decide)).1.2.1⟩,
    (interrupt_forces_recorded_flags flagged_interrupt_boundary
      (interrupt_attempt flagged_interrupt_boundary 0x30).2 0x30 (by decide) (by decide)).2.1,
    by decide⟩

/-! ## Hardware replay up to a clock value -/

theorem consumed_entries_mem (t : Nat) (l : List hardware_access) :
    ∀ a ∈ consumed_entries t l, a.due t = true ∧ a.oversized_read = false := by
  induction l with
  | nil => simp [consumed_entries]
  | cons a rest ih =>
    by_cases hc : (a.due t && !a.oversized_read) = true
    · intro b hb
      simp only [consumed_entries, hc, if_true, List.mem_cons] at hb
      rcases hb with rfl | hb
      · simpa using hc
      · exact ih b hb
    · simp [consumed_entries, hc]

theorem apply_hardware_access_flow (m : Replayer) (t : Nat) :
    (apply_hardware_access m t).1 =
      if meets_oversized_read t m.hardware_file_ then Flow.longjmp 1 else Flow.returned := by
  rw [apply_hardware_access_eq]
  split <;> simp

theorem apply_hardware_access_tsc (m : Replayer) (t : Nat) :
    (apply_hardware_access m t).2.cpu.tsc = t := by
  rw [apply_hardware_access_eq]
  split <;> simp [replayed]

theorem apply_hardware_access_hardware_file_ (m : Replayer) (t : Nat) :
    (apply_hardware_access m t).2.hardware_file_ =
      m.hardware_file_.drop (consumed_entries t m.hardware_file_).length := by
  rw [apply_hardware_access_eq]
  split <;> simp [replayed]

theorem apply_hardware_access_log (m : Replayer) (t : Nat) :
    (apply_hardware_access m t).2.log =
      m.log ++ Effect.set_TSC t ::
        ((consumed_entries t m.hardware_file_).flatMap (access_effects m.cpu) ++
          if meets_oversized_read t m.hardware_file_ then
            [Effect.message Message.read_access_bigger_than_maximum, Effect.end_of_scenario true]
          else []) := by
  rw [apply_hardware_access_eq]
  split <;> simp [replayed]

theorem apply_hardware_access_desync_ (m : Replayer) (t : Nat) :
    (apply_hardware_access m t).2.desync_ =
      if meets_oversized_read t m.hardware_file_ then true else m.desync_ := by
  rw [apply_hardware_access_eq]
  split <;> simp [replayed]

theorem apply_hardware_access_kill_bochs_request (m : Replayer) (t : Nat) :
    (apply_hardware_access m t).2.kill_bochs_request =
      if meets_oversized_read t m.hardware_file_ then true else m.kill_bochs_request := by
  rw [apply_hardware_access_eq]
  split <;> simp [replayed]

theorem takeWhile_due_of_valid (t : Nat) (l : List hardware_access)
    (h : ∀ a ∈ l, a.valid = true) :
    l.takeWhile (fun a => a.due t) = l.takeWhile (fun a => decide (a.tsc ≤ t)) := by
  induction l with
  | nil => rfl
  | cons a rest ih =>
    have ha := h a (List.mem_cons_self a rest)
    have ih2 := ih fun b hb => h b (List.mem_cons_of_mem a hb)
    have hd : a.due t = decide (a.tsc ≤ t) := by
      simp only [hardware_access.due, ha, Bool.true_and]
    rw [List.takeWhile_cons, List.takeWhile_cons, hd, ih2]

/-- C13. When no oversized read is among the entries it processes,
`apply_hardware_access(t)` returns with the clock of the engine set to `t`
and has consumed exactly the longest prefix of the cursor whose entries are
due (valid, with `tsc <= t`; on a stream of valid entries: with `tsc <= t`):
the cursor is left on the rest, where `current()` is not valid or has
`tsc > t`, and the log grows by the clock update followed by the transfers of
the consumed entries, in order, and by nothing else. -/
theorem apply_hardware_access_consumes_due_entries (m : Replayer) (t : Nat)
    (hsize : meets_oversized_read t m.hardware_file_ = false) :
    (apply_hardware_access m t).1 = Flow.returned ∧
    (apply_hardware_access m t).2.cpu.tsc = t ∧
    m.hardware_file_ = m.hardware_file_.takeWhile (fun a => a.due t) ++
      (apply_hardware_access m t).2.hardware_file_ ∧
    (∀ a ∈ m.hardware_file_.takeWhile (fun a => a.due t), a.valid = true ∧ a.tsc ≤ t) ∧
    ((current (apply_hardware_access m t).2.hardware_file_).valid = false ∨
      t < (current (apply_hardware_access m t).2.hardware_file_).tsc) ∧
    (apply_hardware_access m t).2.log = m.log ++ Effect.set_TSC t ::
      (m.hardware_file_.takeWhile (fun a => a.due t)).flatMap (access_effects m.cpu) ∧
    ((∀ a ∈ m.hardware_file_, a.valid = true) →
      m.hardware_file_.takeWhile (fun a => a.due t) =
        m.hardware_file_.takeWhile (fun a => decide (a.tsc ≤ t))) := by
  have htw := consumed_entries_eq_takeWhile t m.hardware_file_ hsize
  have hup := replayed_up_to t m.hardware_file_ hsize
  have hsplit := consumed_entries_append_drop t m.hardware_file_
  rw [apply_hardware_access_flow, apply_hardware_access_tsc, apply_hardware_access_hardware_file_,
    apply_hardware_access_log, hsize]
  rw [htw] at hup hsplit ⊢
  refine ⟨by simp, rfl, hsplit.symm, ?_, ?_, by simp, takeWhile_due_of_valid t _⟩
  · intro a ha
    have := hup.2 a ha
    simpa [hardware_access.due] using this
  · have := hup.1
    simp only [hardware_access.due, Bool.and_eq_false_iff, decide_eq_false_iff_not, not_le] at this
    exact this

/-! ## The hardware cursor over a session -/

theorem hw_eq {a b : List hardware_access} (h : a = b) : a <:+ b :=
  h ▸ List.suffix_refl _

theorem hw_seq {l : List hardware_access} {r : Result} {k : Replayer → Result}
    (h1 : r.2.hardware_file_ <:+ l)
    (h2 : ∀ m1, (k m1).2.hardware_file_ <:+ m1.hardware_file_) :
    (r.andThen k).2.hardware_file_ <:+ l := by
  obtain ⟨f, m1⟩ := r
  cases f with
  | returned => exact (h2 m1).trans h1
  | longjmp val => exact h1

theorem hw_apply_hardware_access (m : Replayer) (tsc : Nat) :
    (apply_hardware_access m tsc).2.hardware_file_ <:+ m.hardware_file_ := by
  rw [apply_hardware_access_hardware_file_]
  exact List.drop_suffix _ _

theorem hw_LOG_DESYNC (m : Replayer) (msg : Message) :
    (LOG_DESYNC m msg).2.hardware_file_ <:+ m.hardware_file_ :=
  hw_eq (by simp)

theorem hw_LOG_END_REPLAY (m : Replayer) (msg : Message) :
    (LOG_END_REPLAY m msg).2.hardware_file_ <:+ m.hardware_file_ :=
  hw_eq (by simp)

theorem hw_apply_sync_event (m : Replayer) (ev : sync_event) :
    (apply_sync_event m ev).2.hardware_file_ <:+ m.hardware_file_ := by
  unfold apply_sync_event
  refine hw_seq (hw_apply_hardware_access _ _) fun m1 => ?_
  split
  · exact hw_eq (by simp)
  · exact List.suffix_refl _

theorem hw_match_at_event (m : Replayer) (ev : sync_event) (exact tolerant : MatchNote) :
    (match_at_event m ev exact tolerant).hardware_file_ = m.hardware_file_ := by
  unfold match_at_event
  split_ifs <;> simp

theorem hw_match_pending_event (m : Replayer) (exact tolerant : MatchNote) :
    (match_pending_event m exact tolerant).2.hardware_file_ <:+ m.hardware_file_ := by
  unfold match_pending_event
  refine hw_seq ?_ fun m1 => hw_eq (hw_match_at_event _ _ _ _)
  split
  · exact hw_LOG_END_REPLAY _ _
  · exact List.suffix_refl _

theorem hw_check_matched_vector (m : Replayer) (vector : Nat) :
    (check_matched_vector m vector).2.hardware_file_ <:+ m.hardware_file_ := by
  unfold check_matched_vector
  split_ifs
  · exact List.suffix_refl _
  · exact hw_LOG_DESYNC _ _
  · exact List.suffix_refl _

theorem hw_interrupt (m : Replayer) (vector : Nat) :
    (interrupt m vector).2.hardware_file_ <:+ m.hardware_file_ := by
  unfold interrupt
  refine hw_seq ?_ fun m1 => ?_
  · split
    · exact hw_seq (hw_match_pending_event m _ _) fun m2 => hw_check_matched_vector m2 vector
    · exact List.suffix_refl _
  · split
    · exact List.suffix_refl _
    · refine hw_seq ?_ fun _ => List.suffix_refl _
      exact (hw_apply_hardware_access _ _).trans (hw_eq (by rw [force_flags_eq]))

theorem hw_simulate_interrupt (m : Replayer) (ev : sync_event) :
    (simulate_interrupt m ev).2.hardware_file_ <:+ m.hardware_file_ := by
  unfold simulate_interrupt BX_CPU_interrupt bx_instr_interrupt
  refine hw_seq (hw_apply_hardware_access _ _) fun m1 => ?_
  exact (hw_interrupt _ _).trans (hw_eq (by simp))

theorem hw_nop_emulated_instruction (m : Replayer) :
    (nop_emulated_instruction m).hardware_file_ = m.hardware_file_ := by
  simp

theorem hw_reconcile_interrupt (m : Replayer) :
    (reconcile_interrupt m).2.hardware_file_ <:+ m.hardware_file_ := by
  unfold reconcile_interrupt
  split_ifs
  · exact hw_eq (by simp)
  · exact hw_seq (hw_simulate_interrupt _ _) fun _ => List.suffix_refl _
  · exact List.suffix_refl _
  · exact List.suffix_refl _

theorem hw_handle_current_event (m : Replayer) :
    (handle_current_event m).2.hardware_file_ <:+ m.hardware_file_ := by
  unfold handle_current_event
  split
  · refine hw_seq ?_ fun m1 => hw_seq ?_ fun m2 => hw_seq ?_ fun m3 => ?_
    · split
      · exact hw_LOG_END_REPLAY _ _
      · exact List.suffix_refl _
    · split
      · exact hw_LOG_END_REPLAY _ _
      · exact List.suffix_refl _
    · split
      · exact hw_apply_hardware_access _ _
      · exact List.suffix_refl _
    · exact (hw_reconcile_interrupt _).trans (hw_eq (hw_nop_emulated_instruction m3))
  · exact List.suffix_refl _

theorem hw_check_unmatched (m : Replayer) :
    (check_unmatched m).2.hardware_file_ <:+ m.hardware_file_ := by
  unfold check_unmatched
  refine hw_seq ?_ fun m1 => ?_
  · split_ifs
    · exact hw_LOG_DESYNC _ _
    · exact List.suffix_refl _
    · exact List.suffix_refl _
  · split
    · refine hw_seq ?_ fun m2 => ?_
      · split
        · exact hw_LOG_DESYNC _ _
        · exact List.suffix_refl _
      · split <;> exact List.suffix_refl _
    · exact List.suffix_refl _

theorem hw_after_instruction (m : Replayer) :
    (after_instruction m).2.hardware_file_ <:+ m.hardware_file_ := by
  unfold after_instruction retire_current_event
  split
  · refine hw_seq ?_ fun m1 => hw_seq ?_ fun m2 => List.suffix_refl _
    · split
      · exact hw_LOG_DESYNC _ _
      · exact List.suffix_refl _
    · split
      · exact hw_apply_sync_event _ _
      · exact List.suffix_refl _
  · exact List.suffix_refl _

theorem hw_match_at_boundary (m : Replayer) (ev : sync_event) :
    (match_at_boundary m ev).2.hardware_file_ <:+ m.hardware_file_ := by
  unfold match_at_boundary
  split_ifs
  · exact (hw_apply_sync_event _ _).trans (hw_eq (by simp))
  · exact hw_eq (by simp)
  · exact hw_eq (by simp)
  · exact List.suffix_refl _
  · exact List.suffix_refl _

theorem hw_before_instruction (m : Replayer) :
    (before_instruction m).2.hardware_file_ <:+ m.hardware_file_ := by
  unfold before_instruction
  split
  · exact hw_seq (hw_simulate_interrupt _ _) fun _ => List.suffix_refl _
  · refine hw_seq ?_ fun m1 => hw_seq ?_ fun m2 => hw_seq (hw_handle_current_event m2)
      hw_check_unmatched
    · split
      · exact hw_LOG_END_REPLAY _ _
      · exact List.suffix_refl _
    · exact hw_match_at_boundary _ _

theorem hw_exception (m : Replayer) (vector error_code : Nat) :
    (exception m vector error_code).2.hardware_file_ <:+ m.hardware_file_ := by
  unfold exception
  refine hw_seq ?_ fun m1 => ?_
  · split
    · exact hw_match_pending_event _ _ _
    · exact List.suffix_refl _
  · split
    · exact hw_LOG_DESYNC _ _
    · exact List.suffix_refl _

theorem hw_call (m : Replayer) (c : Callback) :
    (c.call m).2.hardware_file_ <:+ m.hardware_file_ := by
  cases c with
  | before_instruction cpu i => exact hw_before_instruction { m with cpu := cpu, i := i }
  | after_instruction cpu i => exact hw_after_instruction { m with cpu := cpu, i := i }
  | exception cpu vector error_code => exact hw_exception { m with cpu := cpu } vector error_code
  | interrupt cpu vector => exact hw_interrupt { m with cpu := cpu } vector

theorem hw_run (cs : List Callback) :
    ∀ m : Replayer, (run m cs).hardware_file_ <:+ m.hardware_file_ := by
  induction cs with
  | nil => intro m; exact List.suffix_refl _
  | cons c cs ih =>
    intro m
    unfold run
    split
    · exact hw_call m c
    · exact (ih _).trans (hw_call m c)

/-- C14. A second `apply_hardware_access(t)` directly after the first leaves
the cursor where the first left it and logs no transfer: only the clock
update (and, when the first call stopped at an oversized read, the same
desync again). Over any sequence of `apply_hardware_access` calls, and over
any session of callbacks (`before_instruction`, `after_instruction`,
`exception`, `interrupt`), the cursor is a suffix of the cursor at the
start. -/
theorem apply_hardware_access_again (m : Replayer) (t : Nat) :
    (apply_hardware_access (apply_hardware_access m t).2 t).2.hardware_file_ =
      (apply_hardware_access m t).2.hardware_file_ ∧
    (apply_hardware_access (apply_hardware_access m t).2 t).2.log =
      (apply_hardware_access m t).2.log ++ Effect.set_TSC t ::
        (if meets_oversized_read t m.hardware_file_ then
          [Effect.message Message.read_access_bigger_than_maximum, Effect.end_of_scenario true]
        else []) ∧
    (∀ ts : List Nat, ∃ consumed : List hardware_access,
      m.hardware_file_ = consumed ++ (apply_hardware_accesses m ts).hardware_file_) ∧
    ∀ cs : List Callback, ∃ consumed : List hardware_access,
      m.hardware_file_ = consumed ++ (run m cs).hardware_file_ := by
  refine ⟨?_, ?_, ?_, ?_⟩
  rotate_left 3
  · intro cs
    obtain ⟨consumed, h⟩ := hw_run cs m
    exact ⟨consumed, h.symm⟩
  · rw [apply_hardware_access_hardware_file_ (apply_hardware_access m t).2,
      apply_hardware_access_hardware_file_ m t, consumed_entries_drop]
    rfl
  · rw [apply_hardware_access_log (apply_hardware_access m t).2,
      apply_hardware_access_hardware_file_ m t, consumed_entries_drop, meets_oversized_read_drop]
    rfl
  · intro ts
    induction ts generalizing m with
    | nil => exact ⟨[], rfl⟩
    | cons t2 ts ih =>
      obtain ⟨c2, hc2⟩ := ih (apply_hardware_access m t2).2
      refine ⟨consumed_entries t2 m.hardware_file_ ++ c2, ?_⟩
      rw [apply_hardware_access_hardware_file_] at hc2
      simp only [apply_hardware_accesses]
      rw [List.append_assoc, ← hc2, consumed_entries_append_drop]

theorem oversized_read_iff (a : hardware_access) :
    a.oversized_read = true ↔ a.is_write = false ∧ 102400 < a.data.length := by
  simp [hardware_access.oversized_read, read_data_size]

theorem not_oversized_read_iff (a : hardware_access) :
    a.oversized_read = false ↔ a.is_write = true ∨ a.data.length ≤ 102400 := by
  cases hw : a.is_write <;> simp [hardware_access.oversized_read, read_data_size, hw]

theorem meets_oversized_read_of_split (t : Nat) (pre : List hardware_access)
    (a : hardware_access) (post : List hardware_access)
    (hpre : ∀ b ∈ pre, b.due t = true ∧ b.oversized_read = false)
    (hdue : a.due t = true) (hov : a.oversized_read = true) :
    meets_oversized_read t (pre ++ a :: post) = true ∧
      consumed_entries t (pre ++ a :: post) = pre := by
  induction pre with
  | nil => simp [meets_oversized_read, consumed_entries, hdue, hov]
  | cons b pre ih =>
    have hb := hpre b (List.mem_cons_self b pre)
    have ih2 := ih fun c hc => hpre c (List.mem_cons_of_mem b hc)
    simp [meets_oversized_read, consumed_entries, hb.1, hb.2, ih2.1, ih2.2]

/-- C15. The bound `read_data_size` is 102400 bytes. When the entries that
`apply_hardware_access(t)` processes lead to a read of more than 102400 bytes
(after due entries that are writes or reads of at most 102400 bytes), the
session ends with `desync = true`, the cursor still on that read and the log
holding the transfers of the entries before it only. Otherwise the call
returns, the desync flag is untouched, and every consumed entry is a write or
a read of at most 102400 bytes. The desync happens in exactly that
situation. -/
theorem oversized_read_ends_replay (m : Replayer) (t : Nat) :
    read_data_size = 102400 ∧
    (meets_oversized_read t m.hardware_file_ = true →
      ∃ pre a post, m.hardware_file_ = pre ++ a :: post ∧
        (∀ b ∈ pre, b.due t = true ∧ (b.is_write = true ∨ b.data.length ≤ 102400)) ∧
        (a.due t = true ∧ a.is_write = false ∧ 102400 < a.data.length) ∧
        (apply_hardware_access m t).1 = Flow.longjmp 1 ∧
        (apply_hardware_access m t).2.desync_ = true ∧
        (apply_hardware_access m t).2.kill_bochs_request = true ∧
        (apply_hardware_access m t).2.hardware_file_ = a :: post ∧
        (apply_hardware_access m t).2.log = m.log ++ Effect.set_TSC t ::
          (pre.flatMap (access_effects m.cpu) ++
            [Effect.message Message.read_access_bigger_than_maximum,
              Effect.end_of_scenario true])) ∧
    (meets_oversized_read t m.hardware_file_ = false →
      (apply_hardware_access m t).1 = Flow.returned ∧
      (apply_hardware_access m t).2.desync_ = m.desync_ ∧
      (apply_hardware_access m t).2.kill_bochs_request = m.kill_bochs_request ∧
      ∃ consumed, m.hardware_file_ = consumed ++ (apply_hardware_access m t).2.hardware_file_ ∧
        (∀ b ∈ consumed, b.is_write = true ∨ b.data.length ≤ 102400) ∧
        (apply_hardware_access m t).2.log = m.log ++ Effect.set_TSC t ::
          consumed.flatMap (access_effects m.cpu)) ∧
    ((∃ pre a post, m.hardware_file_ = pre ++ a :: post ∧
        (∀ b ∈ pre, b.due t = true ∧ (b.is_write = true ∨ b.data.length ≤ 102400)) ∧
        a.due t = true ∧ a.is_write = false ∧ 102400 < a.data.length) →
      meets_oversized_read t m.hardware_file_ = true) := by
  refine ⟨rfl, ?_, ?_, ?_⟩
  · intro h
    obtain ⟨a, post, hdrop, hdue, hov⟩ := meets_oversized_read_head t m.hardware_file_ h
    have hsplit := consumed_entries_append_drop t m.hardware_file_
    rw [hdrop] at hsplit
    refine ⟨consumed_entries t m.hardware_file_, a, post, hsplit.symm, ?_,
      ⟨hdue, (oversized_read_iff a).mp hov⟩, ?_, ?_, ?_, ?_, ?_⟩
    · intro b hb
      have := consumed_entries_mem t m.hardware_file_ b hb
      exact ⟨this.1, (not_oversized_read_iff b).mp this.2⟩
    · rw [apply_hardware_access_flow, h]
      rfl
    · rw [apply_hardware_access_desync_, h]
      rfl
    · rw [apply_hardware_access_kill_bochs_request, h]
      rfl
    · rw [apply_hardware_access_hardware_file_, hdrop]
    · rw [apply_hardware_access_log, h]
      rfl
  · intro h
    refine ⟨?_, ?_, ?_, consumed_entries t m.hardware_file_, ?_, ?_, ?_⟩
    · rw [apply_hardware_access_flow, h]
      rfl
    · rw [apply_hardware_access_desync_, h]
      rfl
    · rw [apply_hardware_access_kill_bochs_request, h]
      rfl
    · rw [apply_hardware_access_hardware_file_, consumed_entries_append_drop]
    · intro b hb
      exact (not_oversized_read_iff b).mp (consumed_entries_mem t m.hardware_file_ b hb).2
    · rw [apply_hardware_access_log, h]
      simp
  · rintro ⟨pre, a, post, hsplit, hpre, hdue, hw, hlen⟩
    rw [hsplit]
    exact (meets_oversized_read_of_split t pre a post
      (fun b hb => ⟨(hpre b hb).1, (not_oversized_read_iff b).mpr (hpre b hb).2⟩) hdue
      ((oversized_read_iff a).mpr ⟨hw, hlen⟩)).1

theorem oversized_read_ends_replay_witness :
    meets_oversized_read 9 oversized_replay_start.hardware_file_ = true ∧
    ∃ pre a post, oversized_replay_start.hardware_file_ = pre ++ a :: post ∧
        (∀ b ∈ pre, b.due 9 = true ∧ (b.is_write = true ∨ b.data.length ≤ 102400)) ∧
        (a.due 9 = true ∧ a.is_write = false ∧ 102400 < a.data.length) ∧
        (apply_hardware_access oversized_replay_start 9).1 = Flow.longjmp 1 ∧
        (apply_hardware_access oversized_replay_start 9).2.desync_ = true ∧
        (apply_hardware_access oversized_replay_start 9).2.kill_bochs_request = true ∧
        (apply_hardware_access oversized_replay_start 9).2.hardware_file_ = a :: post ∧
        (apply_hardware_access oversized_replay_start 9).2.log =
          oversized_replay_start.log ++ Effect.set_TSC 9 ::
          (pre.flatMap (access_effects oversized_replay_start.cpu) ++
            [Effect.message Message.read_access_bigger_than_maximum,
              Effect.end_of_scenario true]) :=
  have h : meets_oversized_read 9 oversized_replay_start.hardware_file_ = true := by
    have e : oversized_replay_start.hardware_file_ =
        [large_write_at_7, full_read_at_8, oversized_read_at_8] := rfl
    have h1 : large_write_at_7.due 9 = true := rfl
    have h2 : large_write_at_7.oversized_read = false := rfl
    have h3 : full_read_at_8.due 9 = true := rfl
    have h4 : full_read_at_8.oversized_read = false := by
      simp only [hardware_access.oversized_read, full_read_at_8, List.length_replicate,
        read_data_size]
      decide
    have h5 : oversized_read_at_8.due 9 = true := rfl
    have h6 : oversized_read_at_8.oversized_read = true := by
      simp only [hardware_access.oversized_read, oversized_read_at_8, List.length_replicate,
        read_data_size]
      decide
    rw [e]
    simp only [meets_oversized_read, h1, h2, h3, h4, h5, h6, if_true, Bool.false_eq_true,
      if_false]
  ⟨h, (oversized_read_ends_replay oversized_replay_start 9).2.1 h⟩

theorem apply_hardware_access_consumes_due_entries_witness :
    meets_oversized_read 9 replay_start.hardware_file_ = false ∧
    (apply_hardware_access replay_start 9).1 = Flow.returned ∧
    (apply_hardware_access replay_start 9).2.cpu.tsc = 9 ∧
    replay_start.hardware_file_ = replay_start.hardware_file_.takeWhile (fun a => a.due 9) ++
      (apply_hardware_access replay_start 9).2.hardware_file_ ∧
    (apply_hardware_access replay_start 9).2.hardware_file_ =
      [hardware_access.none, hardware_write_at_12] :=
  ⟨by decide,
    (apply_hardware_access_consumes_due_entries replay_start 9 (by decide)).1,
    (apply_hardware_access_consumes_due_entries replay_start 9 (by decide)).2.1,
    (apply_hardware_access_consumes_due_entries replay_start 9 (by decide)).2.2.1,
    by decide⟩

/-! ## RMW tracker -/

/-- C16, amended. After at most two `register_new_access` calls on a cleared
tracker with pairwise distinct physical addresses, every call has succeeded,
`get_linear_address(p)` returns the registered linear address for each
registered `p` and 0 for every `p` that was not registered. At the
physical-access phase a registered pair whose linear address is not 0 is
resolved, and an address that was not registered is a desync. -/
theorem get_linear_address_of_registered (r0 : current_rmw_operation)
    (calls : List (Nat × Nat)) (hlen : calls.length ≤ 2)
    (hphys : (calls.map Prod.snd).Nodup) :
    (∀ ok ∈ (register_calls r0.clear calls).1, ok = true) ∧
    (∀ c ∈ calls, (register_calls r0.clear calls).2.get_linear_address c.2 = c.1) ∧
    (∀ p, p ∉ calls.map Prod.snd →
      (register_calls r0.clear calls).2.get_linear_address p = 0) ∧
    (∀ c ∈ calls, c.1 ≠ 0 → ∀ m : Replayer,
      bx_instr_phy_access_rmw m (register_calls r0.clear calls).2 c.2 =
        ((Flow.returned, m), c.1)) ∧
    (∀ p, p ∉ calls.map Prod.snd → ∀ m : Replayer,
      bx_instr_phy_access_rmw m (register_calls r0.clear calls).2 p =
        (LOG_DESYNC m Message.physical_access_without_matching_linear_access, 0)) := by
  have key : (∀ ok ∈ (register_calls r0.clear calls).1, ok = true) ∧
      (∀ c ∈ calls, (register_calls r0.clear calls).2.get_linear_address c.2 = c.1) ∧
      (∀ p, p ∉ calls.map Prod.snd →
        (register_calls r0.clear calls).2.get_linear_address p = 0) := by
    rcases calls with _ | ⟨⟨l1, p1⟩, _ | ⟨⟨l2, p2⟩, _ | ⟨c3, rest⟩⟩⟩
    · simp [register_calls, current_rmw_operation.clear,
        current_rmw_operation.get_linear_address]
    · refine ⟨?_, ?_, ?_⟩
      · simp [register_calls, current_rmw_operation.clear,
          current_rmw_operation.register_new_access]
      · simp [register_calls, current_rmw_operation.clear,
          current_rmw_operation.register_new_access,
          current_rmw_operation.get_linear_address]
      · intro p hp
        have hp1 : p ≠ p1 := by simpa using hp
        simp only [register_calls, current_rmw_operation.clear,
          current_rmw_operation.register_new_access,
          current_rmw_operation.get_linear_address]
        simp [hp1]
    · have hne : p1 ≠ p2 := by simpa using hphys
      refine ⟨?_, ?_, ?_⟩
      · by_cases h1 : l1 = 0 <;>
          simp [register_calls, current_rmw_operation.clear,
            current_rmw_operation.register_new_access, h1]
      · intro c hc
        simp only [List.mem_cons, List.mem_singleton, List.not_mem_nil, or_false] at hc
        by_cases h1 : l1 = 0 <;> rcases hc with rfl | rfl <;>
          simp [register_calls, current_rmw_operation.clear,
            current_rmw_operation.register_new_access,
            current_rmw_operation.get_linear_address, h1, hne, Ne.symm hne]
      · intro p hp
        have hp1 : p ≠ p1 ∧ p ≠ p2 := by simpa using hp
        by_cases h1 : l1 = 0 <;>
          simp [register_calls, current_rmw_operation.clear,
            current_rmw_operation.register_new_access,
            current_rmw_operation.get_linear_address, h1, hp1.1, hp1.2]
    · simp at hlen
  obtain ⟨k1, k2, k3⟩ := key
  refine ⟨k1, k2, k3, ?_, ?_⟩
  · intro c hc hne m
    simp [bx_instr_phy_access_rmw, k2 c hc, hne]
  · intro p hp m
    simp [bx_instr_phy_access_rmw, k3 p hp]

/-- C17, amended. After two `register_new_access` calls on a cleared tracker
whose linear addresses are not 0, the tracker holds the two pairs, a third
call returns `false` for any addresses and leaves the tracker unchanged, and
`bx_instr_lin_access` turns the failure into a desync. -/
theorem third_register_new_access_fails (r0 : current_rmw_operation)
    (lin1 phys1 lin2 phys2 lin3 phys3 : Nat) (h1 : lin1 ≠ 0) (h2 : lin2 ≠ 0) :
    (register_calls r0.clear [(lin1, phys1), (lin2, phys2)]).2 =
      { lin1_ := lin1, lin2_ := lin2, phys1_ := phys1, phys2_ := phys2 } ∧
    (register_calls r0.clear [(lin1, phys1), (lin2, phys2)]).2.register_new_access lin3 phys3 =
      (false, (register_calls r0.clear [(lin1, phys1), (lin2, phys2)]).2) ∧
    ∀ (m : Replayer) (len : Nat),
      bx_instr_lin_access_rmw m (register_calls r0.clear [(lin1, phys1), (lin2, phys2)]).2
          lin3 phys3 len =
        (LOG_DESYNC m Message.more_than_two_accesses_in_a_rmw_operation,
          (register_calls r0.clear [(lin1, phys1), (lin2, phys2)]).2) := by
  have hr : (register_calls r0.clear [(lin1, phys1), (lin2, phys2)]).2 =
      { lin1_ := lin1, lin2_ := lin2, phys1_ := phys1, phys2_ := phys2 } := by
    simp [register_calls, current_rmw_operation.clear,
      current_rmw_operation.register_new_access, h1]
  have h3 : ∀ l p, (register_calls r0.clear [(lin1, phys1), (lin2, phys2)]).2.register_new_access
      l p = (false, (register_calls r0.clear [(lin1, phys1), (lin2, phys2)]).2) := by
    intro l p
    rw [hr]
    simp [current_rmw_operation.register_new_access, h1, h2]
  refine ⟨hr, h3 _ _, ?_⟩
  intro m len
  unfold bx_instr_lin_access_rmw
  rw [h3]
  simp

theorem get_linear_address_of_registered_witness :
    ([(0x5000, 0x7000), (0x5008, 0x7008)].length ≤ 2 ∧
      ([(0x5000, 0x7000), (0x5008, 0x7008)].map Prod.snd).Nodup) ∧
    (∀ ok ∈ (register_calls current_rmw_operation.initial.clear
        [(0x5000, 0x7000), (0x5008, 0x7008)]).1, ok = true) ∧
    (∀ c ∈ [(0x5000, 0x7000), (0x5008, 0x7008)],
      (register_calls current_rmw_operation.initial.clear
        [(0x5000, 0x7000), (0x5008, 0x7008)]).2.get_linear_address c.2 = c.1) ∧
    (register_calls current_rmw_operation.initial.clear
        [(0x5000, 0x7000), (0x5008, 0x7008)]).2.get_linear_address 0x7008 = 0x5008 :=
  ⟨by decide,
    (get_linear_address_of_registered current_rmw_operation.initial
      [(0x5000, 0x7000), (0x5008, 0x7008)] (by decide) (by decide)).1,
    (get_linear_address_of_registered current_rmw_operation.initial
      [(0x5000, 0x7000), (0x5008, 0x7008)] (by decide) (by decide)).2.1,
    by decide⟩

/-- C16, as stated, fails: a pair registered with linear address 0 reads as
unresolved (the registration succeeds, the lookup returns 0 and the
physical-access phase raises the desync), and of two pairs registered with
the same physical address the lookup returns the first linear address only. -/
theorem registered_pair_reads_unresolved :
    ((register_calls current_rmw_operation.initial.clear [(0, 0x7000)]).1 = [true] ∧
      (register_calls current_rmw_operation.initial.clear
        [(0, 0x7000)]).2.get_linear_address 0x7000 = 0 ∧
      (bx_instr_phy_access_rmw demo_session
        (register_calls current_rmw_operation.initial.clear [(0, 0x7000)]).2 0x7000).1 =
        LOG_DESYNC demo_session Message.physical_access_without_matching_linear_access) ∧
    ((register_calls current_rmw_operation.initial.clear
        [(0x5000, 0x7000), (0x6000, 0x7000)]).1 = [true, true] ∧
      (register_calls current_rmw_operation.initial.clear
        [(0x5000, 0x7000), (0x6000, 0x7000)]).2.get_linear_address 0x7000 = 0x5000) := by
  decide

theorem third_register_new_access_fails_witness :
    ((0x5000 : Nat) ≠ 0 ∧ (0x5008 : Nat) ≠ 0) ∧
    (register_calls current_rmw_operation.initial.clear
        [(0x5000, 0x7000), (0x5008, 0x7008)]).2.register_new_access 0x6000 0x8000 =
      (false, (register_calls current_rmw_operation.initial.clear
        [(0x5000, 0x7000), (0x5008, 0x7008)]).2) :=
  ⟨by decide,
    (third_register_new_access_fails current_rmw_operation.initial 0x5000 0x7000 0x5008 0x7008
      0x6000 0x8000 (by decide) (by decide)).2.1⟩

/-- C17, as stated, fails: when the first or the second call registers the
linear address 0, its slot still counts as free, so the third call returns
`true` and stores its pair (replacing the second pair in the second case); no
desync is raised. -/
theorem third_register_new_access_succeeds :
    ((register_calls current_rmw_operation.initial.clear
        [(0, 0x7000), (0x5000, 0x9000)]).2.register_new_access 0x6000 0xb000 =
      (true, { lin1_ := 0x5000, lin2_ := 0x6000, phys1_ := 0x9000, phys2_ := 0xb000 })) ∧
    ((register_calls current_rmw_operation.initial.clear
        [(0x5000, 0x7000), (0, 0x9000)]).2 =
        { lin1_ := 0x5000, lin2_ := 0, phys1_ := 0x7000, phys2_ := 0x9000 } ∧
      (register_calls current_rmw_operation.initial.clear
        [(0x5000, 0x7000), (0, 0x9000)]).2.register_new_access 0x6000 0xb000 =
      (true, { lin1_ := 0x5000, lin2_ := 0x6000, phys1_ := 0x7000, phys2_ := 0xb000 })) ∧
    (bx_instr_lin_access_rmw demo_session
        (register_calls current_rmw_operation.initial.clear [(0, 0x7000), (0x5000, 0x9000)]).2
        0x6000 0xb000 8).1 = (Flow.returned, demo_session) := by
  decide

/-! ## Scenario terminator -/

/-- C18, amended. `end_of_scenario(d)` stores `d` in the desync flag without
looking at it, asks the engine to stop (`kill_bochs_request`, `async_event`)
and leaves through `longjmp(jmp_buf_env, 1)`; a later call with `d2` leaves
the flag equal to `d2`. -/
theorem end_of_scenario_last_call_wins (m : Replayer) (d d2 : Bool) :
    (end_of_scenario m d).1 = Flow.longjmp 1 ∧
    (end_of_scenario m d).2.desync_ = d ∧
    (end_of_scenario m d).2.kill_bochs_request = true ∧
    (end_of_scenario m d).2.cpu.async_event = 1 ∧
    (end_of_scenario (end_of_scenario m d).2 d2).2.desync_ = d2 := by
  simp [end_of_scenario, Replayer.emit]

/-- C18, as stated, fails: after `end_of_scenario(true)`, a call
`end_of_scenario(false)` leaves the desync flag `false`. -/
theorem end_of_scenario_overwrites_desync :
    (end_of_scenario demo_session true).2.desync_ = true ∧
    (end_of_scenario (end_of_scenario demo_session true).2 false).2.desync_ = false := by
  decide

/-! ## Tick counter -/

theorem tick_below_bound (i N : Nat) (m : Replayer) (k : Tick) (hi : i < N + 2)
    (hN : N + 2 < 2 ^ 64) :
    ICount.tick { icount_ := i, max_icount_ := some N } m k =
      ((Flow.returned, m), { icount_ := i + 1, max_icount_ := some N }) := by
  have hcheck : ICount.check_max_icount { icount_ := i, max_icount_ := some N } m =
      (Flow.returned, m) := by
    unfold ICount.check_max_icount ICount.icount
    by_cases h0 : i = 0
    · simp [h0]
    · have : ¬ (i - 1 > N) := by omega
      simp [h0, this]
  have hmod : (i + 1) % 2 ^ 64 = i + 1 := Nat.mod_eq_of_lt (by omega)
  cases k <;>
    simp only [ICount.tick, ICount.before_instruction, ICount.break_and_start_new_instruction,
      hcheck, hmod, if_true]

theorem tick_at_bound (N : Nat) (m : Replayer) (k : Tick) :
    ICount.tick { icount_ := N + 2, max_icount_ := some N } m k =
      (end_of_scenario m false, { icount_ := N + 2, max_icount_ := some N }) := by
  have hcheck : ICount.check_max_icount { icount_ := N + 2, max_icount_ := some N } m =
      end_of_scenario m false := by
    unfold ICount.check_max_icount ICount.icount
    simp
  cases k <;>
    simp [ICount.tick, ICount.before_instruction, ICount.break_and_start_new_instruction,
      hcheck]

theorem ticks_started_from (N : Nat) (hN : N + 2 < 2 ^ 64) (ks : List Tick) :
    ∀ (i : Nat) (m : Replayer), i ≤ N + 2 →
      ticks_started { icount_ := i, max_icount_ := some N } m ks = min ks.length (N + 2 - i) := by
  induction ks with
  | nil => intro i m _; simp [ticks_started]
  | cons k ks ih =>
    intro i m hi
    by_cases hlt : i < N + 2
    · simp only [ticks_started, tick_below_bound i N m k hlt hN, if_true, List.length_cons]
      rw [ih (i + 1) m (by omega)]
      omega
    · have hi2 : i = N + 2 := by omega
      subst hi2
      simp [ticks_started, tick_at_bound]

theorem run_ticks_from (N : Nat) (hN : N + 2 < 2 ^ 64) (ks : List Tick) :
    ∀ (i : Nat) (m : Replayer), i ≤ N + 2 → N + 2 - i < ks.length →
      run_ticks { icount_ := i, max_icount_ := some N } m ks =
        (end_of_scenario m false, { icount_ := N + 2, max_icount_ := some N }) := by
  induction ks with
  | nil => intro i m _ h; simp at h
  | cons k ks ih =>
    intro i m hi hlen
    by_cases hlt : i < N + 2
    · simp only [run_ticks, tick_below_bound i N m k hlt hN, if_true]
      exact ih (i + 1) m (by omega) (by simp only [List.length_cons] at hlen; omega)
    · have hi2 : i = N + 2 := by omega
      subst hi2
      simp [run_ticks, tick_at_bound]

/-- C19 on the code. With a maximum `N` (and `N + 2 < 2^64`), a sequence of
tick calls starts `min(length, N + 2)` ticks: the check compares
`icount() = icount_ - 1` of the previous tick with `N` by `>`, so ticks
`N + 1` and `N + 2` are started as well, and the call after them ends the
session with `desync = false`. -/
theorem max_icount_lets_two_more_ticks_start (N : Nat) (m : Replayer) (ks : List Tick)
    (hN : N + 2 < 2 ^ 64) :
    ticks_started (ICount.bounded N) m ks = min ks.length (N + 2) ∧
    (N + 2 < ks.length →
      ticks_started (ICount.bounded N) m ks = N + 2 ∧
      (run_ticks (ICount.bounded N) m ks).1.1 = Flow.longjmp 1 ∧
      (run_ticks (ICount.bounded N) m ks).1.2.desync_ = false ∧
      (run_ticks (ICount.bounded N) m ks).1.2.kill_bochs_request = true ∧
      (run_ticks (ICount.bounded N) m ks).2.icount_ = N + 2) := by
  have h1 := ticks_started_from N hN ks 0 m (by omega)
  refine ⟨by simpa [ICount.bounded] using h1, ?_⟩
  intro hlen
  have h2 := run_ticks_from N hN ks 0 m (by omega) (by omega)
  have h3 : ticks_started (ICount.bounded N) m ks = N + 2 := by
    have : ticks_started (ICount.bounded N) m ks = min ks.length (N + 2) := by
      simpa [ICount.bounded] using h1
    omega
  unfold ICount.bounded at h3 ⊢
  rw [h2]
  exact ⟨h3, rfl, rfl, rfl, rfl⟩

theorem max_icount_lets_two_more_ticks_start_witness :
    (1 + 2 < 2 ^ 64 ∧
      1 + 2 < [Tick.before_instruction, Tick.before_instruction,
        Tick.break_and_start_new_instruction, Tick.before_instruction].length) ∧
    ticks_started (ICount.bounded 1) demo_session
      [Tick.before_instruction, Tick.before_instruction,
        Tick.break_and_start_new_instruction, Tick.before_instruction] = 1 + 2 ∧
    (run_ticks (ICount.bounded 1) demo_session
      [Tick.before_instruction, Tick.before_instruction,
        Tick.break_and_start_new_instruction, Tick.before_instruction]).1.2.desync_ = false :=
  ⟨by decide,
    ((max_icount_lets_two_more_ticks_start 1 demo_session
      [Tick.before_instruction, Tick.before_instruction,
        Tick.break_and_start_new_instruction, Tick.before_instruction] (by decide)).2
      (by decide)).1,
    ((max_icount_lets_two_more_ticks_start 1 demo_session
      [Tick.before_instruction, Tick.before_instruction,
        Tick.break_and_start_new_instruction, Tick.before_instruction] (by decide)).2
      (by decide)).2.2.1⟩

/-- C19, as stated, fails: with a maximum of 1, three ticks are started; with
a maximum of 0, two. -/
theorem max_icount_one_starts_three_ticks :
    ticks_started (ICount.bounded 1) demo_session
      [Tick.before_instruction, Tick.before_instruction, Tick.before_instruction,
        Tick.before_instruction] = 3 ∧
    ticks_started (ICount.bounded 0) demo_session
      [Tick.before_instruction, Tick.before_instruction, Tick.before_instruction] = 2 := by
  decide

/-! ## Program counter deltas in the trace -/

theorem register_action_ids_get (n k : Nat) (hk : k < 41) :
    (register_action_ids n)[k]? = some (n + k) := by
  have hlen : register_operation_list.length = 41 := by decide
  unfold register_action_ids
  rw [hlen, List.getElem?_map, List.getElem?_range hk]
  rfl

theorem register_operations_rip (n d : Nat) (h1 : 1 ≤ d) (h15 : d ≤ 15) :
    register_operations n (n + (d - 1)) =
      some ⟨x86Register.r_rip, RegisterOperator.Add, d⟩ := by
  unfold register_operations
  have hn : ¬ (n + (d - 1) < n) := by omega
  rw [if_neg hn, Nat.add_sub_cancel_left]
  interval_cases d <;> rfl

/-- C20. With `d = (rip - old) mod 2^64`: for `1 <= d <= 15`,
`save_cpu_context` writes exactly one register action, the id at index `d - 1`
of `register_action_ids`, under which the machine description stores
`rip + d`, and adding `d` to the old value gives the new one; for `d > 15` it
writes exactly one 8-byte write of RIP with the new value; for `d = 0` the
RIP is unchanged and nothing is written. -/
theorem save_cpu_context_rip_encoding (register_enum_count rip old : Nat)
    (hrip : rip < 2 ^ 64) (hold : old < 2 ^ 64) :
    (1 ≤ (rip + 2 ^ 64 - old) % 2 ^ 64 → (rip + 2 ^ 64 - old) % 2 ^ 64 ≤ 15 →
      save_cpu_context_rip (register_action_ids register_enum_count) rip old =
        (some [TraceRecord.register_action
          (register_enum_count + ((rip + 2 ^ 64 - old) % 2 ^ 64 - 1))], rip) ∧
      (register_action_ids register_enum_count)[(rip + 2 ^ 64 - old) % 2 ^ 64 - 1]? =
        some (register_enum_count + ((rip + 2 ^ 64 - old) % 2 ^ 64 - 1)) ∧
      register_operations register_enum_count
          (register_enum_count + ((rip + 2 ^ 64 - old) % 2 ^ 64 - 1)) =
        some ⟨x86Register.r_rip, RegisterOperator.Add, (rip + 2 ^ 64 - old) % 2 ^ 64⟩ ∧
      (old + (rip + 2 ^ 64 - old) % 2 ^ 64) % 2 ^ 64 = rip) ∧
    (15 < (rip + 2 ^ 64 - old) % 2 ^ 64 →
      save_cpu_context_rip (register_action_ids register_enum_count) rip old =
        (some [TraceRecord.register x86Register.r_rip 8 rip], rip)) ∧
    ((rip + 2 ^ 64 - old) % 2 ^ 64 = 0 →
      rip = old ∧
      save_cpu_context_rip (register_action_ids register_enum_count) rip old =
        (some [], rip)) := by
  generalize hd : (rip + 2 ^ 64 - old) % 2 ^ 64 = d
  have hne : d ≠ 0 → rip ≠ old := by
    intro h0 he
    subst he
    apply h0
    rw [← hd]
    norm_num
  refine ⟨?_, ?_, ?_⟩
  · intro h1 h15
    have hidx : (RegisterOperationRipPlus1 + (2 ^ 64 - 1) + d) % 2 ^ 64 = d - 1 := by
      unfold RegisterOperationRipPlus1
      norm_num
      omega
    have hne2 : rip ≠ old := hne (by omega)
    refine ⟨?_, register_action_ids_get _ _ (by omega), register_operations_rip _ _ h1 h15, ?_⟩
    · unfold save_cpu_context_rip
      rw [hd, hidx, register_action_ids_get _ _ (by omega)]
      simp [h15, hne2]
    · rw [← hd]
      norm_num at hrip hold ⊢
      omega
  · intro h15
    unfold save_cpu_context_rip
    rw [hd]
    have hne2 : rip ≠ old := hne (by omega)
    have : ¬ d ≤ 15 := by omega
    simp [this, write_reg, hne2]
  · intro h0
    have he : rip = old := by
      rw [← hd] at h0
      norm_num at hrip hold h0
      omega
    refine ⟨he, ?_⟩
    unfold save_cpu_context_rip
    simp [he, write_reg]

theorem save_cpu_context_rip_encoding_witness :
    ((0x401003 : Nat) < 2 ^ 64 ∧ (0x401000 : Nat) < 2 ^ 64 ∧
      (0x401003 + 2 ^ 64 - 0x401000) % 2 ^ 64 = 3) ∧
    save_cpu_context_rip (register_action_ids 100) 0x401003 0x401000 =
      (some [TraceRecord.register_action (100 + ((0x401003 + 2 ^ 64 - 0x401000) % 2 ^ 64 - 1))],
        0x401003) ∧
    register_operations 100 102 = some ⟨x86Register.r_rip, RegisterOperator.Add, 3⟩ :=
  ⟨by decide,
    ((save_cpu_context_rip_encoding 100 0x401003 0x401000 (by decide) (by decide)).1
      (by decide) (by decide)).1,
    by decide⟩

/-! ## Retirement -/

theorem after_instruction_eq (m : Replayer) :
    after_instruction m =
      if m.current_event_.is_valid then
        if m.current_event_.has_interrupt && m.current_rip_ == m.current_event_.interrupt_rip then
          LOG_DESYNC (restore_instruction m) Message.exception_not_generated
        else if m.current_event_.is_first_event_context_unknown then
          (Flow.returned, { restore_instruction m with current_event_ := sync_event.none })
        else
          (apply_sync_event (restore_instruction m) m.current_event_).andThen fun m =>
            (Flow.returned, { m with current_event_ := sync_event.none })
      else
        (Flow.returned, restore_instruction m) := by
  unfold after_instruction retire_current_event
  simp only [restore_instruction_current_event_, restore_instruction_current_rip_, andThen_ite,
    andThen_LOG_DESYNC, andThen_returned]
  split_ifs <;> simp_all

theorem handler_view_seq {r : Result} {k : Replayer → Result}
    {v : bxInstruction_c × BxExecutePtr_tR}
    (h1 : handler_view r.2 = v) (h2 : ∀ m1, handler_view (k m1).2 = handler_view m1) :
    handler_view (r.andThen k).2 = v := by
  obtain ⟨f, m1⟩ := r
  cases f with
  | returned => exact (h2 m1).trans h1
  | longjmp val => exact h1

theorem handler_view_LOG_DESYNC (m : Replayer) (msg : Message) :
    handler_view (LOG_DESYNC m msg).2 = handler_view m := by
  simp [handler_view]

theorem handler_view_LOG_END_REPLAY (m : Replayer) (msg : Message) :
    handler_view (LOG_END_REPLAY m msg).2 = handler_view m := by
  simp [handler_view]

theorem handler_view_apply_hardware_access (m : Replayer) (tsc : Nat) :
    handler_view (apply_hardware_access m tsc).2 = handler_view m := by
  rw [apply_hardware_access_eq]
  split <;> simp [handler_view]

theorem handler_view_match_at_event (m : Replayer) (ev : sync_event)
    (exact tolerant : MatchNote) :
    handler_view (match_at_event m ev exact tolerant) = handler_view m := by
  unfold match_at_event
  split_ifs <;> simp [handler_view]

theorem handler_view_match_pending_event (m : Replayer) (exact tolerant : MatchNote) :
    handler_view (match_pending_event m exact tolerant).2 = handler_view m := by
  unfold match_pending_event
  refine handler_view_seq ?_ fun m1 => handler_view_match_at_event _ _ _ _
  split
  · rw [handler_view_LOG_END_REPLAY]; rfl
  · rfl

theorem handler_view_force_flags (m : Replayer) (f : Nat) :
    handler_view (force_flags m f) = handler_view m := by
  simp [handler_view]

/-- The callback `interrupt` touches neither the decoded instruction nor the
handler saved for it. -/
theorem handler_view_interrupt (m : Replayer) (vector : Nat) :
    handler_view (interrupt m vector).2 = handler_view m := by
  unfold interrupt
  refine handler_view_seq ?_ fun m1 => ?_
  · split
    · refine handler_view_seq (handler_view_match_pending_event _ _ _) fun m2 => ?_
      unfold check_matched_vector
      split_ifs
      · rfl
      · exact handler_view_LOG_DESYNC _ _
      · rfl
    · rfl
  · split
    · rfl
    · refine handler_view_seq ?_ fun _ => rfl
      rw [handler_view_apply_hardware_access, handler_view_force_flags]

theorem interrupt_i (m : Replayer) (vector : Nat) : (interrupt m vector).2.i = m.i :=
  congrArg Prod.fst (handler_view_interrupt m vector)

theorem interrupt_current_instruction_ (m : Replayer) (vector : Nat) :
    (interrupt m vector).2.current_instruction_ = m.current_instruction_ :=
  congrArg Prod.snd (handler_view_interrupt m vector)

/-- A `reconcile_interrupt` that returns has delivered nothing: the matched
event is still the current one. -/
theorem reconcile_interrupt_returned (m : Replayer)
    (h : (reconcile_interrupt m).1 = Flow.returned) :
    (reconcile_interrupt m).2.current_event_ = m.current_event_ := by
  rw [reconcile_interrupt_eq] at h ⊢
  split_ifs at h ⊢
  · rfl
  · simp at h
  · exact absurd h (andThen_abort_not_returned _ 0)
  · rfl

theorem handle_current_event_returned (m : Replayer)
    (h : (handle_current_event m).1 = Flow.returned) :
    (handle_current_event m).2.current_event_ = m.current_event_ := by
  by_cases hv : m.current_event_.is_valid = true
  · rw [handle_current_event_eq m hv] at h ⊢
    split_ifs at h ⊢
    · simp at h
    · simp at h
    · rw [reconcile_interrupt_returned _ h]
      simp
    · simp at h
    · rw [reconcile_interrupt_returned _ h]
      simp
  · rw [handle_current_event_none m (by simpa using hv)]

/-! ## Emulated instructions -/

theorem emulated_not_NOP (h : BxExecutePtr_tR)
    (hem : emulated_instructions.contains h = true) : h ≠ BxExecutePtr_tR.NOP := by
  intro hn
  subst hn
  revert hem
  decide

theorem executed_iff_WRMSR (h : BxExecutePtr_tR) :
    executed_instructions.contains h = true ↔ h = BxExecutePtr_tR.WRMSR := by
  simp [executed_instructions]

theorem nop_emulated_instruction_handler (m : Replayer) :
    (nop_emulated_instruction m).i.execute1 = m.i.execute1 ∨
      ((nop_emulated_instruction m).i.execute1 = BxExecutePtr_tR.NOP ∧
        executed_instructions.contains m.i.execute1 = false ∧
        emulated_instructions.contains m.i.execute1 = true) := by
  unfold nop_emulated_instruction
  split_ifs with h1 h2
  · right
    simp only [Bool.and_eq_true, Bool.not_eq_true'] at h2
    exact ⟨rfl, h2.1, h2.2⟩
  · left; rfl
  · left; rfl

theorem reconcile_interrupt_i (m : Replayer) : (reconcile_interrupt m).2.i = m.i := by
  rw [reconcile_interrupt_eq]
  split_ifs
  · simp
  · simp
  · rw [andThen_abort_state, interrupt_i]
    rfl
  · rfl

theorem handle_current_event_handler (m : Replayer) :
    (handle_current_event m).2.i.execute1 = m.i.execute1 ∨
      ((handle_current_event m).2.i.execute1 = BxExecutePtr_tR.NOP ∧
        executed_instructions.contains m.i.execute1 = false ∧
        emulated_instructions.contains m.i.execute1 = true) := by
  by_cases hv : m.current_event_.is_valid = true
  · rw [handle_current_event_eq m hv]
    split_ifs
    · left; simp
    · left; simp
    · rw [reconcile_interrupt_i]
      exact nop_emulated_instruction_handler m
    · left; simp
    · rw [reconcile_interrupt_i]
      have := nop_emulated_instruction_handler (replayed m m.current_event_.start_context.tsc)
      simpa using this
  · rw [handle_current_event_none m (by simpa using hv)]
    left; rfl

theorem check_unmatched_handler (m : Replayer) (h : BxExecutePtr_tR)
    (hv : m.current_event_.is_valid = true)
    (hem : emulated_instructions.contains h = true)
    (hcase : m.i.execute1 = h ∨
      (m.i.execute1 = BxExecutePtr_tR.NOP ∧ executed_instructions.contains h = false)) :
    (check_unmatched m).1 = Flow.returned ∧
      (check_unmatched m).2.i.execute1 =
        (if executed_instructions.contains h then h else BxExecutePtr_tR.NOP) := by
  rw [check_unmatched_valid m hv]
  have hn : emulated_instructions.contains BxExecutePtr_tR.NOP = false := by decide
  rcases hcase with hc | ⟨hc, hx⟩
  · subst hc
    split_ifs <;> simp_all
  · rw [hc]
    split_ifs <;> simp_all

theorem match_at_boundary_i (m : Replayer) (ev : sync_event) :
    (match_at_boundary m ev).2.i = m.i := by
  unfold match_at_boundary
  split_ifs
  · rw [apply_sync_event_eq]
    split_ifs <;> simp
  · simp
  · simp
  · rfl
  · rfl

theorem andThen_returned_inv {r : Result} {k : Replayer → Result}
    (h : (r.andThen k).1 = Flow.returned) :
    r.1 = Flow.returned ∧ r.andThen k = k r.2 := by
  obtain ⟨f, m1⟩ := r
  cases f with
  | returned => exact ⟨rfl, rfl⟩
  | longjmp val => simp [Result.andThen] at h

/-- C24, amended. For an instruction whose handler is in
`emulated_instructions`: when `before_instruction` returns, a sync event is
matched (there is a current event) and the handler is `NOP` if and only if
the instruction is not `WRMSR`, which keeps its handler; when no postponed
interrupt is due, the stream is not exhausted and no event is matched (the
sync cursor stays where it was), the session ends with `desync = true`. -/
theorem emulated_instruction_needs_sync_event (m : Replayer)
    (hem : emulated_instructions.contains m.i.execute1 = true) :
    ((before_instruction m).1 = Flow.returned →
      (before_instruction m).2.current_event_.is_valid = true ∧
      ((before_instruction m).2.i.execute1 = BxExecutePtr_tR.NOP ↔
        m.i.execute1 ≠ BxExecutePtr_tR.WRMSR) ∧
      (m.i.execute1 = BxExecutePtr_tR.WRMSR →
        (before_instruction m).2.i.execute1 = BxExecutePtr_tR.WRMSR)) ∧
    (postponed_due m = false → (current_event m.sync_file_).is_valid = true →
      (before_instruction m).2.sync_file_ = m.sync_file_ →
      (before_instruction m).1 = Flow.longjmp 1 ∧ (before_instruction m).2.desync_ = true ∧
        (before_instruction m).2.kill_bochs_request = true) := by
  refine ⟨?_, ?_⟩
  · intro hret
    by_cases hnd : postponed_due m = true
    · exact absurd hret (before_instruction_due_not_returned m hnd)
    have hnd2 : postponed_due m = false := by simpa using hnd
    by_cases hv : (current_event m.sync_file_).is_valid = true
    swap
    · exfalso
      rw [before_instruction_exhausted m hnd2 (by simpa using hv)] at hret
      simp at hret
    rw [before_instruction_pending m hnd2 hv] at hret ⊢
    obtain ⟨h1, e1⟩ := andThen_returned_inv hret
    rw [e1] at hret ⊢
    obtain ⟨h2, e2⟩ := andThen_returned_inv hret
    rw [e2] at hret ⊢
    have hi1 : (match_at_boundary (capture_context (enter_instruction m))
        (current_event m.sync_file_)).2.i = m.i := by
      rw [match_at_boundary_i]
      rfl
    generalize (match_at_boundary (capture_context (enter_instruction m))
        (current_event m.sync_file_)).2 = m1 at *
    have hv1 : m1.current_event_.is_valid = true := by
      by_contra hc
      have hc2 : m1.current_event_.is_valid = false := by simpa using hc
      rw [handle_current_event_none m1 hc2, check_unmatched_none m1 hc2] at hret
      rw [hi1] at hret
      split_ifs at hret <;> simp_all
    have hv2 : (handle_current_event m1).2.current_event_.is_valid = true := by
      rw [handle_current_event_returned m1 h2]
      exact hv1
    have hcase : (handle_current_event m1).2.i.execute1 = m.i.execute1 ∨
        ((handle_current_event m1).2.i.execute1 = BxExecutePtr_tR.NOP ∧
          executed_instructions.contains m.i.execute1 = false) := by
      rcases handle_current_event_handler m1 with h | ⟨h, hx, _⟩
      · left; rw [h, hi1]
      · right; rw [hi1] at hx; exact ⟨h, hx⟩
    obtain ⟨_, hfin⟩ := check_unmatched_handler (handle_current_event m1).2 m.i.execute1 hv2 hem
      hcase
    have hcur : (check_unmatched (handle_current_event m1).2).2.current_event_.is_valid
        = true := by
      rw [check_unmatched_current_event]
      exact hv2
    refine ⟨hcur, ?_, ?_⟩
    · rw [hfin]
      by_cases hw : m.i.execute1 = BxExecutePtr_tR.WRMSR
      · have hne := emulated_not_NOP _ hem
        rw [if_pos ((executed_iff_WRMSR _).mpr hw)]
        exact ⟨fun h => absurd h hne, fun h => absurd hw h⟩
      · have hx : ¬ executed_instructions.contains m.i.execute1 = true :=
          fun hc => hw ((executed_iff_WRMSR _).mp hc)
        rw [if_neg hx]
        exact ⟨fun _ => hw, fun _ => rfl⟩
    · intro hw
      rw [hfin, (executed_iff_WRMSR _).mpr hw, if_pos rfl, hw]
  · intro hnd hv hno
    rw [before_instruction_no_match m hnd hv hno,
      check_unmatched_none _ (by simp [sync_event.none])]
    have hem2 : emulated_instructions.contains
        (capture_context (enter_instruction m)).i.execute1 = true := hem
    split_ifs <;> simp_all

theorem emulated_instruction_needs_sync_event_witness :
    (emulated_instructions.contains rdtsc_boundary.i.execute1 = true ∧
      (before_instruction rdtsc_boundary).1 = Flow.returned) ∧
    (before_instruction rdtsc_boundary).2.current_event_.is_valid = true ∧
    ((before_instruction rdtsc_boundary).2.i.execute1 = BxExecutePtr_tR.NOP ↔
      rdtsc_boundary.i.execute1 ≠ BxExecutePtr_tR.WRMSR) ∧
    (before_instruction rdtsc_boundary).2.i.execute1 = BxExecutePtr_tR.NOP :=
  ⟨by decide,
    ((emulated_instruction_needs_sync_event rdtsc_boundary (by decide)).1 (by decide)).1,
    ((emulated_instruction_needs_sync_event rdtsc_boundary (by decide)).1 (by decide)).2.1,
    by decide⟩

/-- C24, as stated, fails: at an `RDTSC` on an exhausted sync stream no event
is matched and the session ends with `desync = false`. -/
theorem emulated_instruction_on_exhausted_stream :
    emulated_instructions.contains rdtsc_exhausted.i.execute1 = true ∧
    (before_instruction rdtsc_exhausted).2.current_event_.is_valid = false ∧
    (before_instruction rdtsc_exhausted).1 = Flow.longjmp 1 ∧
    (before_instruction rdtsc_exhausted).2.desync_ = false := by
  decide


/-! ## The handler of the decoded instruction -/

theorem andThen_current_instruction_ (r : Result) (k : Replayer → Result)
    (h : ∀ m1, (k m1).2.current_instruction_ = m1.current_instruction_) :
    (r.andThen k).2.current_instruction_ = r.2.current_instruction_ := by
  obtain ⟨fl, m1⟩ := r
  cases fl with
  | returned => exact h m1
  | longjmp val => rfl

theorem match_at_boundary_current_instruction_ (m : Replayer) (ev : sync_event) :
    (match_at_boundary m ev).2.current_instruction_ = m.current_instruction_ := by
  unfold match_at_boundary
  split_ifs
  · rw [apply_sync_event_eq]
    split_ifs <;> simp
  · simp
  · simp
  · rfl
  · rfl

theorem reconcile_interrupt_current_instruction_ (m : Replayer) :
    (reconcile_interrupt m).2.current_instruction_ = m.current_instruction_ := by
  rw [reconcile_interrupt_eq]
  split_ifs
  · simp
  · simp
  · rw [andThen_abort_state, interrupt_current_instruction_]
    rfl
  · rfl

theorem handle_current_event_current_instruction_ (m : Replayer) :
    (handle_current_event m).2.current_instruction_ = m.current_instruction_ := by
  by_cases hv : m.current_event_.is_valid = true
  · rw [handle_current_event_eq m hv]
    split_ifs <;> simp [reconcile_interrupt_current_instruction_]
  · rw [handle_current_event_none m (by simpa using hv)]

theorem check_unmatched_current_instruction_ (m : Replayer) :
    (check_unmatched m).2.current_instruction_ = m.current_instruction_ := by
  by_cases hv : m.current_event_.is_valid = true
  · rw [check_unmatched_valid m hv]
    split_ifs <;> rfl
  · rw [check_unmatched_none m (by simpa using hv)]
    split_ifs <;> simp

theorem before_instruction_current_instruction_ (m : Replayer) :
    (before_instruction m).2.current_instruction_ = m.i.execute1 := by
  by_cases hnd : postponed_due m = true
  · rw [before_instruction_due m hnd]
    split_ifs
    · simp
    · rw [andThen_current_instruction_ _ _ (fun _ => rfl), interrupt_current_instruction_]
      rfl
  have hnd2 : postponed_due m = false := by simpa using hnd
  by_cases hv : (current_event m.sync_file_).is_valid = true
  · rw [before_instruction_pending m hnd2 hv]
    rw [andThen_current_instruction_ _ _ (fun m1 => by
      rw [andThen_current_instruction_ _ _
        check_unmatched_current_instruction_, handle_current_event_current_instruction_]),
      match_at_boundary_current_instruction_]
    rfl
  · rw [before_instruction_exhausted m hnd2 (by simpa using hv)]
    simp

theorem after_instruction_handler (m : Replayer) :
    (after_instruction m).2.i.execute1 = m.current_instruction_ := by
  rw [after_instruction_eq]
  split_ifs
  · simp
  · rfl
  · rw [apply_sync_event_eq]
    split_ifs <;> simp
  · rfl

theorem before_instruction_due_handler (m : Replayer) (h : postponed_due m = true) :
    (before_instruction m).2.i.execute1 = m.i.execute1 := by
  rw [before_instruction_due m h]
  split_ifs
  · simp
  · have hi : ∀ r : Result,
        (r.andThen fun m1 =>
          (Flow.longjmp 0, { m1 with saved_interrupt_event_ := sync_event.none })).2.i
          = r.2.i := by
      intro r
      obtain ⟨fl, m1⟩ := r
      cases fl <;> rfl
    rw [hi, interrupt_i]
    rfl

/-- An immediate delivery whose hook does not find the matched event taken at
the rip the engine is leaving: the hook changes nothing. -/
theorem reconcile_interrupt_unmatched_hook (m : Replayer)
    (hv : m.current_event_.is_valid = true)
    (hc : carries_external_interrupt m.current_event_)
    (hr : m.current_rip_ = m.current_event_.interrupt_rip)
    (hp : m.current_event_.interrupt_rip ≠ m.cpu.prev_rip)
    (h1 : meets_oversized_read m.current_event_.start_context.tsc m.hardware_file_ = false) :
    reconcile_interrupt m = (Flow.longjmp 0, delivery_call m m.current_event_) := by
  have hm : ¬ matches_interrupt (delivery_call m m.current_event_)
      m.current_event_.interrupt_vector := by
    intro h
    apply hp
    simpa using h.2.2.2
  rw [reconcile_interrupt_eq, if_pos hc, if_neg (not_not.mpr hr),
    if_neg (by rw [h1]; exact Bool.false_ne_true),
    interrupt_current _ _ (by simpa using hv), if_neg hm, andThen_returned]

/-- C26 on the code. After `before_instruction` and `after_instruction` the
handler is the one the instruction had on entry, and a postponed interrupt
delivered on entry leaves the handler alone. But when the pending event is
matched at its own `interrupt_rip`, is an emulation that carries an external
interrupt, and the handler is emulated and not `WRMSR`, the handler is
replaced by `NOP` before the interrupt is forced, and neither the delivery nor
the interrupt hook of the engine call puts it back: the handler is `NOP`, not
the one on entry, and unless the replay of the hook meets an oversized read
`before_instruction` leaves through `longjmp(jmp_buf_env, 0)` without ending
the session. -/
theorem handler_restored_except_on_immediate_delivery (m : Replayer) :
    (after_instruction (before_instruction m).2).2.i.execute1 = m.i.execute1 ∧
    (postponed_due m = true → (before_instruction m).2.i.execute1 = m.i.execute1) ∧
    (postponed_due m = false →
      (current_event m.sync_file_).is_valid = true →
      (current_event m.sync_file_).is_first_event_context_unknown = false →
      m.cpu.rip = (current_event m.sync_file_).start_rip →
      (current_event m.sync_file_).start_context.are_values_equivalent
        (capture_context m).current_ctx_ = true →
      is_final_int3 m = false →
      (current_event m.sync_file_).is_last_event = false →
      (current_event m.sync_file_).is_instruction_emulation = true →
      carries_external_interrupt (current_event m.sync_file_) →
      (current_event m.sync_file_).interrupt_rip = m.cpu.rip →
      meets_oversized_read (current_event m.sync_file_).start_context.tsc m.hardware_file_
        = false →
      emulated_instructions.contains m.i.execute1 = true →
      m.i.execute1 ≠ BxExecutePtr_tR.WRMSR →
      (before_instruction m).2.i.execute1 = BxExecutePtr_tR.NOP ∧
      (before_instruction m).2.i.execute1 ≠ m.i.execute1 ∧
      ((current_event m.sync_file_).interrupt_rip ≠ m.cpu.prev_rip ∨
        meets_oversized_read (current_event m.sync_file_).new_context.tsc
          (m.hardware_file_.drop
            (consumed_entries (current_event m.sync_file_).start_context.tsc
              m.hardware_file_).length) = false →
        (before_instruction m).1 = Flow.longjmp 0 ∧
        (before_instruction m).2.kill_bochs_request = m.kill_bochs_request)) := by
  refine ⟨?_, before_instruction_due_handler m, ?_⟩
  · rw [after_instruction_handler, before_instruction_current_instruction_]
  · intro hnd hv hanch hrip hctx hfin hlast hemu hint hirip hov hem hw
    have hne := emulated_not_NOP _ hem
    have hx : executed_instructions.contains m.i.execute1 = false := by
      cases hc : executed_instructions.contains m.i.execute1
      · rfl
      · exact absurd ((executed_iff_WRMSR _).mp hc) hw
    have hcur := matched_boundary_current_event_ m (current_event m.sync_file_)
    have hmb_i : (matched_boundary m (current_event m.sync_file_)).i.execute1
        = BxExecutePtr_tR.NOP := by
      unfold matched_boundary nop_emulated_instruction
      simp only [replayed_current_event_, replayed_i, match_sync_event_current_event_,
        match_sync_event_i, capture_context_i, enter_instruction_i, hanch, hemu, hx, hem,
        Bool.not_false, Bool.and_self, if_true]
    have hmb_hw : (matched_boundary m (current_event m.sync_file_)).hardware_file_ =
        m.hardware_file_.drop
          (consumed_entries (current_event m.sync_file_).start_context.tsc
            m.hardware_file_).length := by
      simp [matched_boundary]
    have hmb_rip : (matched_boundary m (current_event m.sync_file_)).current_rip_
        = m.cpu.rip := by
      simp [matched_boundary]
    have hmb_prev : (matched_boundary m (current_event m.sync_file_)).cpu.prev_rip
        = m.cpu.prev_rip := by
      simp [matched_boundary]
    have hmb_kill : (matched_boundary m (current_event m.sync_file_)).kill_bochs_request
        = m.kill_bochs_request := by
      simp [matched_boundary]
    have g0 : (matched_boundary m (current_event m.sync_file_)).current_event_.is_valid
        = true := by rw [hcur]; exact hv
    have g1 : carries_external_interrupt
        (matched_boundary m (current_event m.sync_file_)).current_event_ := by
      rw [hcur]; exact hint
    have g2 : (matched_boundary m (current_event m.sync_file_)).current_rip_ =
        (matched_boundary m (current_event m.sync_file_)).current_event_.interrupt_rip := by
      rw [hcur, hmb_rip, hirip]
    have g3 : meets_oversized_read
        (matched_boundary m (current_event m.sync_file_)).current_event_.start_context.tsc
        (matched_boundary m (current_event m.sync_file_)).hardware_file_ = false := by
      rw [hcur, hmb_hw, meets_oversized_read_drop, hov]
    obtain ⟨_, _, hflow⟩ := reconcile_interrupt_delivery
      (matched_boundary m (current_event m.sync_file_)) g1 g2
    rw [before_instruction_matched m hnd hv hanch hrip hctx hfin hlast hov,
      andThen_of_not_returned _ hflow]
    refine ⟨by rw [reconcile_interrupt_i, hmb_i], ?_, ?_⟩
    · rw [reconcile_interrupt_i, hmb_i]
      exact fun h => hne h.symm
    · intro hhook
      by_cases hp : (current_event m.sync_file_).interrupt_rip = m.cpu.prev_rip
      · have h2 : meets_oversized_read (current_event m.sync_file_).new_context.tsc
            (m.hardware_file_.drop
              (consumed_entries (current_event m.sync_file_).start_context.tsc
                m.hardware_file_).length) = false := by
          rcases hhook with h | h
          · exact absurd hp h
          · exact h
        rw [reconcile_interrupt_immediate _ g0 g1 g2 (by rw [hcur, hmb_prev, hp]) g3
          (by rw [hcur, hmb_hw, consumed_entries_drop]; exact h2)]
        exact ⟨rfl, by simpa using hmb_kill⟩
      · rw [reconcile_interrupt_unmatched_hook _ g0 g1 g2 (by rw [hcur, hmb_prev]; exact hp) g3]
        exact ⟨rfl, by simpa using hmb_kill⟩

theorem handler_restored_except_on_immediate_delivery_witness :
    (interrupted_emulation_boundary.i.execute1 = BxExecutePtr_tR.REP_INSB_YbDX ∧
      postponed_due interrupted_emulation_boundary = false) ∧
    (before_instruction interrupted_emulation_boundary).2.i.execute1 = BxExecutePtr_tR.NOP ∧
    (before_instruction interrupted_emulation_boundary).2.i.execute1 ≠
      interrupted_emulation_boundary.i.execute1 ∧
    (before_instruction interrupted_emulation_boundary).1 = Flow.longjmp 0 ∧
    (before_instruction interrupted_emulation_boundary).2.kill_bochs_request =
      interrupted_emulation_boundary.kill_bochs_request :=
  ⟨by decide,
    ((handler_restored_except_on_immediate_delivery interrupted_emulation_boundary).2.2
      (by decide) (by decide) (by decide) (by decide) (by decide) (by decide) (by decide)
      (by decide) (by decide) (by decide) (by decide) (by decide) (by decide)).1,
    ((handler_restored_except_on_immediate_delivery interrupted_emulation_boundary).2.2
      (by decide) (by decide) (by decide) (by decide) (by decide) (by decide) (by decide)
      (by decide) (by decide) (by decide) (by decide) (by decide) (by decide)).2.1,
    ((handler_restored_except_on_immediate_delivery interrupted_emulation_boundary).2.2
      (by decide) (by decide) (by decide) (by decide) (by decide) (by decide) (by decide)
      (by decide) (by decide) (by decide) (by decide) (by decide) (by decide)).2.2
      (Or.inr (by decide))⟩

/-- C26, as stated, fails: a `REP INSB` whose emulated event carries an
interrupt taken at its own rip is aborted by the forced delivery with its
handler left replaced by `NOP`; the session is not ended. -/
theorem forced_delivery_leaves_NOP :
    interrupted_emulation_boundary.i.execute1 = BxExecutePtr_tR.REP_INSB_YbDX ∧
    (before_instruction interrupted_emulation_boundary).1 = Flow.longjmp 0 ∧
    (before_instruction interrupted_emulation_boundary).2.kill_bochs_request = false ∧
    (before_instruction interrupted_emulation_boundary).2.i.execute1 = BxExecutePtr_tR.NOP := by
  decide


/-! ## Forced page faults -/

theorem and_two_ne_zero (x : Nat) : (x &&& 2 != 0) = x.testBit 1 := by
  have h2 : ∀ i, (2 : Nat).testBit i = decide (1 = i) := fun i =>
    Nat.testBit_two_pow (n := 1) (m := i)
  cases h : x.testBit 1
  · have : x &&& 2 = 0 := by
      apply Nat.eq_of_testBit_eq
      intro i
      rw [Nat.testBit_and, h2]
      by_cases hi : 1 = i
      · subst hi; simp [h]
      · simp [hi]
    simp [this]
  · have : (x &&& 2).testBit 1 = true := by
      rw [Nat.testBit_and, h2, h]
      rfl
    have hne : x &&& 2 ≠ 0 := by
      intro h0
      rw [h0] at this
      simp at this
    simpa using hne

/-- C28. `linear_access` forces a page fault if and only if there is a current
event carrying an interrupt of vector 14 taken at the rip of the current
instruction, the address is the recorded post-state CR2 and the access is a
write exactly when bit 1 of the recorded error code is set; the fault is
forced with the recorded error code, the accessed address and the access
kind, after a warning; in every other case the state is unchanged. -/
theorem linear_access_forces_recorded_fault (m : Replayer) (address : Nat) (rw : AccessKind) :
    (forces_page_fault m address rw →
      linear_access m address rw =
        (m.emit (Effect.warn_forcing_pagefault address m.current_event_.position)).emit
          (Effect.page_fault m.current_event_.fault_error_code address 0 rw)) ∧
    (¬ forces_page_fault m address rw → linear_access m address rw = m) ∧
    ((∃ fault a user k, Effect.page_fault fault a user k ∈
          (linear_access m address rw).log.drop m.log.length) ↔
      forces_page_fault m address rw) := by
  have hP : forces_page_fault m address rw →
      linear_access m address rw =
        (m.emit (Effect.warn_forcing_pagefault address m.current_event_.position)).emit
          (Effect.page_fault m.current_event_.fault_error_code address 0 rw) := by
    rintro ⟨h1, h2, h3, h4, h5, h6⟩
    unfold linear_access
    rw [and_two_ne_zero]
    have hb : (m.current_event_.fault_error_code.testBit 1
        != (rw == AccessKind.BX_WRITE || rw == AccessKind.BX_RW)) = false := by
      cases hx : m.current_event_.fault_error_code.testBit 1 <;> cases rw <;> simp_all
    simp [h1, h2, h3, h4, ← h5, hb]
  have hN : ¬ forces_page_fault m address rw → linear_access m address rw = m := by
    intro hn
    unfold linear_access
    rw [and_two_ne_zero]
    split_ifs with hc hd
    · rfl
    · exfalso
      apply hn
      simp only [Bool.and_eq_true, beq_iff_eq] at hc
      simp only [Bool.or_eq_true, bne_iff_ne, ne_eq, not_or, not_not] at hd
      obtain ⟨⟨⟨h1, h2⟩, h3⟩, h4⟩ := hc
      refine ⟨h1, h2, h4, h3.symm, hd.1, ?_⟩
      have hd2 := hd.2
      cases hx : m.current_event_.fault_error_code.testBit 1 <;> cases rw <;> simp_all
    · rfl
  refine ⟨hP, hN, ?_⟩
  by_cases h : forces_page_fault m address rw
  · rw [hP h]
    simp [Replayer.emit, h]
  · rw [hN h]
    simp [h]

theorem linear_access_forces_recorded_fault_witness :
    forces_page_fault page_fault_pending 0x80050033 AccessKind.BX_WRITE ∧
    linear_access page_fault_pending 0x80050033 AccessKind.BX_WRITE =
      (page_fault_pending.emit
          (Effect.warn_forcing_pagefault 0x80050033
            page_fault_pending.current_event_.position)).emit
        (Effect.page_fault page_fault_pending.current_event_.fault_error_code 0x80050033 0
          AccessKind.BX_WRITE) :=
  ⟨by decide,
    (linear_access_forces_recorded_fault page_fault_pending 0x80050033 AccessKind.BX_WRITE).1
      (by decide)⟩

/-! ## The FPU top-of-stack index -/

/-- C27 on the code. When `apply_sync_event` forces the outcome of an emulated
instruction (and the hardware replay meets no oversized read), the engine's
top-of-stack index is bits 11 to 15 of the recorded 16-bit status word, not
bits 11 to 13: it equals the TOP field, and lies in 0..7, exactly when bits 14
and 15 of the word are clear. -/
theorem apply_sync_event_tos (m : Replayer) (ev : sync_event)
    (hemu : ev.is_instruction_emulation = true)
    (hov : meets_oversized_read ev.new_context.tsc m.hardware_file_ = false) :
    (apply_sync_event m ev).1 = Flow.returned ∧
    (apply_sync_event m ev).2.cpu.i387_swd = ev.new_context.fpu_sw % 2 ^ 16 ∧
    (apply_sync_event m ev).2.cpu.i387_tos = ev.new_context.fpu_sw % 2 ^ 16 / 2 ^ 11 ∧
    ((apply_sync_event m ev).2.cpu.i387_tos = ev.new_context.fpu_sw / 2 ^ 11 % 8 ↔
      ev.new_context.fpu_sw % 2 ^ 16 < 2 ^ 14) ∧
    ((apply_sync_event m ev).2.cpu.i387_tos ≤ 7 ↔ ev.new_context.fpu_sw % 2 ^ 16 < 2 ^ 14) := by
  have htos : (apply_sync_event m ev).2.cpu.i387_tos =
      ev.new_context.fpu_sw % 2 ^ 16 / 2 ^ 11 := by
    rw [apply_sync_event_eq]
    simp only [hov, hemu, Bool.false_eq_true, if_false, if_true, force_emulation,
      Nat.shiftRight_eq_div_pow]
    norm_num
    omega
  refine ⟨?_, ?_, htos, ?_, ?_⟩
  · rw [apply_sync_event_eq]
    simp [hov, hemu]
  · rw [apply_sync_event_eq]
    simp [hov, hemu, force_emulation]
  · rw [htos]
    norm_num
    omega
  · rw [htos]
    norm_num
    omega

theorem apply_sync_event_tos_witness :
    (condition_code_event.is_instruction_emulation = true ∧
      meets_oversized_read condition_code_event.new_context.tsc demo_session.hardware_file_
        = false) ∧
    (apply_sync_event demo_session condition_code_event).2.cpu.i387_tos =
      condition_code_event.new_context.fpu_sw % 2 ^ 16 / 2 ^ 11 :=
  ⟨by decide,
    (apply_sync_event_tos demo_session condition_code_event (by decide) (by decide)).2.2.1⟩

/-- C27, as stated, fails: for the recorded status word `0x4000` (C3 set, TOP
field 0) the forced top-of-stack index is 8. -/
theorem forced_tos_out_of_range :
    condition_code_event.is_instruction_emulation = true ∧
    condition_code_event.new_context.fpu_sw / 2 ^ 11 % 8 = 0 ∧
    (apply_sync_event demo_session condition_code_event).1 = Flow.returned ∧
    (apply_sync_event demo_session condition_code_event).2.cpu.i387_tos = 8 := by
  decide

/-! ## Status flag changes in the trace -/

theorem and_one_shiftLeft (x b : Nat) :
    x &&& (1 <<< b) = if x.testBit b then 2 ^ b else 0 := by
  apply Nat.eq_of_testBit_eq
  intro i
  rw [Nat.testBit_and, Nat.one_shiftLeft, Nat.testBit_two_pow]
  by_cases hb : b = i
  · subst hb
    cases hx : x.testBit b <;> simp [Nat.testBit_two_pow_self]
  · cases hx : x.testBit b <;> simp [hb, Nat.testBit_two_pow_of_ne hb]

theorem flipped_eq (x y b : Nat) :
    ((x &&& (1 <<< b)) != (y &&& (1 <<< b))) = (x.testBit b != y.testBit b) := by
  rw [and_one_shiftLeft, and_one_shiftLeft]
  have hpos : (2 : Nat) ^ b ≠ 0 := by positivity
  cases hx : x.testBit b <;> cases hy : y.testBit b <;> simp [hpos, Ne.symm hpos]

theorem set_test_eq (x b : Nat) : (x &&& (1 <<< b) != 0) = x.testBit b := by
  rw [and_one_shiftLeft]
  have hpos : (2 : Nat) ^ b ≠ 0 := by positivity
  cases hx : x.testBit b <;> simp [hpos]

theorem no_action_eflags_bits_eq : no_action_eflags_bits = 0xFFFFF02A := by decide

theorem eflags_counter_eq (e c : Nat) :
    eflags_counter e c = (flipped_tracked_bits e c).length := by
  unfold eflags_counter flipped_tracked_bits
  congr 2
  funext bit
  exact flipped_eq e c bit

theorem eflags_actions_eq (e c : Nat) (bits : List Nat) :
    ∀ i, eflags_actions e c i bits =
      ((bits.enumFrom i).filter fun p => e.testBit p.2 != c.testBit p.2).map fun p =>
        (if e.testBit p.2 then RegisterOperationFlagSetCf
          else RegisterOperationFlagUnsetCf) + p.1 := by
  induction bits with
  | nil => intro i; rfl
  | cons bit rest ih =>
    intro i
    simp only [eflags_actions, List.enumFrom, flipped_eq, set_test_eq, ih (i + 1)]
    by_cases h : (e.testBit bit != c.testBit bit) = true
    · simp [h, List.filter]
    · simp [h, List.filter]

theorem write_register_actions_eq (n : Nat) (l : List Nat) (h : ∀ k ∈ l, k < 41) :
    write_register_actions (register_action_ids n) l =
      some (l.map fun k => TraceRecord.register_action (n + k)) := by
  induction l with
  | nil => rfl
  | cons k rest ih =>
    have hk := h k (List.mem_cons_self k rest)
    have ih2 := ih fun j hj => h j (List.mem_cons_of_mem k hj)
    simp only [write_register_actions, register_action_ids_get n k hk, ih2, List.map_cons]

theorem enum_index_lt (bits : List Nat) :
    ∀ (i : Nat) (p : Nat × Nat), p ∈ bits.enumFrom i → p.1 < i + bits.length := by
  induction bits with
  | nil => intro i p hp; simp at hp
  | cons bit rest ih =>
    intro i p hp
    simp only [List.enumFrom, List.mem_cons] at hp
    rcases hp with rfl | hp
    · simp
    · have := ih (i + 1) p hp
      simp only [List.length_cons]
      omega

theorem eflags_actions_lt (e c : Nat) :
    ∀ k ∈ eflags_actions e c 0 eflags_bits, k < 41 := by
  intro k hk
  rw [eflags_actions_eq] at hk
  simp only [List.mem_map, List.mem_filter] at hk
  obtain ⟨p, ⟨hp, _⟩, rfl⟩ := hk
  have := enum_index_lt eflags_bits 0 p hp
  have hlen : eflags_bits.length = 9 := rfl
  rw [hlen] at this
  unfold RegisterOperationFlagSetCf RegisterOperationFlagUnsetCf
  split <;> omega

theorem save_cpu_context_eflags_eq (n e c : Nat) (hne : e ≠ c) :
    save_cpu_context_eflags (register_action_ids n) e c =
      (if e &&& 0xFFFFF02A = c &&& 0xFFFFF02A ∧ (flipped_tracked_bits e c).length < 5 then
          some (flag_micro_ops n e c)
        else
          some [TraceRecord.register x86Register.r_eflags 4 e],
        e) := by
  unfold save_cpu_context_eflags
  have hne2 : (e != c) = true := by simpa using hne
  have hw : (write_reg x86Register.r_eflags 4 e c).1 =
      [TraceRecord.register x86Register.r_eflags 4 e] := by
    simp [write_reg, hne]
  rw [if_pos hne2, no_action_eflags_bits_eq, eflags_counter_eq, hw,
    write_register_actions_eq n _ (eflags_actions_lt e c), eflags_actions_eq]
  by_cases h1 : e &&& 0xFFFFF02A = c &&& 0xFFFFF02A
  · by_cases h2 : (flipped_tracked_bits e c).length < 5
    · simp [h1, h2, flag_micro_ops, List.enum, Function.comp_def]
    · simp [h1, h2]
  · simp [h1]

theorem enum_filter_length (q : Nat → Bool) (bits : List Nat) :
    ∀ i, ((bits.enumFrom i).filter fun p => q p.2).length = (bits.filter q).length := by
  induction bits with
  | nil => intro i; rfl
  | cons bit rest ih =>
    intro i
    simp only [List.enumFrom, List.filter]
    cases h : q bit <;> simp [h, ih (i + 1)]

theorem flag_operations (n i bit : Nat) (h : eflags_bits[i]? = some bit) :
    register_operations n (n + (RegisterOperationFlagSetCf + i)) =
      some ⟨x86Register.r_eflags, RegisterOperator.Or, 1 <<< bit⟩ ∧
    register_operations n (n + (RegisterOperationFlagUnsetCf + i)) =
      some ⟨x86Register.r_eflags, RegisterOperator.And, 0xffffffff ^^^ (1 <<< bit)⟩ := by
  have hi : i < 9 := by
    by_contra hc
    have : eflags_bits[i]? = none := List.getElem?_eq_none (by
      have hlen : eflags_bits.length = 9 := rfl
      omega)
    rw [this] at h
    exact Option.noConfusion h
  unfold register_operations RegisterOperationFlagSetCf RegisterOperationFlagUnsetCf
  have hn1 : ¬ (n + (15 + i) < n) := by omega
  have hn2 : ¬ (n + (24 + i) < n) := by omega
  rw [if_neg hn1, if_neg hn2, Nat.add_sub_cancel_left, Nat.add_sub_cancel_left]
  interval_cases i <;> (simp [eflags_bits] at h; subst h; exact ⟨rfl, rfl⟩)

/-- C21, amended. For new and previous EFLAGS that differ: if they agree on
every bit outside the 9 tracked ones (mask `0xFFFFF02A`) and fewer than 5
tracked bits flipped, `save_cpu_context` writes exactly one register action per
flipped tracked bit, the set operation of that bit if it is set in the new
value and the unset operation if it is clear; in every other case it writes a
single 4-byte write of EFLAGS. The machine description stores `or` with the
bit under the set ids and `and` with its complement under the unset ids. -/
theorem eflags_change_encoding (register_enum_count eflags old : Nat) (hne : eflags ≠ old) :
    (eflags &&& 0xFFFFF02A = old &&& 0xFFFFF02A →
      (flipped_tracked_bits eflags old).length < 5 →
      save_cpu_context_eflags (register_action_ids register_enum_count) eflags old =
        (some (flag_micro_ops register_enum_count eflags old), eflags)) ∧
    (¬ (eflags &&& 0xFFFFF02A = old &&& 0xFFFFF02A ∧
        (flipped_tracked_bits eflags old).length < 5) →
      save_cpu_context_eflags (register_action_ids register_enum_count) eflags old =
        (some [TraceRecord.register x86Register.r_eflags 4 eflags], eflags)) ∧
    (flag_micro_ops register_enum_count eflags old).length =
      (flipped_tracked_bits eflags old).length ∧
    (∀ i bit : Nat, eflags_bits[i]? = some bit →
      register_operations register_enum_count
          (register_enum_count + (RegisterOperationFlagSetCf + i)) =
        some ⟨x86Register.r_eflags, RegisterOperator.Or, 1 <<< bit⟩ ∧
      register_operations register_enum_count
          (register_enum_count + (RegisterOperationFlagUnsetCf + i)) =
        some ⟨x86Register.r_eflags, RegisterOperator.And, 0xffffffff ^^^ (1 <<< bit)⟩) := by
  refine ⟨?_, ?_, ?_, fun i bit h => flag_operations register_enum_count i bit h⟩
  · intro h1 h2
    rw [save_cpu_context_eflags_eq _ _ _ hne, if_pos ⟨h1, h2⟩]
  · intro h
    rw [save_cpu_context_eflags_eq _ _ _ hne, if_neg h]
  · unfold flag_micro_ops flipped_tracked_bits List.enum
    rw [List.length_map]
    exact enum_filter_length (fun bit => eflags.testBit bit != old.testBit bit) eflags_bits 0

theorem eflags_change_encoding_witness :
    ((0x247 : Nat) ≠ 0x202 ∧ (0x247 : Nat) &&& 0xFFFFF02A = 0x202 &&& 0xFFFFF02A ∧
      (flipped_tracked_bits 0x247 0x202).length < 5) ∧
    save_cpu_context_eflags (register_action_ids 100) 0x247 0x202 =
      (some (flag_micro_ops 100 0x247 0x202), 0x247) ∧
    flag_micro_ops 100 0x247 0x202 =
      [TraceRecord.register_action 115, TraceRecord.register_action 116,
        TraceRecord.register_action 118] :=
  ⟨by decide,
    (eflags_change_encoding 100 0x247 0x202 (by decide)).1 (by decide) (by decide),
    by decide⟩

/-- C21 as stated fails: from `0x202` to `0x10203` a single tracked bit (CF)
flipped, together with the untracked bit 16, and `save_cpu_context` writes a
full 4-byte write of EFLAGS, not one set micro-op. -/
theorem untracked_flag_change_is_full_write :
    (0x10203 : Nat) ≠ 0x202 ∧ flipped_tracked_bits 0x10203 0x202 = [0] ∧
    save_cpu_context_eflags (register_action_ids 100) 0x10203 0x202 =
      (some [TraceRecord.register x86Register.r_eflags 4 0x10203], 0x10203) := by
  decide

/-! ## Losslessness of the difference encoding -/

theorem register_operations_get (n k : Nat) :
    register_operations n (n + k) = register_operation_list[k]? := by
  unfold register_operations
  have hn : ¬ (n + k < n) := by omega
  rw [if_neg hn, Nat.add_sub_cancel_left]

theorem apply_register_action (n k : Nat) (op : RegisterOperation) (r : TracedRegisters)
    (h : register_operation_list[k]? = some op) :
    apply_record n r (TraceRecord.register_action (n + k)) = apply_operation op r := by
  simp only [apply_record, register_operations_get, h]

theorem long_int_eq (x : Nat) (hx : x < 2 ^ 64) :
    long_int x = if x < 2 ^ 63 then (x : Int) else (x : Int) - 2 ^ 64 := by
  unfold long_int
  rw [Nat.mod_eq_of_lt hx]

theorem save_cpu_context_rsp_lossless (n rsp old : Nat) (h1 : rsp < 2 ^ 64)
    (h2 : old < 2 ^ 64) :
    ∃ records, save_cpu_context_rsp (register_action_ids n) rsp old = (some records, rsp) ∧
      ∀ r : TracedRegisters, r.rsp = old →
        records.foldl (apply_record n) r = { r with rsp := rsp } := by
  have hd : (rsp + 2 ^ 64 - old) % 2 ^ 64 < 2 ^ 64 := Nat.mod_lt _ (by norm_num)
  have hl : long_int (rsp + 2 ^ 64 - old) =
      if (rsp + 2 ^ 64 - old) % 2 ^ 64 < 2 ^ 63 then (((rsp + 2 ^ 64 - old) % 2 ^ 64 : Nat) : Int)
      else (((rsp + 2 ^ 64 - old) % 2 ^ 64 : Nat) : Int) - 2 ^ 64 := rfl
  generalize hg : (rsp + 2 ^ 64 - old) % 2 ^ 64 = d at hd hl
  have hsum : (old + d) % 2 ^ 64 = rsp := by
    rw [← hg]
    norm_num at h1 h2 ⊢
    omega
  unfold save_cpu_context_rsp
  by_cases h0 : long_int (rsp + 2 ^ 64 - old) = 0
  · have hd0 : d = 0 := by
      rw [hl] at h0
      norm_num at hd h0
      split_ifs at h0 <;> omega
    have he : rsp = old := by
      rw [hd0] at hsum
      norm_num at h2 hsum
      omega
    refine ⟨[], by rw [if_pos h0], ?_⟩
    intro r hr
    cases r
    simp only at hr
    simp [hr, he]
  · rw [if_neg h0]
    have step : ∀ (k operand : Nat), k < 41 →
        register_operation_list[k]? =
          some ⟨x86Register.r_rsp, RegisterOperator.Add, operand⟩ →
        (old + operand) % 2 ^ 64 = rsp →
        ∃ records,
          ((register_action_ids n)[k]?.map fun id => [TraceRecord.register_action id]) =
            some records ∧
          ∀ r : TracedRegisters, r.rsp = old →
            records.foldl (apply_record n) r = { r with rsp := rsp } := by
      intro k operand hk hop hs
      refine ⟨[TraceRecord.register_action (n + k)], by rw [register_action_ids_get n k hk]; rfl,
        ?_⟩
      intro r hr
      simp only [List.foldl, apply_register_action n k _ r hop, apply_operation, hr, hs]
    unfold rsp_action
    split_ifs with c1 c2 c3 c4 c5 c6 c7 c8
    · obtain ⟨records, hrec, hfold⟩ := step 33 2 (by norm_num) rfl (by
        rw [hl] at c1
        norm_num at hd c1 hsum ⊢
        split_ifs at c1 <;> omega)
      exact ⟨records, by simp only [RegisterOperationRspPlus2, hrec], hfold⟩
    · obtain ⟨records, hrec, hfold⟩ := step 34 4 (by norm_num) rfl (by
        rw [hl] at c2
        norm_num at hd c2 hsum ⊢
        split_ifs at c2 <;> omega)
      exact ⟨records, by simp only [RegisterOperationRspPlus4, hrec], hfold⟩
    · obtain ⟨records, hrec, hfold⟩ := step 35 8 (by norm_num) rfl (by
        rw [hl] at c3
        norm_num at hd c3 hsum ⊢
        split_ifs at c3 <;> omega)
      exact ⟨records, by simp only [RegisterOperationRspPlus8, hrec], hfold⟩
    · obtain ⟨records, hrec, hfold⟩ := step 36 16 (by norm_num) rfl (by
        rw [hl] at c4
        norm_num at hd c4 hsum ⊢
        split_ifs at c4 <;> omega)
      exact ⟨records, by simp only [RegisterOperationRspPlus16, hrec], hfold⟩
    · obtain ⟨records, hrec, hfold⟩ := step 37 (2 ^ 64 - 2) (by norm_num) rfl (by
        rw [hl] at c5
        norm_num at hd c5 hsum ⊢
        split_ifs at c5
        omega)
      exact ⟨records, by simp only [RegisterOperationRspMinus2, hrec], hfold⟩
    · obtain ⟨records, hrec, hfold⟩ := step 38 (2 ^ 64 - 4) (by norm_num) rfl (by
        rw [hl] at c6
        norm_num at hd c6 hsum ⊢
        split_ifs at c6
        omega)
      exact ⟨records, by simp only [RegisterOperationRspMinus4, hrec], hfold⟩
    · obtain ⟨records, hrec, hfold⟩ := step 39 (2 ^ 64 - 8) (by norm_num) rfl (by
        rw [hl] at c7
        norm_num at hd c7 hsum ⊢
        split_ifs at c7
        omega)
      exact ⟨records, by simp only [RegisterOperationRspMinus8, hrec], hfold⟩
    · obtain ⟨records, hrec, hfold⟩ := step 40 (2 ^ 64 - 16) (by norm_num) rfl (by
        rw [hl] at c8
        norm_num at hd c8 hsum ⊢
        split_ifs at c8
        omega)
      exact ⟨records, by simp only [RegisterOperationRspMinus16, hrec], hfold⟩
    · have hne : rsp ≠ old := by
        intro he
        apply h0
        rw [hl]
        have : d = 0 := by
          rw [← hg, he]
          norm_num
        rw [this]
        norm_num
      refine ⟨[TraceRecord.register x86Register.r_rsp 8 rsp], by simp [write_reg, hne], ?_⟩
      intro r _
      simp only [List.foldl, apply_record]
      rw [Nat.mod_eq_of_lt h1]

theorem save_cpu_context_rip_lossless (n rip old : Nat) (h1 : rip < 2 ^ 64)
    (h2 : old < 2 ^ 64) :
    ∃ records, save_cpu_context_rip (register_action_ids n) rip old = (some records, rip) ∧
      ∀ r : TracedRegisters, r.rip = old →
        records.foldl (apply_record n) r = { r with rip := rip } := by
  have hsum : (old + (rip + 2 ^ 64 - old) % 2 ^ 64) % 2 ^ 64 = rip := by
    norm_num at h1 h2 ⊢
    omega
  have hzero : rip = old → (rip + 2 ^ 64 - old) % 2 ^ 64 = 0 := by
    intro he
    rw [he]
    norm_num
  generalize hd : (rip + 2 ^ 64 - old) % 2 ^ 64 = d at hsum hzero
  unfold save_cpu_context_rip
  rw [hd]
  by_cases h0 : d = 0
  · have he : rip = old := by
      rw [h0] at hsum
      norm_num at h2 hsum
      omega
    refine ⟨[], by simp [he, write_reg], ?_⟩
    intro r hr
    cases r
    simp only at hr
    simp [hr, he]
  · have hne : rip ≠ old := fun he => h0 (hzero he)
    by_cases h15 : d ≤ 15
    · have hidx : (RegisterOperationRipPlus1 + (2 ^ 64 - 1) + d) % 2 ^ 64 = d - 1 := by
        unfold RegisterOperationRipPlus1
        norm_num
        omega
      refine ⟨[TraceRecord.register_action (n + (d - 1))], ?_, ?_⟩
      · rw [hidx, register_action_ids_get _ _ (by omega)]
        simp [h15, hne]
      · intro r hr
        simp only [List.foldl, apply_record, register_operations_rip n d (by omega) h15,
          apply_operation, hr, hsum]
    · refine ⟨[TraceRecord.register x86Register.r_rip 8 rip], by simp [h15, write_reg, hne], ?_⟩
      intro r _
      simp only [List.foldl, apply_record]
      rw [Nat.mod_eq_of_lt h1]

theorem testBit_of_lt_32 (x j : Nat) (hx : x < 2 ^ 32) (h : x.testBit j = true) : j < 32 := by
  by_contra hc
  have hle : 2 ^ 32 ≤ 2 ^ j := Nat.pow_le_pow_right (by norm_num) (by omega)
  have := Nat.testBit_lt_two_pow (lt_of_lt_of_le hx hle)
  rw [this] at h
  exact Bool.noConfusion h

theorem eflags_bit_lt (i b : Nat) (h : eflags_bits[i]? = some b) : b < 12 := by
  have hmem : b ∈ eflags_bits := List.getElem?_mem h
  have hall : ∀ x ∈ eflags_bits, x < 12 := by decide
  exact hall b hmem

theorem flag_step (n i b e : Nat) (r : TracedRegisters) (h : eflags_bits[i]? = some b)
    (hr : r.eflags < 2 ^ 32) :
    (apply_record n r (TraceRecord.register_action
        (n + ((if e.testBit b then RegisterOperationFlagSetCf
          else RegisterOperationFlagUnsetCf) + i)))).rip = r.rip ∧
    (apply_record n r (TraceRecord.register_action
        (n + ((if e.testBit b then RegisterOperationFlagSetCf
          else RegisterOperationFlagUnsetCf) + i)))).rsp = r.rsp ∧
    (apply_record n r (TraceRecord.register_action
        (n + ((if e.testBit b then RegisterOperationFlagSetCf
          else RegisterOperationFlagUnsetCf) + i)))).eflags < 2 ^ 32 ∧
    ∀ j, (apply_record n r (TraceRecord.register_action
        (n + ((if e.testBit b then RegisterOperationFlagSetCf
          else RegisterOperationFlagUnsetCf) + i)))).eflags.testBit j =
      if j = b then e.testBit b else r.eflags.testBit j := by
  have hb := eflags_bit_lt i b h
  have hops := flag_operations n i b h
  cases he : e.testBit b
  · simp only [Bool.false_eq_true, if_false, apply_record, hops.2, apply_operation]
    refine ⟨trivial, trivial, lt_of_le_of_lt Nat.and_le_left hr, ?_⟩
    intro j
    have hm : (0xffffffff : Nat) = 2 ^ 32 - 1 := by norm_num
    rw [Nat.testBit_and, Nat.testBit_xor, hm, Nat.testBit_two_pow_sub_one, Nat.one_shiftLeft,
      Nat.testBit_two_pow]
    by_cases hj : j = b
    · subst hj
      have : j < 32 := by omega
      simp [this]
    · have hj2 : ¬ b = j := fun hc => hj hc.symm
      cases hx : r.eflags.testBit j
      · simp [hj]
      · have := testBit_of_lt_32 _ _ hr hx
        simp [hj, hj2, this]
  · simp only [if_true, apply_record, hops.1, apply_operation]
    refine ⟨trivial, trivial, Nat.or_lt_two_pow hr ?_, ?_⟩
    · rw [Nat.one_shiftLeft]
      exact Nat.pow_lt_pow_right (by norm_num) (by omega)
    · intro j
      rw [Nat.testBit_or, Nat.one_shiftLeft, Nat.testBit_two_pow]
      by_cases hj : j = b
      · subst hj
        simp
      · have hj2 : ¬ b = j := fun hc => hj hc.symm
        simp [hj, hj2]

theorem flag_fold (n e c : Nat) (bits : List Nat) :
    ∀ (i : Nat) (r : TracedRegisters), (∀ k, bits[k]? = eflags_bits[i + k]?) →
      r.eflags < 2 ^ 32 →
      ((((bits.enumFrom i).filter fun p => e.testBit p.2 != c.testBit p.2).map
          fun p => TraceRecord.register_action
            (n + ((if e.testBit p.2 then RegisterOperationFlagSetCf
              else RegisterOperationFlagUnsetCf) + p.1))).foldl (apply_record n) r).rip
        = r.rip ∧
      ((((bits.enumFrom i).filter fun p => e.testBit p.2 != c.testBit p.2).map
          fun p => TraceRecord.register_action
            (n + ((if e.testBit p.2 then RegisterOperationFlagSetCf
              else RegisterOperationFlagUnsetCf) + p.1))).foldl (apply_record n) r).rsp
        = r.rsp ∧
      ∀ j, ((((bits.enumFrom i).filter fun p => e.testBit p.2 != c.testBit p.2).map
          fun p => TraceRecord.register_action
            (n + ((if e.testBit p.2 then RegisterOperationFlagSetCf
              else RegisterOperationFlagUnsetCf) + p.1))).foldl
                (apply_record n) r).eflags.testBit j =
        if j ∈ bits ∧ (e.testBit j != c.testBit j) = true then e.testBit j
        else r.eflags.testBit j := by
  induction bits with
  | nil =>
    intro i r _ _
    simp
  | cons b rest ih =>
    intro i r hbits hr
    have hhead : eflags_bits[i]? = some b := by
      have := hbits 0
      simpa using this.symm
    have htail : ∀ k, rest[k]? = eflags_bits[i + 1 + k]? := by
      intro k
      have := hbits (k + 1)
      rw [List.getElem?_cons_succ] at this
      rw [this]
      congr 1
      omega
    by_cases hf : (e.testBit b != c.testBit b) = true
    · obtain ⟨s1, s2, s3, s4⟩ := flag_step n i b e r hhead hr
      obtain ⟨t1, t2, t3⟩ := ih (i + 1) _ htail s3
      simp only [List.enumFrom, List.filter, hf, List.map_cons, List.foldl_cons]
      refine ⟨t1.trans s1, t2.trans s2, ?_⟩
      intro j
      rw [t3 j, s4 j]
      by_cases hj : j = b
      · subst hj
        simp [hf]
      · simp [hj]
    · obtain ⟨t1, t2, t3⟩ := ih (i + 1) r htail hr
      simp only [List.enumFrom, List.filter, hf]
      refine ⟨t1, t2, ?_⟩
      intro j
      rw [t3 j]
      by_cases hj : j = b
      · subst hj
        simp [hf]
      · simp [hj]

theorem untracked_bits_in_mask :
    ∀ j < 32, j ∉ eflags_bits → (0xFFFFF02A : Nat).testBit j = true := by
  decide

theorem flag_micro_ops_lossless (n e c : Nat) (he : e < 2 ^ 32) (hc : c < 2 ^ 32)
    (hmask : e &&& 0xFFFFF02A = c &&& 0xFFFFF02A) (r : TracedRegisters) (hr : r.eflags = c) :
    (flag_micro_ops n e c).foldl (apply_record n) r = { r with eflags := e } := by
  have hrc : r.eflags < 2 ^ 32 := by rw [hr]; exact hc
  obtain ⟨t1, t2, t3⟩ := flag_fold n e c eflags_bits 0 r (fun k => by rw [Nat.zero_add]) hrc
  have heq : ((flag_micro_ops n e c).foldl (apply_record n) r).eflags = e := by
    apply Nat.eq_of_testBit_eq
    intro j
    unfold flag_micro_ops List.enum
    rw [t3 j, hr]
    by_cases hj : j ∈ eflags_bits
    · by_cases hf : (e.testBit j != c.testBit j) = true
      · simp [hj, hf]
      · rw [if_neg (fun h => hf h.2)]
        have hf2 : e.testBit j = c.testBit j := by simpa using hf
        exact hf2.symm
    · rw [if_neg (fun h => hj h.1)]
      by_cases h32 : j < 32
      · have hm := untracked_bits_in_mask j h32 hj
        have := congrArg (fun x => x.testBit j) hmask
        simp only [Nat.testBit_and, hm, Bool.and_true] at this
        exact this.symm
      · have h1 : e.testBit j = false := by
          by_contra hx
          exact h32 (testBit_of_lt_32 e j he (by simpa using hx))
        have h2 : c.testBit j = false := by
          by_contra hx
          exact h32 (testBit_of_lt_32 c j hc (by simpa using hx))
        rw [h1, h2]
  generalize hres : (flag_micro_ops n e c).foldl (apply_record n) r = res at heq
  unfold flag_micro_ops List.enum at hres
  rw [hres] at t1 t2
  cases res
  cases r
  simp only at t1 t2 heq
  simp [t1, t2, heq]

theorem save_cpu_context_eflags_lossless (n e c : Nat) (he : e < 2 ^ 32) (hc : c < 2 ^ 32) :
    ∃ records, save_cpu_context_eflags (register_action_ids n) e c = (some records, e) ∧
      ∀ r : TracedRegisters, r.eflags = c →
        records.foldl (apply_record n) r = { r with eflags := e } := by
  by_cases hne : e = c
  · refine ⟨[], by simp [save_cpu_context_eflags, hne], ?_⟩
    intro r hr
    cases r
    simp only at hr
    simp [hr, hne]
  · rw [save_cpu_context_eflags_eq n e c hne]
    by_cases h : e &&& 0xFFFFF02A = c &&& 0xFFFFF02A ∧ (flipped_tracked_bits e c).length < 5
    · rw [if_pos h]
      exact ⟨_, rfl, fun r hr => flag_micro_ops_lossless n e c he hc h.1 r hr⟩
    · rw [if_neg h]
      refine ⟨_, rfl, ?_⟩
      intro r _
      simp only [List.foldl, apply_record]
      rw [Nat.mod_eq_of_lt he]

/-- C25. For every previous and new context whose RIP and RSP are 64-bit and
whose EFLAGS are 32-bit values, `save_cpu_context` writes a list of records and
leaves the new values as comparison values, and applying the records in order
to the previous values (a register action does what the machine description
stores under its id, a register write overwrites with the written bytes) gives
exactly the new RIP, RSP and EFLAGS. -/
theorem save_cpu_context_lossless (register_enum_count : Nat) (ctx old : TracedRegisters)
    (hrip : ctx.rip < 2 ^ 64) (hrsp : ctx.rsp < 2 ^ 64) (hfl : ctx.eflags < 2 ^ 32)
    (horip : old.rip < 2 ^ 64) (horsp : old.rsp < 2 ^ 64) (hofl : old.eflags < 2 ^ 32) :
    ∃ records,
      save_cpu_context (register_action_ids register_enum_count) ctx old = (some records, ctx) ∧
      records.foldl (apply_record register_enum_count) old = ctx := by
  obtain ⟨a, ha, fa⟩ := save_cpu_context_rip_lossless register_enum_count _ _ hrip horip
  obtain ⟨b, hb, fb⟩ := save_cpu_context_rsp_lossless register_enum_count _ _ hrsp horsp
  obtain ⟨c, hc, fc⟩ := save_cpu_context_eflags_lossless register_enum_count _ _ hfl hofl
  refine ⟨a ++ b ++ c, ?_, ?_⟩
  · unfold save_cpu_context
    rw [ha, hb, hc]
  · rw [List.foldl_append, List.foldl_append, fa old rfl,
      fb ⟨ctx.rip, old.rsp, old.eflags⟩ rfl, fc ⟨ctx.rip, ctx.rsp, old.eflags⟩ rfl]

theorem save_cpu_context_lossless_witness :
    ∃ records,
      save_cpu_context (register_action_ids 100) ⟨0x401003, 0x7ffdfff8, 0x247⟩
          ⟨0x401000, 0x7ffe0000, 0x202⟩ =
        (some records, ⟨0x401003, 0x7ffdfff8, 0x247⟩) ∧
      records.foldl (apply_record 100) ⟨0x401000, 0x7ffe0000, 0x202⟩ =
        ⟨0x401003, 0x7ffdfff8, 0x247⟩ :=
  save_cpu_context_lossless 100 ⟨0x401003, 0x7ffdfff8, 0x247⟩ ⟨0x401000, 0x7ffe0000, 0x202⟩
    (by decide) (by decide) (by decide) (by decide) (by decide) (by decide)

/-! ## Exit codes -/

/-- C22. The value returned by `bxmain`: it is 2 when the simulation returned
with a desync recorded and `--fail-on-desync` was given; it is 1 when the
options are rejected (`store` or `notify` throws), when `Replayer::load` fails
(snapshot unparseable, not exactly one core, sync or hardware stream not
loaded) and when the memory size in MiB is above 2048; and when the simulation
returned without a flagged desync it is the exit code of the engine, hence 0
when the engine reports 0. -/
theorem bxmain_exit_code (r : MainRun) :
    (simulation_returns r = true → r.fail_on_desync = true → r.desync = true →
      bxmain r = 2) ∧
    (r.store_throws = true → bxmain r = 1) ∧
    (r.store_throws = false → r.help = false → r.version = false →
      r.notify_throws = true → bxmain r = 1) ∧
    (options_accepted r = true →
      (r.load_run.core_parse_throws = true ∨ r.load_run.cpu_count ≠ 1 ∨
        r.load_run.sync_file ≠ StreamLoad.loaded ∨
        r.load_run.hardware_file ≠ StreamLoad.loaded) →
      bxmain r = 1) ∧
    (options_accepted r = true → load r.load_run = true → 0 ≤ r.bx_init_main →
      ∀ size, r.memory_size = some size → 2048 < size / (1024 * 1024) → bxmain r = 1) ∧
    (simulation_returns r = true → ¬ (r.fail_on_desync = true ∧ r.desync = true) →
      bxmain r = r.exit_code ∧ (r.exit_code = 0 → bxmain r = 0)) := by
  obtain ⟨st, he, ve, nt, fd, lr, bi, ms, bs, ds, ec⟩ := r
  refine ⟨?_, ?_, ?_, ?_, ?_, ?_⟩
  · intro h hf hd
    simp only [simulation_returns, options_accepted, Bool.and_eq_true, Bool.not_eq_true,
      Bool.not_eq_eq_eq_not, Bool.not_true, decide_eq_true_eq] at h
    obtain ⟨⟨⟨⟨⟨⟨⟨h1, h2⟩, h3⟩, h4⟩, h5⟩, h6⟩, h7⟩, h8⟩ := h
    simp only at h1 h2 h3 h4 h5 h6 h7 h8 hf hd
    cases ms with
    | none => simp at h7
    | some size =>
      simp only [decide_eq_true_eq] at h7
      have h7b : ¬ size / (1024 * 1024) > 2048 := by omega
      have h6b : ¬ bi < 0 := by omega
      simp [bxmain, h1, h2, h3, h4, h5, h6b, h7b, h8, hf, hd]
  · intro h
    simp only at h
    simp [bxmain, h]
  · intro h1 h2 h3 h4
    simp only at h1 h2 h3 h4
    simp [bxmain, h1, h2, h3, h4]
  · intro h hl
    simp only [options_accepted, Bool.and_eq_true, Bool.not_eq_true,
      Bool.not_eq_eq_eq_not, Bool.not_true] at h
    obtain ⟨⟨⟨h1, h2⟩, h3⟩, h4⟩ := h
    simp only at h1 h2 h3 h4 hl
    have hload : load lr = false := by
      unfold load
      rcases hl with hl | hl | hl | hl
      · simp [hl]
      · simp [hl]
      · simp [hl]
      · simp [hl]
    simp [bxmain, h1, h2, h3, h4, hload]
  · intro h hl hb size hs hgt
    simp only [options_accepted, Bool.and_eq_true, Bool.not_eq_true,
      Bool.not_eq_eq_eq_not, Bool.not_true] at h
    obtain ⟨⟨⟨h1, h2⟩, h3⟩, h4⟩ := h
    simp only at h1 h2 h3 h4 hl hb hs
    have hb2 : ¬ bi < 0 := by omega
    simp [bxmain, h1, h2, h3, h4, hl, hb2, hs, hgt]
  · intro h hnd
    simp only [simulation_returns, options_accepted, Bool.and_eq_true, Bool.not_eq_true,
      Bool.not_eq_eq_eq_not, Bool.not_true, decide_eq_true_eq] at h
    obtain ⟨⟨⟨⟨⟨⟨⟨h1, h2⟩, h3⟩, h4⟩, h5⟩, h6⟩, h7⟩, h8⟩ := h
    simp only at h1 h2 h3 h4 h5 h6 h7 h8 hnd
    cases ms with
    | none => simp at h7
    | some size =>
      simp only [decide_eq_true_eq] at h7
      have h7b : ¬ size / (1024 * 1024) > 2048 := by omega
      have h6b : ¬ bi < 0 := by omega
      have hfd : (fd && ds) = false := by
        cases fd <;> cases ds <;> simp at hnd ⊢
      have hret : bxmain ⟨st, he, ve, nt, fd, lr, bi, some size, bs, ds, ec⟩ = ec := by
        simp [bxmain, h1, h2, h3, h4, h5, h6b, h7b, h8, hfd]
      exact ⟨hret, fun h0 => by rw [hret]; exact h0⟩

theorem bxmain_exit_code_witness :
    bxmain { complete_run with fail_on_desync := true, desync := true } = 2 ∧
    bxmain { complete_run with notify_throws := true } = 1 ∧
    bxmain { complete_run with
      load_run := { complete_run.load_run with sync_file := StreamLoad.not_loaded } } = 1 ∧
    bxmain { complete_run with memory_size := some (4096 * 1024 * 1024) } = 1 ∧
    bxmain complete_run = 0 :=
  ⟨(bxmain_exit_code { complete_run with fail_on_desync := true, desync := true }).1
      (by decide) (by decide) (by decide),
    (bxmain_exit_code { complete_run with notify_throws := true }).2.2.1
      (by decide) (by decide) (by decide) (by decide),
    (bxmain_exit_code { complete_run with
      load_run := { complete_run.load_run with sync_file := StreamLoad.not_loaded } }).2.2.2.1
      (by decide) (Or.inr (Or.inr (Or.inl (by decide)))),
    (bxmain_exit_code { complete_run with memory_size := some (4096 * 1024 * 1024) }).2.2.2.2.1
      (by decide) (by decide) (by decide) _ rfl (by decide),
    ((bxmain_exit_code complete_run).2.2.2.2.2 (by decide) (by decide)).2 (by decide)⟩

/-! ## Exception descriptions across calls -/

theorem exception_event_descriptions_initialised (s : exception_strings)
    (calls : List (Int × Nat)) :
    exception_event_descriptions (some s) calls = calls.map fun call => s.select call.1 := by
  induction calls with
  | nil => rfl
  | cons call rest ih =>
    simp only [exception_event_descriptions, exception_event_description, ih, List.map_cons]

/-- C29, what the code does instead. In any sequence of calls starting with
uninitialised statics, every description is selected by the vector of its own
call from the strings built from the arguments of the first call: the error
code in it is the one of the first call, and for an unlisted vector the number
in it is the vector of the first call. -/
theorem exception_event_description_keeps_first_arguments (vector : Int) (error_code : Nat)
    (calls : List (Int × Nat)) :
    exception_event_descriptions none ((vector, error_code) :: calls) =
      ((vector, error_code) :: calls).map fun call =>
        (exception_strings.init vector error_code).select call.1 := by
  simp only [exception_event_descriptions, exception_event_description,
    exception_event_descriptions_initialised, List.map_cons]

/-- A page fault with error code 2 followed by one with error code 7 is
described twice with error code 2, and the unlisted vector 0x21 after the
unlisted vector 0x20 is described as exception 32; each call made first
describes its own arguments. -/
theorem second_description_repeats_first_arguments :
    exception_event_descriptions none [(0xE, 2), (0xE, 7)] =
      ["page fault with error code 2", "page fault with error code 2"] ∧
    exception_event_descriptions none [(0xE, 7)] = ["page fault with error code 7"] ∧
    exception_event_descriptions none [(0x20, 0), (0x21, 0)] =
      ["unknown exception 32", "unknown exception 32"] ∧
    exception_event_descriptions none [(0x21, 0)] = ["unknown exception 33"] := by
  decide

/-! ## The bytes of an x87 register in the trace context -/

theorem object_bytes_length (size x : Nat) : (object_bytes size x).length = size := by
  simp [object_bytes]

theorem object_bytes_take (x : Nat) : (object_bytes 8 x).take 2 = object_bytes 2 x := by
  simp only [object_bytes, ← List.map_take, List.take_range]
  rfl

/-- C30, what the code does instead. Whatever the 10 bytes held before,
`create_cpu_context` leaves in them the 8 bytes of the fraction followed by
the 2 lowest bytes of the same fraction; the exponent is not read. -/
theorem create_cpu_context_fpreg_bytes (value : List Nat) (st : floatx80)
    (hlen : value.length = 10) :
    create_cpu_context_fpreg value st =
      object_bytes 8 st.fraction ++ object_bytes 2 st.fraction := by
  have h8 : (object_bytes 8 st.fraction).length = 8 := object_bytes_length 8 _
  have hd : (value.drop 8).length = 2 := by rw [List.length_drop, hlen]
  unfold create_cpu_context_fpreg memcpy
  rw [List.take_zero, List.nil_append, Nat.zero_add, List.take_of_length_le (le_of_eq h8),
    List.take_left' h8, object_bytes_take]
  have : List.drop (8 + 2) (object_bytes 8 st.fraction ++ List.drop 8 value) = [] := by
    apply List.drop_of_length_le
    rw [List.length_append, h8, hd]
  rw [this, List.append_nil]

theorem create_cpu_context_fpreg_bytes_witness :
    (List.replicate 10 0).length = 10 ∧
    create_cpu_context_fpreg (List.replicate 10 0) st_one =
      object_bytes 8 st_one.fraction ++ object_bytes 2 st_one.fraction :=
  ⟨by decide, create_cpu_context_fpreg_bytes (List.replicate 10 0) st_one (by decide)⟩

/-- For the register holding 1.0 the two last bytes stored are `00 00`, the
low bytes of the fraction, where the exponent `0x3fff` has the bytes
`ff 3f`. -/
theorem stored_exponent_of_one :
    create_cpu_context_fpreg (List.replicate 10 0) st_one =
      [0, 0, 0, 0, 0, 0, 0, 0x80, 0, 0] ∧
    fraction_then_exp st_one = [0, 0, 0, 0, 0, 0, 0, 0x80, 0xff, 0x3f] := by
  decide

end reven
